import Mathlib

/-!
# LightDM greeter protocol: a shallow embedding of `src/greeter.c` and `src/pam-session.c`

The daemon talks to the greeter process over two pipes with length-prefixed
frames.  This file embeds the supervisor-side code of the `Greeter` object and of
the `PAMSession` object it drives, and states the properties of the
specification over that embedding.

Conventions of the embedding

* A C string (`gchar *`) is the list of its octets without the terminator,
  `Option` when the pointer may be `NULL`.  Strings are shorter than `2^31`
  octets, so `gint length = strlen (value)` is the list length.
* `guint32` values are naturals reduced modulo `2^32` where they are stored.
* The stack buffer `guint8 message[MAX_MESSAGE_LENGTH]` is a list of
  `MAX_MESSAGE_LENGTH` octets; `write_message` sends its first `offset` octets.
* Side effects on the outside world (frames written to the pipe, signals
  emitted, preferences persisted) are recorded in trace fields of `Greeter`.
* Answers of the outside world (signal handlers living in `display.c`, thread
  creation, the password database) are the fields of `Env`.
* The supervisor loop is the function `step` on `Event`s: the messages of the
  greeter and the callbacks the worker thread of a session posts.  A `run` is a
  list of events, each with the answers of the outside world at that time.
* The seat of `src/seat.c` is embedded the same way: a display is a number, the
  calls the seat makes on its displays and on the guest account are recorded in
  `Seat.calls`, its signals in `Seat.emitted`, the answers of the displays are
  the fields of `SeatEnv`, and `seat_step` handles one `SeatEvent`.
* Of `src/lightdm.c` the callback `seat_removed_cb` and the part of `main` that
  hands the seats to the display manager are embedded, with the configuration
  as `Config` and the calls recorded in `Daemon.calls`; of
  `utils/lightdm-set-defaults.c` the function `str_to_bool`.
-/

set_option autoImplicit false

namespace LightDM

/-! ## Data model -/

/-- Octets of a C string, terminator excluded. -/
abbrev CString := List Nat

/-- PAM result codes and message styles of `<security/_pam_types.h>`. -/
def PAM_SUCCESS : Nat := 0
def PAM_SYSTEM_ERR : Nat := 4
def PAM_AUTH_ERR : Nat := 7
def PAM_USER_UNKNOWN : Nat := 10
def PAM_CONV_ERR : Nat := 19
def PAM_PROMPT_ECHO_OFF : Nat := 1
def PAM_PROMPT_ECHO_ON : Nat := 2
def PAM_ERROR_MSG : Nat := 3
def PAM_TEXT_INFO : Nat := 4

/-- Record `struct pam_message`. -/
structure pam_message where
  msg_style : Nat
  msg : Option CString
deriving DecidableEq, Repr

/-- Record `struct pam_response`; `calloc` yields `resp = NULL`, `resp_retcode = 0`. -/
structure pam_response where
  resp : Option CString
  resp_retcode : Nat
deriving DecidableEq, Repr

/-- Items pushed on `authentication_response_queue`: a response vector, or the
pointer `GINT_TO_POINTER (-1)` pushed by `pam_session_cancel`. -/
inductive QueueItem where
  | response (r : List pam_response)
  | cancelled
deriving DecidableEq, Repr

/-- Record `User` of `accounts.c`, as far as the greeter uses it. -/
structure User where
  name : CString
  home_directory : CString := []
deriving DecidableEq, Repr

/-- Calls into the PAM library made by `pam_session_open`, `pam_session_setup`
and `pam_session_close`, with the flag given to `pam_setcred`. -/
inductive PAMCall where
  | pam_open_session
  | pam_setcred (flags : Nat)
  | pam_close_session
  | pam_end
deriving DecidableEq, Repr

/-- Signals a `PAMSession` emits (`signals[]` of `pam-session.c`). -/
inductive PAMSessionSignal where
  | AUTHENTICATION_STARTED
  | GOT_MESSAGES (num_msg : Nat) (msg : List pam_message)
  | AUTHENTICATION_RESULT (result : Nat)
deriving DecidableEq, Repr

/-- Private data of a `PAMSession` (`struct PAMSessionPrivate`).  `self` is the
identity of the object; `username` is the `PAM_USER` item of the handle;
`messages` stands for the pair `num_messages`, `messages`; `emitted` records the
signals emitted, `pam_calls` the calls `pam_session_open`, `pam_session_setup`
and `pam_session_close` make into the PAM library.  The greeter callbacks are
connected to a session exactly while it is the `authentication` of the greeter:
`handle_login` connects them when it stores the session and `reset_session`
disconnects them when it drops it. -/
structure PAMSession where
  self : Nat
  service : CString
  username : Option CString
  user : Option User
  interactive : Bool
  authentication_thread : Bool
  stop_thread : Bool
  messages : List pam_message
  authentication_result : Nat
  authentication_response_queue : Option (List QueueItem)
  pam_handle : Bool
  in_authentication : Bool
  is_authenticated : Bool
  in_session : Bool
  emitted : List PAMSessionSignal
  pam_calls : List PAMCall := []
deriving DecidableEq, Repr

/-- Signals a `Greeter` emits to the display (`signals[]` of `greeter.c`). -/
inductive GreeterSignal where
  | CONNECTED
  | START_AUTHENTICATION (username : Option CString)
  | START_SESSION (session : Option CString)
deriving DecidableEq, Repr

/-- Private data of a `Greeter` (`struct GreeterPrivate`) followed by the trace
fields: `to_greeter_channel` holds the octet blocks handed to `write_message`,
`from_greeter_channel` the octets waiting in the pipe from the greeter,
`emitted` the signals emitted, `locale_set` the calls of `user_set_locale`, and
`released` the sessions the greeter dropped in `reset_session` (their worker
threads still own them). -/
structure Greeter where
  read_buffer : List Nat
  n_read : Nat
  hints : List (CString × CString)
  authentication_sequence_number : Nat
  authentication : Option PAMSession
  allow_guest : Bool
  guest_account_authenticated : Bool
  to_greeter_channel : List (List Nat)
  from_greeter_channel : List Nat
  emitted : List GreeterSignal
  locale_set : List (Option User × CString)
  released : List PAMSession
deriving DecidableEq, Repr

/-- Answers of the outside world during one callback: the `VERSION` macro of
`config.h`, the handlers of the `start-authentication` and `start-session`
signals, whether `g_thread_create` succeeds, and the password database. -/
structure Env where
  VERSION : CString
  start_authentication : Option CString → Option PAMSession
  start_session : Option CString → Bool
  thread_created : Bool
  accounts_get_user_by_name : CString → Option User

/-! ## Wire primitives (`greeter.c`) -/

def int_length : Nat := 4

def HEADER_SIZE : Nat := 8

def MAX_MESSAGE_LENGTH : Nat := 1024

def SERVER_MESSAGE_CONNECTED : Nat := 0
def SERVER_MESSAGE_PROMPT_AUTHENTICATION : Nat := 1
def SERVER_MESSAGE_END_AUTHENTICATION : Nat := 2
def SERVER_MESSAGE_SESSION_RESULT : Nat := 3

def GREETER_MESSAGE_CONNECT : Nat := 0
def GREETER_MESSAGE_AUTHENTICATE : Nat := 1
def GREETER_MESSAGE_AUTHENTICATE_AS_GUEST : Nat := 2
def GREETER_MESSAGE_CONTINUE_AUTHENTICATION : Nat := 3
def GREETER_MESSAGE_START_SESSION : Nat := 4
def GREETER_MESSAGE_CANCEL_AUTHENTICATION : Nat := 5
def GREETER_MESSAGE_SET_LANGUAGE : Nat := 6

/-- The four octets `write_int` stores for a `guint32`, most significant first. -/
def int_octets (value : Nat) : List Nat :=
  let v := value % 2 ^ 32
  [(v >>> 24) % 256, (v >>> 16) &&& 0xFF, (v >>> 8) &&& 0xFF, v &&& 0xFF]

/-- Store `data` into `buffer` from index `offset` on (`memcpy`, or a run of
octet assignments); the caller guarantees it fits. -/
def store (buffer : List Nat) (offset : Nat) (data : List Nat) : List Nat :=
  buffer.take offset ++ data ++ buffer.drop (offset + data.length)

/-- Function `write_int`: returns the buffer and the new offset. -/
def write_int (buffer : List Nat) (buffer_length : Nat) (value : Nat) (offset : Nat) :
    List Nat × Nat :=
  if offset + 4 ≥ buffer_length then (buffer, offset)
  else (store buffer offset (int_octets value), offset + 4)

/-- Function `write_string`. -/
def write_string (buffer : List Nat) (buffer_length : Nat) (value : Option CString)
    (offset : Nat) : List Nat × Nat :=
  let length := match value with
    | some v => v.length
    | none => 0
  let (buffer, offset) := write_int buffer buffer_length length offset
  if offset + length ≥ buffer_length then (buffer, offset)
  else if length > 0 then (store buffer offset (value.getD []), offset + length)
  else (buffer, offset)

/-- Function `write_header`. -/
def write_header (buffer : List Nat) (buffer_length : Nat) (id length : Nat) (offset : Nat) :
    List Nat × Nat :=
  let (buffer, offset) := write_int buffer buffer_length id offset
  write_int buffer buffer_length length offset

/-- Function `string_length`.  The `guint32` sums built from it are reduced
modulo `2^32` when `write_int` stores them. -/
def string_length (value : Option CString) : Nat :=
  match value with
  | none => int_length
  | some v => int_length + v.length

/-- The automatic array `guint8 message[MAX_MESSAGE_LENGTH]`; only the octets
written below `offset` are ever sent. -/
def message_buffer : List Nat := List.replicate MAX_MESSAGE_LENGTH 0

/-- Function `write_message`: hand `message[0 .. message_length)` to the pipe. -/
def write_message (greeter : Greeter) (message : List Nat) (message_length : Nat) : Greeter :=
  { greeter with
    to_greeter_channel := greeter.to_greeter_channel ++ [message.take message_length] }

/-! ## The authentication session (`pam-session.c`), supervisor side -/

/-- Function `pam_session_new` followed by `pam_session_init`: a session for
`username` whose object identity is `self`. -/
def pam_session_new (self : Nat) (service : CString) (username : Option CString) : PAMSession :=
  { self := self, service := service, username := username, user := none,
    interactive := true, authentication_thread := false, stop_thread := false,
    messages := [], authentication_result := 0, authentication_response_queue := none,
    pam_handle := true, in_authentication := false, is_authenticated := false,
    in_session := false, emitted := [] }

/-- Function `pam_session_get_is_authenticated`; `FALSE` on `NULL`. -/
def pam_session_get_is_authenticated (session : Option PAMSession) : Bool :=
  match session with
  | none => false
  | some s => s.is_authenticated

/-- Function `pam_session_get_username`: the `PAM_USER` item. -/
def pam_session_get_username (session : PAMSession) : Option CString :=
  session.username

/-- Function `pam_session_get_user`: looks the user up once and keeps it. -/
def pam_session_get_user (env : Env) (session : PAMSession) : Option User × PAMSession :=
  match session.user, pam_session_get_username session with
  | none, some name =>
      let user := env.accounts_get_user_by_name name
      (user, { session with user := user })
  | _, _ => (session.user, session)

def pam_session_get_messages (session : PAMSession) : List pam_message :=
  session.messages

def pam_session_get_num_messages (session : PAMSession) : Nat :=
  session.messages.length

/-- Function `pam_session_respond`: nothing happens without a worker thread.
The vector is a non-`NULL` pointer, also when it has no slots. -/
def pam_session_respond (session : PAMSession) (response : List pam_response) : PAMSession :=
  if session.authentication_thread then
    { session with authentication_response_queue :=
        session.authentication_response_queue.map (· ++ [QueueItem.response response]) }
  else session

/-- Function `pam_session_cancel`. -/
def pam_session_cancel (session : PAMSession) : PAMSession :=
  if session.authentication_thread then
    { session with
      stop_thread := true
      authentication_response_queue :=
        session.authentication_response_queue.map (· ++ [QueueItem.cancelled]) }
  else session

/-- Function `pam_session_authenticate`; `thread_created` tells whether
`g_thread_create` succeeds. -/
def pam_session_authenticate (session : PAMSession) (thread_created : Bool) :
    Bool × PAMSession :=
  if session.in_authentication then (false, session)
  else if session.is_authenticated then (false, session)
  else
    let session := { session with
      in_authentication := true
      emitted := session.emitted ++ [PAMSessionSignal.AUTHENTICATION_STARTED] }
    let session := { session with
      authentication_response_queue := some []
      authentication_thread := thread_created }
    (thread_created, session)

/-- Function `report_result`, up to the delivery of the signal to its handlers. -/
def report_result (session : PAMSession) (result : Nat) : PAMSession :=
  { session with
    in_authentication := false
    is_authenticated := (result == PAM_SUCCESS)
    emitted := session.emitted ++ [PAMSessionSignal.AUTHENTICATION_RESULT result] }

/-- Function `notify_auth_complete_cb`, session part: the worker thread has
stored its result in `authentication_result` and ended. -/
def notify_auth_complete_cb (session : PAMSession) : PAMSession :=
  let result := session.authentication_result
  let session := { session with
    authentication_result := 0
    authentication_thread := false
    authentication_response_queue := none }
  let session := report_result session result
  if session.stop_thread then pam_session_cancel session else session

def PAM_ESTABLISH_CRED : Nat := 2
def PAM_DELETE_CRED : Nat := 4

/-- Answers of the outside world to `pam_session_open`, `pam_session_setup` and
`pam_session_close`: the user id of the daemon and the results of the PAM
library. -/
structure PAMEnv where
  getuid : Nat
  pam_open_session : Nat
  pam_setcred : Nat → Nat

/-- Function `pam_session_open`. -/
def pam_session_open (env : PAMEnv) (session : PAMSession) : Bool × PAMSession :=
  let session := { session with in_session := true }
  if env.getuid = 0 then
    (env.pam_open_session == PAM_SUCCESS,
      { session with pam_calls := session.pam_calls ++ [PAMCall.pam_open_session] })
  else (true, session)

/-- Function `pam_session_setup`. -/
def pam_session_setup (env : PAMEnv) (session : PAMSession) : Bool × PAMSession :=
  (env.pam_setcred PAM_ESTABLISH_CRED == PAM_SUCCESS,
    { session with pam_calls := session.pam_calls ++ [PAMCall.pam_setcred PAM_ESTABLISH_CRED] })

/-- Function `pam_session_close`. -/
def pam_session_close (env : PAMEnv) (session : PAMSession) : PAMSession :=
  let session := { session with in_session := false }
  if env.getuid = 0 then
    if !session.pam_handle then session
    else
      { session with
        pam_calls := session.pam_calls
          ++ [PAMCall.pam_close_session, PAMCall.pam_setcred PAM_DELETE_CRED, PAMCall.pam_end]
        pam_handle := false }
  else session

/-! ## The greeter (`greeter.c`) -/

def is_prompt_style (msg_style : Nat) : Bool :=
  msg_style == PAM_PROMPT_ECHO_OFF || msg_style == PAM_PROMPT_ECHO_ON

/-- Function `handle_connect`; `hints` lists the hash table in iteration order. -/
def handle_connect (env : Env) (greeter : Greeter) (_version : CString) : Greeter :=
  let length := greeter.hints.foldl
    (fun length kv => length + (string_length (some kv.1) + string_length (some kv.2)))
    (string_length (some env.VERSION))
  let m := write_header message_buffer MAX_MESSAGE_LENGTH SERVER_MESSAGE_CONNECTED length 0
  let m := write_string m.1 MAX_MESSAGE_LENGTH (some env.VERSION) m.2
  let m := greeter.hints.foldl
    (fun (m : List Nat × Nat) kv =>
      let m := write_string m.1 MAX_MESSAGE_LENGTH (some kv.1) m.2
      write_string m.1 MAX_MESSAGE_LENGTH (some kv.2) m.2)
    m
  let greeter := write_message greeter m.1 m.2
  { greeter with emitted := greeter.emitted ++ [GreeterSignal.CONNECTED] }

/-- Function `pam_messages_cb`: `msg` is the batch, `num_msg` its length. -/
def pam_messages_cb (authentication : PAMSession) (msg : List pam_message)
    (greeter : Greeter) : Greeter :=
  let num_msg := msg.length
  let size := msg.foldl (fun size m => size + (int_length + string_length m.msg))
    (int_length + string_length (pam_session_get_username authentication) + int_length)
  let m := write_header message_buffer MAX_MESSAGE_LENGTH
    SERVER_MESSAGE_PROMPT_AUTHENTICATION size 0
  let m := write_int m.1 MAX_MESSAGE_LENGTH greeter.authentication_sequence_number m.2
  let m := write_string m.1 MAX_MESSAGE_LENGTH (pam_session_get_username authentication) m.2
  let m := write_int m.1 MAX_MESSAGE_LENGTH num_msg m.2
  let r := msg.foldl
    (fun (r : (List Nat × Nat) × Nat) p =>
      let m := write_int r.1.1 MAX_MESSAGE_LENGTH p.msg_style r.1.2
      let m := write_string m.1 MAX_MESSAGE_LENGTH p.msg m.2
      (m, if is_prompt_style p.msg_style then r.2 + 1 else r.2))
    (m, 0)
  let greeter := write_message greeter r.1.1 r.1.2
  if r.2 == 0 then
    let response := List.replicate num_msg ({ resp := none, resp_retcode := 0 } : pam_response)
    { greeter with
      authentication := greeter.authentication.map (fun s => pam_session_respond s response) }
  else greeter

/-- Function `send_end_authentication`. -/
def send_end_authentication (greeter : Greeter) (sequence_number : Nat)
    (username : Option CString) (result : Nat) : Greeter :=
  let m := write_header message_buffer MAX_MESSAGE_LENGTH SERVER_MESSAGE_END_AUTHENTICATION
    (int_length + string_length username + int_length) 0
  let m := write_int m.1 MAX_MESSAGE_LENGTH sequence_number m.2
  let m := write_string m.1 MAX_MESSAGE_LENGTH username m.2
  let m := write_int m.1 MAX_MESSAGE_LENGTH result m.2
  write_message greeter m.1 m.2

/-- Function `authentication_result_cb`. -/
def authentication_result_cb (authentication : PAMSession) (result : Nat)
    (greeter : Greeter) : Greeter :=
  send_end_authentication greeter greeter.authentication_sequence_number
    (pam_session_get_username authentication) result

/-- Function `reset_session`: the dropped session is cancelled and handed to
`released`. -/
def reset_session (greeter : Greeter) : Greeter :=
  let greeter := match greeter.authentication with
    | some s => { greeter with
        released := greeter.released ++ [pam_session_cancel s]
        authentication := none }
    | none => greeter
  { greeter with guest_account_authenticated := false }

/-- Function `handle_login`. -/
def handle_login (env : Env) (greeter : Greeter) (sequence_number : Nat)
    (username : CString) : Greeter :=
  let username : Option CString := if username = [] then none else some username
  let greeter := reset_session greeter
  let greeter := { greeter with authentication_sequence_number := sequence_number % 2 ^ 32 }
  let greeter := { greeter with
    emitted := greeter.emitted ++ [GreeterSignal.START_AUTHENTICATION username]
    authentication := env.start_authentication username }
  match greeter.authentication with
  | none => send_end_authentication greeter sequence_number (some []) PAM_USER_UNKNOWN
  | some s =>
      let r := pam_session_authenticate s env.thread_created
      let greeter := { greeter with authentication := some r.2 }
      if !r.1 then send_end_authentication greeter sequence_number (some []) PAM_SYSTEM_ERR
      else greeter

/-- Function `handle_login_as_guest`. -/
def handle_login_as_guest (greeter : Greeter) (sequence_number : Nat) : Greeter :=
  let greeter := reset_session greeter
  if !greeter.allow_guest then
    send_end_authentication greeter sequence_number (some []) PAM_USER_UNKNOWN
  else
    let greeter := { greeter with guest_account_authenticated := true }
    send_end_authentication greeter sequence_number (some []) PAM_SUCCESS

/-- The number of `PAM_PROMPT_ECHO_OFF`/`PAM_PROMPT_ECHO_ON` messages: the
counting loop of `handle_continue_authentication`. -/
def count_prompts (messages : List pam_message) : Nat :=
  messages.foldl (fun n_prompts m => if is_prompt_style m.msg_style then n_prompts + 1 else n_prompts) 0

/-- The loop `for (i = 0, j = 0; i < num_messages; i++)` of
`handle_continue_authentication` from index `i` on: `messages` are the messages
not yet visited, `response` the vector built so far. -/
def build_response (secrets : List CString) :
    List pam_message → Nat → Nat → List pam_response → List pam_response
  | [], _, _, response => response
  | m :: messages, i, j, response =>
      if is_prompt_style m.msg_style then
        build_response secrets messages (i + 1) (j + 1)
          (response.set i { resp := secrets[j]?, resp_retcode := 0 })
      else build_response secrets messages (i + 1) j response

/-- Function `handle_continue_authentication`. -/
def handle_continue_authentication (greeter : Greeter) (secrets : List CString) : Greeter :=
  match greeter.authentication with
  | none => greeter
  | some authentication =>
      let num_messages := pam_session_get_num_messages authentication
      let messages := pam_session_get_messages authentication
      let n_prompts := count_prompts messages
      if secrets.length ≠ n_prompts then
        { greeter with authentication := some (pam_session_cancel authentication) }
      else
        let response := List.replicate num_messages
          ({ resp := none, resp_retcode := 0 } : pam_response)
        let response := build_response secrets messages 0 0 response
        { greeter with authentication := some (pam_session_respond authentication response) }

/-- Function `handle_cancel_authentication`. -/
def handle_cancel_authentication (greeter : Greeter) : Greeter :=
  match greeter.authentication with
  | none => greeter
  | some authentication =>
      { greeter with authentication := some (pam_session_cancel authentication) }

/-- Function `handle_start_session`. -/
def handle_start_session (env : Env) (greeter : Greeter) (session : CString) : Greeter :=
  let session : Option CString := if session = [] then none else some session
  let r : Bool × Greeter :=
    if greeter.guest_account_authenticated
        || pam_session_get_is_authenticated greeter.authentication then
      (env.start_session session,
        { greeter with emitted := greeter.emitted ++ [GreeterSignal.START_SESSION session] })
    else (false, greeter)
  if !r.1 then
    let m := write_header message_buffer MAX_MESSAGE_LENGTH SERVER_MESSAGE_SESSION_RESULT
      int_length 0
    let m := write_int m.1 MAX_MESSAGE_LENGTH 1 m.2
    write_message r.2 m.1 m.2
  else r.2

/-- Modelled from the spec: `user_set_locale` is called by `handle_set_language`
but defined nowhere under `src/`; the spec says the locale is persisted to the
user's desktop preferences.  The call is recorded in `locale_set`. -/
def user_set_locale (greeter : Greeter) (user : Option User) (language : CString) : Greeter :=
  { greeter with locale_set := greeter.locale_set ++ [(user, language)] }

/-- Function `handle_set_language`. -/
def handle_set_language (env : Env) (greeter : Greeter) (language : CString) : Greeter :=
  if !greeter.guest_account_authenticated
      && !pam_session_get_is_authenticated greeter.authentication then greeter
  else if greeter.guest_account_authenticated then greeter
  else
    match greeter.authentication with
    | none => user_set_locale greeter none language
    | some authentication =>
        let r := pam_session_get_user env authentication
        user_set_locale { greeter with authentication := some r.2 } r.1 language

/-- Subtraction of two `gsize` values. -/
def gsize_sub (a b : Nat) : Nat := (a + 2 ^ 64 - b % 2 ^ 64) % 2 ^ 64

/-- Function `read_int`: the value and the new offset. -/
def read_int (greeter : Greeter) (offset : Nat) : Nat × Nat :=
  if gsize_sub greeter.n_read offset < 4 then (0, offset)
  else
    let buffer := greeter.read_buffer.drop offset
    ((buffer.getD 0 0 <<< 24 ||| buffer.getD 1 0 <<< 16 ||| buffer.getD 2 0 <<< 8
        ||| buffer.getD 3 0) % 2 ^ 32,
      offset + int_length)

/-- Function `read_string`: the C string it returns ends at the first zero
octet of the `length` octets copied. -/
def read_string (greeter : Greeter) (offset : Nat) : CString × Nat :=
  let r := read_int greeter offset
  let length := r.1
  let offset := r.2
  if gsize_sub greeter.n_read offset < length then ([], offset)
  else
    (((greeter.read_buffer.drop offset).take length).takeWhile (· ≠ 0), offset + length)

/-- A call of `read_int` or of `read_string`. -/
inductive ReadCall where
  | read_int
  | read_string
deriving DecidableEq, Repr

/-- The offset after a sequence of calls of `read_int` and `read_string`, each
starting where the one before left the offset. -/
def read_calls (greeter : Greeter) : List ReadCall → Nat → Nat
  | [], offset => offset
  | ReadCall.read_int :: calls, offset => read_calls greeter calls (read_int greeter offset).2
  | ReadCall.read_string :: calls, offset =>
      read_calls greeter calls (read_string greeter offset).2

/-- The loop of `read_cb` that reads the secrets of `CONTINUE_AUTHENTICATION`. -/
def read_secrets (greeter : Greeter) : Nat → Nat → List CString × Nat
  | 0, offset => ([], offset)
  | n + 1, offset =>
      let r := read_string greeter offset
      let rest := read_secrets greeter n r.2
      (r.1 :: rest.1, rest.2)

def G_IO_IN : Nat := 1
def G_IO_HUP : Nat := 16

/-- The case `GREETER_MESSAGE_CONTINUE_AUTHENTICATION` of `read_cb` up to the
call of the handler: the secrets read, or `none` when the daemon stops before.
The count read is stored in `int n_secrets`, so it is negative from `2^31` on.
`g_malloc (sizeof (gchar *) * (n_secrets + 1))` computes its size as a `gsize`:

* for the count `2^31 - 1` the sum `n_secrets + 1` overflows `int`;
* for a negative `n_secrets + 1` the size is `2^64 - 2^34` or more, which no
  memory satisfies, and `g_malloc` aborts;
* for `n_secrets = -1` the size is zero, `g_malloc` returns `NULL`, the loop
  does not run and `secrets[i] = NULL` writes through the `NULL` pointer.

Allocations of less than `2^63` octets are taken to succeed, here as in the
rest of the embedding. -/
def read_cb_secrets (greeter : Greeter) (offset : Nat) : Option (List CString) :=
  let r := read_int greeter offset
  let n_secrets : Int := if r.1 < 2 ^ 31 then (r.1 : Int) else (r.1 : Int) - 2 ^ 32
  if n_secrets + 1 ≥ 2 ^ 31 then none
  else
    let size := ((8 * (n_secrets + 1)) % 2 ^ 64).toNat
    if size ≥ 2 ^ 63 then none
    else if size = 0 then none
    else some (read_secrets greeter n_secrets.toNat r.2).1

/-- The `switch (id)` of `read_cb`, entered once a whole frame is in
`read_buffer`; `none` when the daemon stops in it (see `read_cb_secrets`). -/
def read_cb_switch (env : Env) (greeter : Greeter) : Option Greeter :=
  let r := read_int greeter 0
  let id := r.1
  let offset := (read_int greeter r.2).2
  if id = GREETER_MESSAGE_CONNECT then
    some (handle_connect env greeter (read_string greeter offset).1)
  else if id = GREETER_MESSAGE_AUTHENTICATE then
    let r := read_int greeter offset
    some (handle_login env greeter r.1 (read_string greeter r.2).1)
  else if id = GREETER_MESSAGE_AUTHENTICATE_AS_GUEST then
    some (handle_login_as_guest greeter (read_int greeter offset).1)
  else if id = GREETER_MESSAGE_CONTINUE_AUTHENTICATION then
    (read_cb_secrets greeter offset).map (handle_continue_authentication greeter)
  else if id = GREETER_MESSAGE_CANCEL_AUTHENTICATION then
    some (handle_cancel_authentication greeter)
  else if id = GREETER_MESSAGE_START_SESSION then
    some (handle_start_session env greeter (read_string greeter offset).1)
  else if id = GREETER_MESSAGE_SET_LANGUAGE then
    some (handle_set_language env greeter (read_string greeter offset).1)
  else some greeter

/-- How a call of `read_cb` ends: it returns `result` and leaves the greeter in
the state given; or the daemon stops in it; or the bound on the depth of the
calls of `read_cb` inside `read_cb` is reached. -/
inductive ReadOutcome where
  | returned (result : Bool) (greeter : Greeter)
  | daemon_stopped
  | depth_reached
deriving DecidableEq, Repr

/-- The lines `read_cb (source, condition, greeter); return TRUE;`: the outer
call returns `TRUE` whatever the inner call returned. -/
def outcome_true : ReadOutcome → ReadOutcome
  | ReadOutcome.returned _ greeter => ReadOutcome.returned true greeter
  | ReadOutcome.daemon_stopped => ReadOutcome.daemon_stopped
  | ReadOutcome.depth_reached => ReadOutcome.depth_reached

/-- The end of `read_cb` after the `switch (id)`: `n_read` is set to zero and
`TRUE` is returned, unless the daemon stopped in the `switch`. -/
def read_cb_end : Option Greeter → ReadOutcome
  | some greeter => ReadOutcome.returned true { greeter with n_read := 0 }
  | none => ReadOutcome.daemon_stopped

/-- Function `read_cb`, the watch on the pipe from the greeter.  It returns
`FALSE` to remove the watch.  `g_io_channel_read_chars` takes what waits in the
pipe, at most the count asked for, and reports a status other than
`G_IO_STATUS_NORMAL` when asked for octets while none wait.  The first argument
bounds the depth of the call `read_cb (source, condition, greeter)` inside
`read_cb`. -/
def read_cb (env : Env) : Nat → Nat → Greeter → ReadOutcome
  | 0, _, _ => ReadOutcome.depth_reached
  | depth + 1, condition, greeter =>
      if condition = G_IO_HUP then ReadOutcome.returned false greeter
      else
        let n_to_read :=
          if greeter.n_read ≥ HEADER_SIZE then HEADER_SIZE + (read_int greeter int_length).1
          else HEADER_SIZE
        let count := gsize_sub n_to_read greeter.n_read
        let data := greeter.from_greeter_channel.take count
        if count ≠ 0 ∧ data = [] then ReadOutcome.returned true greeter
        else
          let greeter := { greeter with
            read_buffer := store greeter.read_buffer greeter.n_read data
            from_greeter_channel := greeter.from_greeter_channel.drop count
            n_read := greeter.n_read + data.length }
          if greeter.n_read ≠ n_to_read then ReadOutcome.returned true greeter
          else if greeter.n_read = HEADER_SIZE ∧ (read_int greeter int_length).1 > 0 then
            let n_to_read := (read_int greeter int_length).1
            let greeter := { greeter with
              read_buffer := (greeter.read_buffer
                ++ List.replicate (HEADER_SIZE + n_to_read) 0).take (HEADER_SIZE + n_to_read) }
            outcome_true (read_cb env depth condition greeter)
          else read_cb_end (read_cb_switch env greeter)

/-! ## The frames as octet sequences

`put_int`, `put_string` describe what `write_int`, `write_string` add to the
octets already written; `sent` relates the two views. -/

/-- The octets of the buffer below the offset: what `write_message` would send. -/
def sent (m : List Nat × Nat) : List Nat := m.1.take m.2

/-- Effect of `write_int` on the octets written so far. -/
def put_int (frame : List Nat) (value : Nat) : List Nat :=
  if frame.length + 4 ≥ MAX_MESSAGE_LENGTH then frame else frame ++ int_octets value

/-- Effect of `write_string` on the octets written so far. -/
def put_string (frame : List Nat) (value : Option CString) : List Nat :=
  let frame := put_int frame (value.getD []).length
  if frame.length + (value.getD []).length ≥ MAX_MESSAGE_LENGTH then frame
  else frame ++ value.getD []

/-- The length field of a frame: the big-endian `guint32` in octets 4 to 7. -/
def frame_length_field (frame : List Nat) : Nat :=
  (frame.getD 4 0 <<< 24 ||| frame.getD 5 0 <<< 16 ||| frame.getD 6 0 <<< 8
    ||| frame.getD 7 0) % 2 ^ 32

/-- The payload of a frame: the octets after the 8-octet header. -/
def frame_payload (frame : List Nat) : List Nat := frame.drop HEADER_SIZE

/-- A well-formed frame in the sense of the spec. -/
def frame_ok (frame : List Nat) : Prop :=
  8 ≤ frame.length ∧ frame.length ≤ 1032 ∧ frame_length_field frame = (frame_payload frame).length

instance (frame : List Nat) : Decidable (frame_ok frame) := by
  unfold frame_ok; infer_instance

/-- The buffer has its declared size and the offset lies within it. -/
def buffer_ok (m : List Nat × Nat) : Prop :=
  m.1.length = MAX_MESSAGE_LENGTH ∧ m.2 ≤ MAX_MESSAGE_LENGTH

/-- Octets `send_end_authentication` hands to `write_message`. -/
def end_authentication_octets (sequence_number : Nat) (username : Option CString)
    (result : Nat) : List Nat :=
  put_int (put_string (put_int (put_int (put_int [] SERVER_MESSAGE_END_AUTHENTICATION)
    (int_length + string_length username + int_length)) sequence_number) username) result

/-- Octets `handle_start_session` hands to `write_message` on refusal. -/
def session_result_octets (code : Nat) : List Nat :=
  put_int (put_int (put_int [] SERVER_MESSAGE_SESSION_RESULT) int_length) code

/-- Octets `handle_connect` hands to `write_message`. -/
def connected_octets (version : CString) (hints : List (CString × CString)) : List Nat :=
  hints.foldl (fun frame kv => put_string (put_string frame (some kv.1)) (some kv.2))
    (put_string (put_int (put_int [] SERVER_MESSAGE_CONNECTED)
      (hints.foldl
        (fun length kv => length + (string_length (some kv.1) + string_length (some kv.2)))
        (string_length (some version)))) (some version))

/-- Octets `pam_messages_cb` hands to `write_message`. -/
def prompt_octets (sequence_number : Nat) (username : Option CString)
    (msg : List pam_message) : List Nat :=
  msg.foldl (fun frame p => put_string (put_int frame p.msg_style) p.msg)
    (put_int (put_string (put_int (put_int (put_int [] SERVER_MESSAGE_PROMPT_AUTHENTICATION)
      (msg.foldl (fun size m => size + (int_length + string_length m.msg))
        (int_length + string_length username + int_length))) sequence_number) username)
      msg.length)

/-! ## The wire format in the words of the spec -/

/-- A `u32`, big-endian. -/
def u32 (v : Nat) : List Nat :=
  [v / 2 ^ 24 % 256, v / 2 ^ 16 % 256, v / 2 ^ 8 % 256, v % 256]

/-- A string within a payload: `length:u32, bytes[length]`, no terminator. -/
def wire_string (s : CString) : List Nat := u32 s.length ++ s

/-- A message: `id:u32, length:u32, payload[length]`. -/
def wire_frame (id : Nat) (payload : List Nat) : List Nat :=
  u32 id ++ u32 payload.length ++ payload

/-- Message `CONNECTED`: `server_version:string, hints:(key:string, value:string)*`. -/
def CONNECTED (server_version : CString) (hints : List (CString × CString)) : List Nat :=
  wire_frame 0 (wire_string server_version
    ++ (hints.map (fun kv => wire_string kv.1 ++ wire_string kv.2)).flatten)

/-- Message `PROMPT`: `seq:u32, username:string, n:u32, (style:u32, text:string) × n`. -/
def PROMPT (seq : Nat) (username : CString) (messages : List pam_message) : List Nat :=
  wire_frame 1 (u32 seq ++ wire_string username ++ u32 messages.length
    ++ (messages.map (fun p => u32 p.msg_style ++ wire_string (p.msg.getD []))).flatten)

/-- Message `END_AUTHENTICATION`: `seq:u32, username:string, result_code:u32`. -/
def END_AUTHENTICATION (seq : Nat) (username : CString) (result_code : Nat) : List Nat :=
  wire_frame 2 (u32 seq ++ wire_string username ++ u32 result_code)

/-- Message `SESSION_RESULT`: `code:u32`. -/
def SESSION_RESULT (code : Nat) : List Nat := wire_frame 3 (u32 code)

/-- A frame is an `END_AUTHENTICATION` carrying sequence number `q`. -/
def is_end_authentication (q : Nat) (frame : List Nat) : Bool :=
  frame.take 4 == u32 2 && (frame.drop 8).take 4 == u32 q

/-! ## Runs of one greeter -/

/-- Functions `greeter_new`, `greeter_init`: the greeter before `greeter_start`. -/
def greeter_new : Greeter :=
  { read_buffer := List.replicate HEADER_SIZE 0, n_read := 0, hints := [],
    authentication_sequence_number := 0, authentication := none, allow_guest := false,
    guest_account_authenticated := false, to_greeter_channel := [],
    from_greeter_channel := [], emitted := [], locale_set := [], released := [] }

/-- What the supervisor loop handles for one greeter: the seven messages of
the greeter, and the three things the worker thread of the session with
identity `session` does: ask for answers to a batch of messages
(`pam_conv_cb`), take the next item from the response queue, and end with a
result (`authenticate_cb`, then `notify_auth_complete_cb`). -/
inductive Event where
  | CONNECT (version : CString)
  | AUTHENTICATE (sequence_number : Nat) (username : CString)
  | AUTHENTICATE_AS_GUEST (sequence_number : Nat)
  | CONTINUE_AUTHENTICATION (secrets : List CString)
  | START_SESSION (session_name : CString)
  | CANCEL_AUTHENTICATION
  | SET_LANGUAGE (locale : CString)
  | got_messages (session : Nat) (msg : List pam_message)
  | response_taken (session : Nat)
  | authentication_complete (session : Nat) (result : Nat)

/-- Function `pam_conv_cb` up to the wait for the response, followed by
`notify_messages_cb` up to the delivery of the signal; `none` when the
callback returns `PAM_CONV_ERR` at once. -/
def pam_conv_cb (session : PAMSession) (msg : List pam_message) : Option PAMSession :=
  if session.stop_thread then none
  else if !session.interactive then none
  else some { session with
    messages := msg
    emitted := session.emitted ++ [PAMSessionSignal.GOT_MESSAGES msg.length msg] }

/-- Function `pam_conv_cb` after the wait: the worker takes the head of the
queue and forgets the messages. -/
def pam_conv_cb_resume (session : PAMSession) : PAMSession :=
  match session.authentication_response_queue with
  | some (_ :: rest) =>
      { session with authentication_response_queue := some rest, messages := [] }
  | _ => session

/-- Apply `f` to the released sessions of identity `session` that still have
their worker thread; no greeter callback is connected to them. -/
def on_released (greeter : Greeter) (session : Nat) (f : PAMSession → PAMSession) : Greeter :=
  { greeter with
    released := greeter.released.map
      (fun s => if s.self = session ∧ s.authentication_thread then f s else s) }

/-- One event handled by the supervisor loop. -/
def step (env : Env) (greeter : Greeter) : Event → Greeter
  | Event.CONNECT version => handle_connect env greeter version
  | Event.AUTHENTICATE sequence_number username =>
      handle_login env greeter sequence_number username
  | Event.AUTHENTICATE_AS_GUEST sequence_number =>
      handle_login_as_guest greeter sequence_number
  | Event.CONTINUE_AUTHENTICATION secrets => handle_continue_authentication greeter secrets
  | Event.START_SESSION session_name => handle_start_session env greeter session_name
  | Event.CANCEL_AUTHENTICATION => handle_cancel_authentication greeter
  | Event.SET_LANGUAGE locale => handle_set_language env greeter locale
  | Event.got_messages session msg =>
      match greeter.authentication with
      | some s =>
          if s.self = session ∧ s.authentication_thread then
            match pam_conv_cb s msg with
            | none => greeter
            | some s => pam_messages_cb s msg { greeter with authentication := some s }
          else on_released greeter session (fun s => (pam_conv_cb s msg).getD s)
      | none => on_released greeter session (fun s => (pam_conv_cb s msg).getD s)
  | Event.response_taken session =>
      match greeter.authentication with
      | some s =>
          if s.self = session ∧ s.authentication_thread then
            { greeter with authentication := some (pam_conv_cb_resume s) }
          else on_released greeter session pam_conv_cb_resume
      | none => on_released greeter session pam_conv_cb_resume
  | Event.authentication_complete session result =>
      match greeter.authentication with
      | some s =>
          if s.self = session ∧ s.authentication_thread then
            let s := notify_auth_complete_cb { s with authentication_result := result }
            authentication_result_cb s result { greeter with authentication := some s }
          else on_released greeter session
            (fun s => notify_auth_complete_cb { s with authentication_result := result })
      | none => on_released greeter session
          (fun s => notify_auth_complete_cb { s with authentication_result := result })

/-- A run: the events handled in order, each with the answers of the outside
world at that time. -/
def run (greeter : Greeter) : List (Env × Event) → Greeter
  | [] => greeter
  | x :: rest => run (step x.1 greeter x.2) rest

/-- The `END_AUTHENTICATION` frames carrying `q` written so far. -/
def answered (q : Nat) (greeter : Greeter) : Nat :=
  greeter.to_greeter_channel.countP (is_end_authentication q)

/-- An event is an authentication request (`AUTHENTICATE` or
`AUTHENTICATE_AS_GUEST`) carrying `q`. -/
def is_request (q : Nat) : Event → Bool
  | Event.AUTHENTICATE sequence_number _ => u32 sequence_number == u32 q
  | Event.AUTHENTICATE_AS_GUEST sequence_number => u32 sequence_number == u32 q
  | _ => false

/-- An event is `AUTHENTICATE` or `AUTHENTICATE_AS_GUEST`. -/
def supersedes : Event → Bool
  | Event.AUTHENTICATE _ _ => true
  | Event.AUTHENTICATE_AS_GUEST _ => true
  | _ => false

/-- The authentication requests carrying `q` in a run. -/
def requested (q : Nat) (events : List (Env × Event)) : Nat :=
  events.countP (fun x => is_request q x.2)

/-- One if the current session was started for `q` and its worker thread has
not reported its result, else zero. -/
def pending (q : Nat) (greeter : Greeter) : Nat :=
  match greeter.authentication with
  | some s =>
      if s.authentication_thread ∧ u32 greeter.authentication_sequence_number = u32 q then 1
      else 0
  | none => 0

/-- The requests carrying `q` whose session was dropped by `reset_session`,
on a later `AUTHENTICATE` or `AUTHENTICATE_AS_GUEST`, before its result arrived. -/
def superseded (q : Nat) : Greeter → List (Env × Event) → Nat
  | _, [] => 0
  | greeter, x :: rest =>
      (if supersedes x.2 then pending q greeter else 0)
        + superseded q (step x.1 greeter x.2) rest

/-- The sessions the `start-authentication` handler yields are new: not in
authentication, not authenticated, without worker thread. -/
def yields_new_sessions (env : Env) : Prop :=
  ∀ username s, env.start_authentication username = some s →
    s.in_authentication = false ∧ s.is_authenticated = false ∧ s.authentication_thread = false

/-! ## The seat (`seat.c`)

A display is known to the seat by its identity; `display.c`, `session.c`,
`guest-account.c` and the display servers are not part of the embedding: what
they answer is a field of `SeatEnv`, what the seat asks of them is recorded in
`Seat.calls`.  A callback of a display reaches the seat only while the display
is in `displays`: `switch_to_user_or_start_greeter` connects the handlers when
it appends the display, `display_stopped_cb` disconnects them when it removes
it. -/

/-- The octets of an ASCII literal. -/
def str (s : String) : CString := s.toList.map Char.toNat

/-- Modelled from the spec: a session (`session.c` is not under `src/`) is
known by its identity and runs as a user. -/
structure Session where
  self : Nat
  user : User
deriving DecidableEq, Repr

/-- What `run_script` asks about the display server of a display: `none` of
`SeatEnv.display_get_xserver` when it is no X server. -/
structure XServer where
  address : CString
  is_local : Bool
  hostname : Option CString
  authority_file_path : Option CString
deriving DecidableEq, Repr

/-- Signals a `Seat` emits (`signals[]` of `seat.c`). -/
inductive SeatSignal where
  | STARTED
  | DISPLAY_ADDED (display : Nat)
  | DISPLAY_REMOVED (display : Nat)
  | STOPPED
deriving DecidableEq, Repr

/-- Calls the seat makes into code outside `seat.c`, with their arguments. -/
inductive SeatCall where
  | display_unlock (display : Nat)
  | display_stop (display : Nat)
  | display_start (display : Nat)
  | display_set_greeter_session (display : Nat) (greeter_session : Option CString)
  | display_set_session_wrapper (display : Nat) (session_wrapper : Option CString)
  | display_set_hide_users_hint (display : Nat) (hide_users : Bool)
  | display_set_allow_guest (display : Nat) (allow_guest : Bool)
  | display_set_autologin_user (display : Nat) (username : Option CString) (is_guest : Bool)
      (timeout : Nat)
  | display_set_select_user_hint (display : Nat) (username : Option CString) (is_guest : Bool)
  | display_set_user_session (display : Nat) (session_name : Option CString)
  | guest_account_setup
  | guest_account_cleanup (username : CString)
  | g_spawn_sync (argv : List CString) (envp : List CString)
  | g_spawn_command_line_async (command_line : CString)
deriving DecidableEq, Repr

/-- Private data of a `Seat` (`struct SeatPrivate`) followed by the trace
fields: `emitted` the signals emitted, `calls` the calls made, in order.
`properties` lists the hash table, one pair for each name. -/
structure Seat where
  properties : List (CString × CString)
  can_switch : Bool
  guest_username : Option CString
  displays : List Nat
  active_display : Option Nat
  stopping : Bool
  stopped : Bool
  emitted : List SeatSignal
  calls : List SeatCall
deriving DecidableEq, Repr

/-- Answers of the outside world during one operation of the seat: the user id
of the daemon, the guest account helpers, the display the class method
`add_display` creates, the state of the displays, the file tests and the
spawning of a script (`none`: it could not be spawned; else its wait status). -/
structure SeatEnv where
  getuid : Nat
  guest_account_is_installed : Bool
  guest_account_setup : Option CString
  add_display : Nat
  display_get_username : Nat → Option CString
  display_get_session : Nat → Option Session
  display_get_xserver : Nat → Option XServer
  display_start : Nat → Bool
  is_regular_executable : CString → Bool
  g_shell_parse_argv : CString → Option (List CString)
  g_spawn_sync : List CString → Option Nat

/-- Functions `seat_new` (for a registered module), `seat_init`. -/
def seat_new : Seat :=
  { properties := [], can_switch := false, guest_username := none, displays := [],
    active_display := none, stopping := false, stopped := false, emitted := [], calls := [] }

/-- Function `seat_set_property`: the new value replaces an old one. -/
def seat_set_property (seat : Seat) (name value : CString) : Seat :=
  { seat with properties := seat.properties.filter (fun p => p.1 ≠ name) ++ [(name, value)] }

/-- Function `seat_get_string_property`. -/
def seat_get_string_property (seat : Seat) (name : CString) : Option CString :=
  (seat.properties.find? (fun p => p.1 = name)).map (fun p => p.2)

/-- Function `seat_get_boolean_property`. -/
def seat_get_boolean_property (seat : Seat) (name : CString) : Bool :=
  seat_get_string_property seat name == some (str "true")

/-- Function `seat_set_can_switch`. -/
def seat_set_can_switch (seat : Seat) (can_switch : Bool) : Seat :=
  { seat with can_switch := can_switch }

/-- Function `seat_get_allow_guest`. -/
def seat_get_allow_guest (env : SeatEnv) (seat : Seat) : Bool :=
  seat_get_boolean_property seat (str "allow-guest") && env.guest_account_is_installed

/-- Record a call. -/
def seat_call (seat : Seat) (c : SeatCall) : Seat :=
  { seat with calls := seat.calls ++ [c] }

/-- Emit a signal of the seat. -/
def seat_emit (seat : Seat) (signal : SeatSignal) : Seat :=
  { seat with emitted := seat.emitted ++ [signal] }

/-- Function `seat_real_set_active_display`. -/
def seat_real_set_active_display (env : SeatEnv) (seat : Seat) (display : Nat) : Seat :=
  if some display = seat.active_display then seat
  else
    let seat := match seat.active_display with
      | some active_display =>
          if env.display_get_username active_display = none then
            seat_call seat (SeatCall.display_stop active_display)
          else seat
      | none => seat
    { seat with active_display := some display }

/-- Function `seat_set_active_display`. -/
def seat_set_active_display (env : SeatEnv) (seat : Seat) (display : Nat) : Seat :=
  seat_real_set_active_display env (seat_call seat (SeatCall.display_unlock display)) display

/-- The loop of `switch_to_user` over the displays from `link` on. -/
def switch_to_user_loop (env : SeatEnv) (seat : Seat) (username : Option CString) :
    List Nat → Bool × Seat
  | [] => (false, seat)
  | display :: link =>
      if env.display_get_username display = username then
        (true, seat_set_active_display env seat display)
      else switch_to_user_loop env seat username link

/-- Function `switch_to_user`. -/
def switch_to_user (env : SeatEnv) (seat : Seat) (username : Option CString) : Bool × Seat :=
  switch_to_user_loop env seat username seat.displays

/-- Function `display_switch_to_user_cb`. -/
def display_switch_to_user_cb (env : SeatEnv) (seat : Seat) (user : User) : Bool × Seat :=
  switch_to_user env seat (some user.name)

/-- Function `display_switch_to_guest_cb`. -/
def display_switch_to_guest_cb (env : SeatEnv) (seat : Seat) : Bool × Seat :=
  match seat.guest_username with
  | none => (false, seat)
  | some guest_username => switch_to_user env seat (some guest_username)

/-- Function `display_get_guest_username_cb`. -/
def display_get_guest_username_cb (env : SeatEnv) (seat : Seat) : Option CString × Seat :=
  match seat.guest_username with
  | some guest_username => (some guest_username, seat)
  | none =>
      let seat := seat_call seat SeatCall.guest_account_setup
      (env.guest_account_setup, { seat with guest_username := env.guest_account_setup })

/-- Macros `WIFEXITED`, `WEXITSTATUS` of `<sys/wait.h>`. -/
def WIFEXITED (status : Nat) : Bool := status &&& 0x7f == 0

def WEXITSTATUS (status : Nat) : Nat := (status &&& 0xff00) >>> 8

def EXIT_SUCCESS : Nat := 0

/-- The environment `run_script` builds for the script. -/
def script_environment (env : SeatEnv) (display : Nat) (user : Option User) : List CString :=
  [str "SHELL=/bin/sh", str "PATH=/usr/local/bin:/usr/bin:/bin"]
  ++ (match user with
      | some user =>
          [str "USER=" ++ user.name, str "USERNAME=" ++ user.name, str "LOGNAME=" ++ user.name,
           str "HOME=" ++ user.home_directory]
      | none => [str "HOME=/"])
  ++ (match env.display_get_xserver display with
      | some xserver =>
          [str "DISPLAY=" ++ xserver.address]
          ++ (match xserver.is_local, xserver.hostname with
              | false, some hostname => [str "REMOTE_HOST=" ++ hostname]
              | _, _ => [])
          ++ (match xserver.is_local, xserver.authority_file_path with
              | true, some path => [str "XAUTHORITY=" ++ path]
              | _, _ => [])
      | none => [])

/-- Function `run_script`: `TRUE` when the script succeeded or was not to be
run. -/
def run_script (env : SeatEnv) (seat : Seat) (display : Nat) (script_name : CString)
    (user : Option User) : Bool × Seat :=
  if env.getuid ≠ 0 then (true, seat)
  else if !env.is_regular_executable script_name then (false, seat)
  else
    match env.g_shell_parse_argv script_name with
    | none => (false, seat)
    | some argv =>
        let envp := script_environment env display user
        let seat := seat_call seat (SeatCall.g_spawn_sync argv envp)
        match env.g_spawn_sync argv with
        | none => (false, seat)
        | some exit_status =>
            if WIFEXITED exit_status then (WEXITSTATUS exit_status == EXIT_SUCCESS, seat)
            else (false, seat)

/-- Function `emit_upstart_signal`. -/
def emit_upstart_signal (env : SeatEnv) (seat : Seat) (signal : CString) : Seat :=
  if signal = [] then seat
  else if env.getuid ≠ 0 then seat
  else seat_call seat (SeatCall.g_spawn_command_line_async
    (str "/sbin/initctl -q emit " ++ signal ++ str " DISPLAY_MANAGER=lightdm"))

/-- Function `display_start_display_server_cb`: `TRUE` stops the display. -/
def display_start_display_server_cb (env : SeatEnv) (seat : Seat) (display : Nat) :
    Bool × Seat :=
  match seat_get_string_property seat (str "display-setup-script") with
  | some script =>
      let r := run_script env seat display script none
      if !r.1 then (true, r.2)
      else (false, emit_upstart_signal env r.2 (str "login-session-start"))
  | none => (false, emit_upstart_signal env seat (str "login-session-start"))

/-- Function `display_start_greeter_cb`. -/
def display_start_greeter_cb (env : SeatEnv) (seat : Seat) (display : Nat) : Bool × Seat :=
  let session := env.display_get_session display
  match seat_get_string_property seat (str "greeter-setup-script") with
  | some script =>
      let r := run_script env seat display script (session.map (fun s => s.user))
      (!r.1, r.2)
  | none => (false, seat)

/-- Function `display_start_session_cb`. -/
def display_start_session_cb (env : SeatEnv) (seat : Seat) (display : Nat) : Bool × Seat :=
  let session := env.display_get_session display
  match seat_get_string_property seat (str "session-setup-script") with
  | some script =>
      let r := run_script env seat display script (session.map (fun s => s.user))
      (!r.1, r.2)
  | none => (false, seat)

/-- The loop of `session_stopped_cb` that looks for the display of a session. -/
def find_display_of_session (env : SeatEnv) (session : Session) : List Nat → Option Nat
  | [] => none
  | d :: link =>
      if env.display_get_session d = some session then some d
      else find_display_of_session env session link

/-- Function `session_stopped_cb`. -/
def session_stopped_cb (env : SeatEnv) (seat : Seat) (session : Session) : Seat :=
  match find_display_of_session env session seat.displays with
  | none => seat
  | some display =>
      let seat := match seat_get_string_property seat (str "session-cleanup-script") with
        | some script => (run_script env seat display script (some session.user)).2
        | none => seat
      match seat.guest_username with
      | some guest_username =>
          if session.user.name = guest_username then
            let seat := seat_call seat (SeatCall.guest_account_cleanup guest_username)
            { seat with guest_username := none }
          else seat
      | none => seat

/-- Function `display_session_started_cb`; the handler it connects to the
session is the event `SeatEvent.session_stopped`. -/
def display_session_started_cb (env : SeatEnv) (seat : Seat) (_display : Nat) : Bool × Seat :=
  (false, emit_upstart_signal env seat (str "desktop-session-start"))

/-- Function `display_ready_cb`. -/
def display_ready_cb (env : SeatEnv) (seat : Seat) (display : Nat) : Seat :=
  seat_real_set_active_display env seat display

/-- Function `check_stopped`. -/
def check_stopped (seat : Seat) : Seat :=
  if seat.stopping && !seat.stopped && seat.displays.length == 0 then
    seat_emit { seat with stopped := true } SeatSignal.STOPPED
  else seat

/-- Function `display_stopped_cb`. -/
def display_stopped_cb (seat : Seat) (display : Nat) : Seat :=
  let seat := { seat with displays := seat.displays.erase display }
  let seat := seat_emit seat (SeatSignal.DISPLAY_REMOVED display)
  check_stopped seat

/-- Function `switch_to_user_or_start_greeter`. -/
def switch_to_user_or_start_greeter (env : SeatEnv) (seat : Seat) (username : Option CString)
    (is_guest : Bool) (session_name : Option CString) (autologin : Bool) : Bool × Seat :=
  let r := switch_to_user env seat username
  if r.1 then (true, r.2)
  else
    let display := env.add_display
    let seat := seat_call seat (SeatCall.display_set_greeter_session display
      (seat_get_string_property seat (str "greeter-session")))
    let seat := seat_call seat (SeatCall.display_set_session_wrapper display
      (seat_get_string_property seat (str "session-wrapper")))
    let seat := seat_call seat (SeatCall.display_set_hide_users_hint display
      (seat_get_boolean_property seat (str "greeter-hide-users")))
    let seat := seat_call seat (SeatCall.display_set_allow_guest display
      (seat_get_allow_guest env seat))
    let seat :=
      if autologin then seat_call seat (SeatCall.display_set_autologin_user display username is_guest 0)
      else seat_call seat (SeatCall.display_set_select_user_hint display username is_guest)
    let session_name := match session_name with
      | some name => some name
      | none => seat_get_string_property seat (str "user-session")
    let seat := seat_call seat (SeatCall.display_set_user_session display session_name)
    let seat := { seat with displays := seat.displays ++ [display] }
    let seat := seat_emit seat (SeatSignal.DISPLAY_ADDED display)
    let seat :=
      if seat.active_display = none then seat_set_active_display env seat display else seat
    (env.display_start display, seat_call seat (SeatCall.display_start display))

/-- Function `seat_switch_to_greeter`. -/
def seat_switch_to_greeter (env : SeatEnv) (seat : Seat) : Bool × Seat :=
  if !seat.can_switch then (false, seat)
  else switch_to_user_or_start_greeter env seat none false none false

/-- Function `seat_switch_to_user`; `FALSE` for the user name `NULL`. -/
def seat_switch_to_user (env : SeatEnv) (seat : Seat) (username : Option CString)
    (session_name : Option CString) : Bool × Seat :=
  match username with
  | none => (false, seat)
  | some username =>
      if !seat.can_switch then (false, seat)
      else switch_to_user_or_start_greeter env seat (some username) false session_name false

/-- Function `seat_switch_to_guest`. -/
def seat_switch_to_guest (env : SeatEnv) (seat : Seat) (session_name : Option CString) :
    Bool × Seat :=
  if !seat.can_switch || !seat_get_allow_guest env seat then (false, seat)
  else switch_to_user_or_start_greeter env seat seat.guest_username true session_name true

/-- Function `seat_real_stop`. -/
def seat_real_stop (seat : Seat) : Seat :=
  let seat := check_stopped seat
  if seat.stopped then seat
  else seat.displays.foldl (fun seat display => seat_call seat (SeatCall.display_stop display)) seat

/-- Function `seat_stop`. -/
def seat_stop (seat : Seat) : Seat :=
  if seat.stopping then seat
  else seat_real_stop { seat with stopping := true }

/-- Function `seat_real_start`. -/
def seat_real_start (env : SeatEnv) (seat : Seat) : Bool × Seat :=
  let autologin_username := match seat_get_string_property seat (str "autologin-user") with
    | some [] => none
    | other => other
  match autologin_username with
  | some username => switch_to_user_or_start_greeter env seat (some username) false none true
  | none =>
      if seat_get_boolean_property seat (str "autologin-guest") then
        switch_to_user_or_start_greeter env seat none true none true
      else switch_to_user_or_start_greeter env seat none false none false

/-- Function `seat_start`: `seat_real_setup` does nothing. -/
def seat_start (env : SeatEnv) (seat : Seat) : Bool × Seat :=
  seat_real_start env seat

/-- The user names handed to `guest_account_cleanup` so far, in order. -/
def guest_cleanups (seat : Seat) : List CString :=
  seat.calls.filterMap (fun c => match c with
    | SeatCall.guest_account_cleanup username => some username
    | _ => none)

/-! ## The daemon (`lightdm.c`)

The configuration (`configuration.c`) and the display manager
(`display-manager.c`) are not part of the embedding: what the configuration
answers is a field of `Config`, what the daemon asks of the display manager and
of the table of bus entries is recorded in `Daemon.calls`. -/

def EXIT_FAILURE : Nat := 1

/-- Answers of the configuration: the groups, the keys of a group, the value of
a key (`NULL` when there is none). -/
structure Config where
  config_get_groups : List CString
  config_get_keys : CString → List CString
  config_get_string : CString → CString → Option CString
  config_get_boolean : CString → CString → Bool

/-- Calls the daemon makes on the display manager and on `seat_bus_entries`. -/
inductive DaemonCall where
  | display_manager_add_seat (seat : Seat)
  | display_manager_stop
  | g_hash_table_remove (seat : Seat)
deriving DecidableEq, Repr

/-- The static variable `exit_code` of `lightdm.c`, and the calls made. -/
structure Daemon where
  exit_code : Nat
  calls : List DaemonCall
deriving DecidableEq, Repr

/-- The daemon when `main` begins: `exit_code = EXIT_SUCCESS`. -/
def daemon_new : Daemon := { exit_code := EXIT_SUCCESS, calls := [] }

/-- Function `seat_new` with its argument: `NULL` for the module name `NULL`
and for a name no module is registered under; `seat_modules` yields the object
`g_object_new` creates for a registered module. -/
def seat_new_module (seat_modules : CString → Option Seat) (module_name : Option CString) :
    Option Seat :=
  match module_name with
  | none => none
  | some name => seat_modules name

/-- One loop of `set_seat_properties` over the keys of a group.  A value `NULL`
is stored as such: a lookup of the name then yields `NULL`, as for a name that
is not in the table. -/
def set_seat_properties_loop (config : Config) (group : CString) (seat : Seat) :
    List CString → Seat
  | [] => seat
  | key :: keys =>
      let seat := match config.config_get_string group key with
        | some value => seat_set_property seat key value
        | none => { seat with properties := seat.properties.filter (fun p => p.1 ≠ key) }
      set_seat_properties_loop config group seat keys

/-- Function `set_seat_properties`. -/
def set_seat_properties (config : Config) (seat : Seat) (config_section : Option CString) :
    Seat :=
  let seat := set_seat_properties_loop config (str "SeatDefaults") seat
    (config.config_get_keys (str "SeatDefaults"))
  match config_section with
  | some config_section =>
      set_seat_properties_loop config config_section seat (config.config_get_keys config_section)
  | none => seat

/-- Function `seat_removed_cb`. -/
def seat_removed_cb (daemon : Daemon) (seat : Seat) : Daemon :=
  let daemon := { daemon with calls := daemon.calls ++ [DaemonCall.g_hash_table_remove seat] }
  if seat_get_boolean_property seat (str "exit-on-failure") then
    let daemon := { daemon with exit_code := EXIT_FAILURE }
    { daemon with calls := daemon.calls ++ [DaemonCall.display_manager_stop] }
  else daemon

/-- The loop of `main` over the groups of the configuration that loads the
seats of the sections `Seat:`; it counts the seats created in `n_seats`. -/
def main_load_seats (config : Config) (seat_modules : CString → Option Seat) :
    List CString → Daemon × Nat → Daemon × Nat
  | [], r => r
  | config_section :: groups, (daemon, n_seats) =>
      if !(str "Seat:").isPrefixOf config_section then
        main_load_seats config seat_modules groups (daemon, n_seats)
      else
        let type := match config.config_get_string config_section (str "type") with
          | some type => some type
          | none => config.config_get_string (str "SeatDefaults") (str "type")
        match seat_new_module seat_modules type with
        | some seat =>
            let seat := set_seat_properties config seat (some config_section)
            main_load_seats config seat_modules groups
              ({ daemon with calls := daemon.calls ++ [DaemonCall.display_manager_add_seat seat] },
                n_seats + 1)
        | none => main_load_seats config seat_modules groups (daemon, n_seats)

/-- The block of `main` that adds the default seat when no seat was loaded. -/
def main_default_seat (config : Config) (seat_modules : CString → Option Seat)
    (daemon : Daemon) (n_seats : Nat) : Daemon :=
  if n_seats == 0 && config.config_get_boolean (str "LightDM") (str "start-default-seat") then
    match seat_new_module seat_modules
        (config.config_get_string (str "SeatDefaults") (str "type")) with
    | some seat =>
        let seat := set_seat_properties config seat none
        let seat := seat_set_property seat (str "exit-on-failure") (str "true")
        { daemon with calls := daemon.calls ++ [DaemonCall.display_manager_add_seat seat] }
    | none => daemon
  else daemon

/-- The part of `main` that hands the seats to the display manager. -/
def main_seats (config : Config) (seat_modules : CString → Option Seat) (daemon : Daemon) :
    Daemon :=
  let r := main_load_seats config seat_modules config.config_get_groups (daemon, 0)
  main_default_seat config seat_modules r.1 r.2

/-! ## The tool `lightdm-set-defaults` (`utils/lightdm-set-defaults.c`) -/

/-- Function `tolower` of `<ctype.h>` in the C locale. -/
def tolower (c : Nat) : Nat := if 65 ≤ c ∧ c ≤ 90 then c + 32 else c

/-- Function `strncasecmp` of `<strings.h>` in the C locale: the difference of
the first octets that differ, case ignored, among the first `n`; the end of a
string counts as the octet zero. -/
def strncasecmp : CString → CString → Nat → Int
  | _, _, 0 => 0
  | [], [], _ + 1 => 0
  | [], c2 :: _, _ + 1 => 0 - (tolower c2 : Int)
  | c1 :: _, [], _ + 1 => (tolower c1 : Int)
  | c1 :: s1, c2 :: s2, n + 1 =>
      if tolower c1 = tolower c2 then strncasecmp s1 s2 n
      else (tolower c1 : Int) - (tolower c2 : Int)

/-- Function `str_to_bool`: the value returned and `*bool_out`. -/
def str_to_bool (s : Option CString) (bool_out : Bool) : Int × Bool :=
  match s with
  | none => (-1, bool_out)
  | some [] => (-1, bool_out)
  | some s =>
      if strncasecmp s (str "true") 4 = 0 then (0, true)
      else if strncasecmp s (str "false") 5 = 0 then (0, false)
      else (-2, bool_out)

/-! ## Runs of one seat -/

/-- What happens to a seat: the operations of its interface, and the
callbacks connected to the signals of its displays and of their sessions. -/
inductive SeatEvent where
  | start
  | switch_to_greeter
  | switch_to_user (username : Option CString) (session_name : Option CString)
  | switch_to_guest (session_name : Option CString)
  | set_active_display (display : Nat)
  | stop
  | display_switch_to_user (display : Nat) (user : User)
  | display_switch_to_guest (display : Nat)
  | display_get_guest_username (display : Nat)
  | display_start_display_server (display : Nat)
  | display_start_greeter (display : Nat)
  | display_start_session (display : Nat)
  | display_session_started (display : Nat)
  | display_ready (display : Nat)
  | display_stopped (display : Nat)
  | session_stopped (session : Session)

/-- One event on a seat.  A callback of a display that is not in `displays`
has no handler connected. -/
def seat_step (env : SeatEnv) (seat : Seat) : SeatEvent → Seat
  | SeatEvent.start => (seat_start env seat).2
  | SeatEvent.switch_to_greeter => (seat_switch_to_greeter env seat).2
  | SeatEvent.switch_to_user username session_name =>
      (seat_switch_to_user env seat username session_name).2
  | SeatEvent.switch_to_guest session_name => (seat_switch_to_guest env seat session_name).2
  | SeatEvent.set_active_display display => seat_set_active_display env seat display
  | SeatEvent.stop => seat_stop seat
  | SeatEvent.display_switch_to_user display user =>
      if display ∈ seat.displays then (display_switch_to_user_cb env seat user).2 else seat
  | SeatEvent.display_switch_to_guest display =>
      if display ∈ seat.displays then (display_switch_to_guest_cb env seat).2 else seat
  | SeatEvent.display_get_guest_username display =>
      if display ∈ seat.displays then (display_get_guest_username_cb env seat).2 else seat
  | SeatEvent.display_start_display_server display =>
      if display ∈ seat.displays then (display_start_display_server_cb env seat display).2
      else seat
  | SeatEvent.display_start_greeter display =>
      if display ∈ seat.displays then (display_start_greeter_cb env seat display).2 else seat
  | SeatEvent.display_start_session display =>
      if display ∈ seat.displays then (display_start_session_cb env seat display).2 else seat
  | SeatEvent.display_session_started display =>
      if display ∈ seat.displays then (display_session_started_cb env seat display).2 else seat
  | SeatEvent.display_ready display =>
      if display ∈ seat.displays then display_ready_cb env seat display else seat
  | SeatEvent.display_stopped display =>
      if display ∈ seat.displays then display_stopped_cb seat display else seat
  | SeatEvent.session_stopped session => session_stopped_cb env seat session

/-- A run of a seat: the events in order, each with the answers of the outside
world at that time. -/
def seat_run (seat : Seat) : List (SeatEnv × SeatEvent) → Seat
  | [] => seat
  | x :: rest => seat_run (seat_step x.1 seat x.2) rest

/-- The operations that may add a display to the seat. -/
def adds_display : SeatEvent → Bool
  | SeatEvent.start => true
  | SeatEvent.switch_to_greeter => true
  | SeatEvent.switch_to_user _ _ => true
  | SeatEvent.switch_to_guest _ => true
  | _ => false

/-- In the run no operation that may add a display is called on a seat that
has stopped. -/
def switches_while_running (seat : Seat) : List (SeatEnv × SeatEvent) → Bool
  | [] => true
  | x :: rest =>
      !(seat.stopped && adds_display x.2)
      && switches_while_running (seat_step x.1 seat x.2) rest

/-- In the run `seat_set_active_display` is only given displays of the seat. -/
def activates_own_displays (seat : Seat) : List (SeatEnv × SeatEvent) → Bool
  | [] => true
  | x :: rest =>
      (match x.2 with
        | SeatEvent.set_active_display display => decide (display ∈ seat.displays)
        | _ => true)
      && activates_own_displays (seat_step x.1 seat x.2) rest

/-! ## Concrete surroundings used in the examples -/

/-- An outside world that starts nothing: no session for any user, no user
session, no thread, no user known.  `VERSION` is `"1.0"`. -/
def env_refusing : Env :=
  { VERSION := [49, 46, 48], start_authentication := fun _ => none,
    start_session := fun _ => false, thread_created := false,
    accounts_get_user_by_name := fun _ => none }

/-- An outside world where authentication starts: the handler of
`start-authentication` yields `pam_session_new self "lightdm" username`, threads
are created, every user is known, user sessions start. -/
def env_starting (self : Nat) : Env :=
  { VERSION := [49, 46, 48],
    start_authentication := fun username =>
      some (pam_session_new self [108, 105, 103, 104, 116, 100, 109] username),
    start_session := fun _ => true, thread_created := true,
    accounts_get_user_by_name := fun name => some { name := name } }

/-- A session for `"alice"` in the middle of a conversation: the worker thread
waits for the answers to an information text and a password prompt. -/
def session_prompting : PAMSession :=
  { pam_session_new 1 [108, 105, 103, 104, 116, 100, 109] (some [97, 108, 105, 99, 101]) with
    in_authentication := true
    authentication_thread := true
    authentication_response_queue := some []
    messages := [{ msg_style := PAM_TEXT_INFO, msg := some [72, 105] },
                 { msg_style := PAM_PROMPT_ECHO_OFF, msg := some [80, 119, 58] }] }

/-- A run in which a second `AUTHENTICATE` arrives before the result of the
first; then both worker threads end. -/
def events_superseded : List (Env × Event) :=
  [(env_starting 1, Event.AUTHENTICATE 1 [97]),
   (env_starting 2, Event.AUTHENTICATE 2 [98]),
   (env_starting 2, Event.authentication_complete 1 PAM_CONV_ERR),
   (env_starting 2, Event.authentication_complete 2 PAM_SUCCESS)]

/-- A run of a password login (scenario S1 of the spec). -/
def events_login : List (Env × Event) :=
  [(env_starting 1, Event.CONNECT [49, 46, 48]),
   (env_starting 1, Event.AUTHENTICATE 7 [97, 108, 105, 99, 101]),
   (env_starting 1, Event.got_messages 1
      [{ msg_style := PAM_PROMPT_ECHO_OFF, msg := some [80, 119, 58] }]),
   (env_starting 1, Event.CONTINUE_AUTHENTICATION [[115, 51]]),
   (env_starting 1, Event.response_taken 1),
   (env_starting 1, Event.authentication_complete 1 PAM_SUCCESS),
   (env_starting 1, Event.START_SESSION [])]

/-- An outside world for the examples on seats: the daemon runs as root, the
guest account is installed and is set up as `"guest-001"`, the next display
created is `add_display`, the displays listed in `users` run a session of the
user given and every other display shows a greeter, displays start, scripts
are regular executable files that exit with status 0. -/
def seat_env (add_display : Nat) (users : List (Nat × CString)) : SeatEnv :=
  { getuid := 0, guest_account_is_installed := true,
    guest_account_setup := some (str "guest-001"), add_display := add_display,
    display_get_username := fun d => (users.find? (fun p => p.1 = d)).map (fun p => p.2),
    display_get_session := fun d =>
      (users.find? (fun p => p.1 = d)).map (fun p => { self := d, user := { name := p.2 } }),
    display_get_xserver := fun _ => none, display_start := fun _ => true,
    is_regular_executable := fun _ => true, g_shell_parse_argv := fun s => some [s],
    g_spawn_sync := fun _ => some 0 }

/-- A seat of a local X server: it can switch and allows guests. -/
def seat_local : Seat :=
  seat_set_property (seat_set_can_switch seat_new true) (str "allow-guest") (str "true")

/-- A run in which the only display of a seat stops. -/
def events_display_stops : List (SeatEnv × SeatEvent) :=
  [(seat_env 1 [], SeatEvent.start), (seat_env 1 [], SeatEvent.display_stopped 1)]

/-- A run in which a seat is asked for a greeter after it has stopped. -/
def events_switch_after_stop : List (SeatEnv × SeatEvent) :=
  [(seat_env 1 [], SeatEvent.start), (seat_env 1 [], SeatEvent.stop),
   (seat_env 1 [], SeatEvent.display_stopped 1), (seat_env 2 [], SeatEvent.switch_to_greeter)]

/-- A run in which a seat starts a greeter, is stopped, and its display stops;
the stop and the callback are then repeated. -/
def events_start_stop : List (SeatEnv × SeatEvent) :=
  [(seat_env 1 [], SeatEvent.start), (seat_env 1 [], SeatEvent.display_ready 1),
   (seat_env 1 [], SeatEvent.stop), (seat_env 1 [], SeatEvent.display_stopped 1),
   (seat_env 1 [], SeatEvent.stop), (seat_env 1 [], SeatEvent.display_stopped 1)]

/-- A session whose only attempt failed: the worker thread reported
`PAM_AUTH_ERR`. -/
def session_failed : PAMSession :=
  notify_auth_complete_cb
    { (pam_session_authenticate
        (pam_session_new 1 [108, 105, 103, 104, 116, 100, 109] (some [97, 108, 105, 99, 101]))
        true).2 with authentication_result := PAM_AUTH_ERR }

/-- A configuration without sections `Seat:` that asks for the default seat. -/
def config_default : Config :=
  { config_get_groups := [str "LightDM", str "SeatDefaults"],
    config_get_keys := fun group =>
      if group = str "SeatDefaults" then [str "type", str "exit-on-failure"] else [],
    config_get_string := fun group key =>
      if group = str "SeatDefaults" ∧ key = str "type" then some (str "xlocal")
      else if group = str "SeatDefaults" ∧ key = str "exit-on-failure" then some (str "false")
      else none,
    config_get_boolean := fun group key =>
      decide (group = str "LightDM" ∧ key = str "start-default-seat") }

/-! ## Lemmas on the wire primitives -/

theorem int_octets_length (value : Nat) : (int_octets value).length = 4 := rfl

theorem store_length (buffer : List Nat) (offset : Nat) (data : List Nat)
    (h : offset + data.length ≤ buffer.length) :
    (store buffer offset data).length = buffer.length := by
  simp only [store, List.length_append, List.length_take, List.length_drop]
  omega

theorem store_take (buffer : List Nat) (offset : Nat) (data : List Nat)
    (h : offset ≤ buffer.length) :
    (store buffer offset data).take (offset + data.length) = buffer.take offset ++ data := by
  have h1 : (buffer.take offset ++ data).length = offset + data.length := by
    simp only [List.length_append, List.length_take]; omega
  rw [store, ← h1, List.take_left]

theorem sent_length (m : List Nat × Nat) (h : m.2 ≤ m.1.length) : (sent m).length = m.2 := by
  simp only [sent, List.length_take]; omega

theorem write_int_spec (buffer : List Nat) (value offset : Nat)
    (hb : buffer.length = MAX_MESSAGE_LENGTH) (ho : offset ≤ MAX_MESSAGE_LENGTH) :
    (write_int buffer MAX_MESSAGE_LENGTH value offset).1.length = MAX_MESSAGE_LENGTH
    ∧ (write_int buffer MAX_MESSAGE_LENGTH value offset).2 ≤ MAX_MESSAGE_LENGTH
    ∧ sent (write_int buffer MAX_MESSAGE_LENGTH value offset)
        = put_int (sent (buffer, offset)) value := by
  have hl : (sent (buffer, offset)).length = offset := sent_length _ (by simpa [hb] using ho)
  unfold write_int put_int
  rw [hl]
  by_cases h : offset + 4 ≥ MAX_MESSAGE_LENGTH
  · simp only [h, if_true]; exact ⟨hb, ho, trivial⟩
  · simp only [h, if_false]
    have h4 : offset + (int_octets value).length ≤ buffer.length := by
      rw [int_octets_length, hb]; omega
    refine ⟨by rw [store_length _ _ _ h4, hb], by omega, ?_⟩
    have := store_take buffer offset (int_octets value) (by omega)
    rw [int_octets_length] at this
    simpa [sent] using this

theorem write_string_spec (buffer : List Nat) (value : Option CString) (offset : Nat)
    (hb : buffer.length = MAX_MESSAGE_LENGTH) (ho : offset ≤ MAX_MESSAGE_LENGTH) :
    (write_string buffer MAX_MESSAGE_LENGTH value offset).1.length = MAX_MESSAGE_LENGTH
    ∧ (write_string buffer MAX_MESSAGE_LENGTH value offset).2 ≤ MAX_MESSAGE_LENGTH
    ∧ sent (write_string buffer MAX_MESSAGE_LENGTH value offset)
        = put_string (sent (buffer, offset)) value := by
  have hlen : (match value with | some v => v.length | none => 0) = (value.getD []).length := by
    cases value <;> rfl
  obtain ⟨h1, h2, h3⟩ := write_int_spec buffer (value.getD []).length offset hb ho
  have hl := sent_length (write_int buffer MAX_MESSAGE_LENGTH (value.getD []).length offset)
    (by rw [h1]; exact h2)
  unfold write_string put_string
  simp only [hlen]
  rw [← h3, hl]
  generalize write_int buffer MAX_MESSAGE_LENGTH (value.getD []).length offset = m at *
  obtain ⟨b, o⟩ := m
  simp only at h1 h2 ⊢
  by_cases h : o + (value.getD []).length ≥ MAX_MESSAGE_LENGTH
  · simp only [h, if_true]; exact ⟨h1, h2, trivial⟩
  · simp only [h, if_false]
    by_cases hp : (value.getD []).length > 0
    · simp only [hp, if_true]
      refine ⟨by rw [store_length _ _ _ (by omega), h1], by omega, ?_⟩
      simpa [sent] using store_take b o (value.getD []) (by omega)
    · simp only [hp, if_false]
      have : value.getD [] = [] := List.eq_nil_of_length_eq_zero (by omega)
      refine ⟨h1, h2, ?_⟩
      rw [this, List.append_nil]

theorem write_header_spec (buffer : List Nat) (id length offset : Nat)
    (hb : buffer.length = MAX_MESSAGE_LENGTH) (ho : offset ≤ MAX_MESSAGE_LENGTH) :
    (write_header buffer MAX_MESSAGE_LENGTH id length offset).1.length = MAX_MESSAGE_LENGTH
    ∧ (write_header buffer MAX_MESSAGE_LENGTH id length offset).2 ≤ MAX_MESSAGE_LENGTH
    ∧ sent (write_header buffer MAX_MESSAGE_LENGTH id length offset)
        = put_int (put_int (sent (buffer, offset)) id) length := by
  obtain ⟨h1, h2, h3⟩ := write_int_spec buffer id offset hb ho
  unfold write_header
  rw [← h3]
  generalize write_int buffer MAX_MESSAGE_LENGTH id offset = m at *
  obtain ⟨b, o⟩ := m
  exact write_int_spec b length o h1 h2

theorem write_int_ok (m : List Nat × Nat) (value : Nat) (h : buffer_ok m) :
    buffer_ok (write_int m.1 MAX_MESSAGE_LENGTH value m.2) :=
  ⟨(write_int_spec m.1 value m.2 h.1 h.2).1, (write_int_spec m.1 value m.2 h.1 h.2).2.1⟩

theorem write_int_sent (m : List Nat × Nat) (value : Nat) (h : buffer_ok m) :
    sent (write_int m.1 MAX_MESSAGE_LENGTH value m.2) = put_int (sent m) value :=
  (write_int_spec m.1 value m.2 h.1 h.2).2.2

theorem write_string_ok (m : List Nat × Nat) (value : Option CString) (h : buffer_ok m) :
    buffer_ok (write_string m.1 MAX_MESSAGE_LENGTH value m.2) :=
  ⟨(write_string_spec m.1 value m.2 h.1 h.2).1, (write_string_spec m.1 value m.2 h.1 h.2).2.1⟩

theorem write_string_sent (m : List Nat × Nat) (value : Option CString) (h : buffer_ok m) :
    sent (write_string m.1 MAX_MESSAGE_LENGTH value m.2) = put_string (sent m) value :=
  (write_string_spec m.1 value m.2 h.1 h.2).2.2

theorem write_header_ok (m : List Nat × Nat) (id length : Nat) (h : buffer_ok m) :
    buffer_ok (write_header m.1 MAX_MESSAGE_LENGTH id length m.2) :=
  ⟨(write_header_spec m.1 id length m.2 h.1 h.2).1,
    (write_header_spec m.1 id length m.2 h.1 h.2).2.1⟩

theorem write_header_sent (m : List Nat × Nat) (id length : Nat) (h : buffer_ok m) :
    sent (write_header m.1 MAX_MESSAGE_LENGTH id length m.2)
      = put_int (put_int (sent m) id) length :=
  (write_header_spec m.1 id length m.2 h.1 h.2).2.2

theorem message_buffer_ok : buffer_ok (message_buffer, 0) :=
  ⟨by simp [message_buffer], Nat.zero_le _⟩

theorem sent_message_buffer : sent (message_buffer, 0) = [] := rfl

/-! ## The frames each handler writes -/

theorem send_end_authentication_eq (greeter : Greeter) (sequence_number : Nat)
    (username : Option CString) (result : Nat) :
    send_end_authentication greeter sequence_number username result
      = { greeter with to_greeter_channel := greeter.to_greeter_channel
            ++ [end_authentication_octets sequence_number username result] } := by
  have h0 := message_buffer_ok
  have h1 := write_header_ok _ SERVER_MESSAGE_END_AUTHENTICATION
    (int_length + string_length username + int_length) h0
  have h2 := write_int_ok _ sequence_number h1
  have h3 := write_string_ok _ username h2
  have e := write_int_sent _ result h3
  rw [write_string_sent _ username h2, write_int_sent _ sequence_number h1,
    write_header_sent _ _ _ h0, sent_message_buffer] at e
  simp only [send_end_authentication, write_message]
  exact congrArg (fun f => { greeter with to_greeter_channel := greeter.to_greeter_channel ++ [f] }) e

theorem session_result_eq (greeter : Greeter) (code : Nat) :
    write_message greeter
        (write_int (write_header message_buffer MAX_MESSAGE_LENGTH
          SERVER_MESSAGE_SESSION_RESULT int_length 0).1 MAX_MESSAGE_LENGTH code
          (write_header message_buffer MAX_MESSAGE_LENGTH
            SERVER_MESSAGE_SESSION_RESULT int_length 0).2).1
        (write_int (write_header message_buffer MAX_MESSAGE_LENGTH
          SERVER_MESSAGE_SESSION_RESULT int_length 0).1 MAX_MESSAGE_LENGTH code
          (write_header message_buffer MAX_MESSAGE_LENGTH
            SERVER_MESSAGE_SESSION_RESULT int_length 0).2).2
      = { greeter with to_greeter_channel := greeter.to_greeter_channel
            ++ [session_result_octets code] } := by
  have h0 := message_buffer_ok
  have h1 := write_header_ok _ SERVER_MESSAGE_SESSION_RESULT int_length h0
  have e := write_int_sent _ code h1
  rw [write_header_sent _ _ _ h0, sent_message_buffer] at e
  simp only [write_message]
  exact congrArg (fun f => { greeter with to_greeter_channel := greeter.to_greeter_channel ++ [f] }) e

theorem hints_loop_spec (hints : List (CString × CString)) (m : List Nat × Nat)
    (h : buffer_ok m) :
    buffer_ok (hints.foldl
        (fun (m : List Nat × Nat) kv =>
          write_string (write_string m.1 MAX_MESSAGE_LENGTH (some kv.1) m.2).1
            MAX_MESSAGE_LENGTH (some kv.2)
            (write_string m.1 MAX_MESSAGE_LENGTH (some kv.1) m.2).2) m)
    ∧ sent (hints.foldl
        (fun (m : List Nat × Nat) kv =>
          write_string (write_string m.1 MAX_MESSAGE_LENGTH (some kv.1) m.2).1
            MAX_MESSAGE_LENGTH (some kv.2)
            (write_string m.1 MAX_MESSAGE_LENGTH (some kv.1) m.2).2) m)
      = hints.foldl (fun frame kv => put_string (put_string frame (some kv.1)) (some kv.2))
          (sent m) := by
  induction hints generalizing m with
  | nil => exact ⟨h, rfl⟩
  | cons kv rest ih =>
    have h1 := write_string_ok m (some kv.1) h
    have h2 := write_string_ok _ (some kv.2) h1
    have e := ih _ h2
    rw [write_string_sent _ _ h1, write_string_sent _ _ h] at e
    exact e

theorem handle_connect_eq (env : Env) (greeter : Greeter) (version : CString) :
    handle_connect env greeter version
      = { greeter with
          to_greeter_channel := greeter.to_greeter_channel
            ++ [connected_octets env.VERSION greeter.hints]
          emitted := greeter.emitted ++ [GreeterSignal.CONNECTED] } := by
  have h0 := message_buffer_ok
  have h1 := write_header_ok _ SERVER_MESSAGE_CONNECTED
    (greeter.hints.foldl
      (fun length kv => length + (string_length (some kv.1) + string_length (some kv.2)))
      (string_length (some env.VERSION))) h0
  have h2 := write_string_ok _ (some env.VERSION) h1
  have e := (hints_loop_spec greeter.hints _ h2).2
  rw [write_string_sent _ _ h1, write_header_sent _ _ _ h0, sent_message_buffer] at e
  simp only [handle_connect, write_message]
  exact congrArg (fun f => { greeter with
    to_greeter_channel := greeter.to_greeter_channel ++ [f]
    emitted := greeter.emitted ++ [GreeterSignal.CONNECTED] }) e

theorem messages_loop_spec (msg : List pam_message) (m : List Nat × Nat) (n : Nat)
    (h : buffer_ok m) :
    buffer_ok (msg.foldl
        (fun (r : (List Nat × Nat) × Nat) p =>
          (write_string (write_int r.1.1 MAX_MESSAGE_LENGTH p.msg_style r.1.2).1
              MAX_MESSAGE_LENGTH p.msg
              (write_int r.1.1 MAX_MESSAGE_LENGTH p.msg_style r.1.2).2,
            if is_prompt_style p.msg_style then r.2 + 1 else r.2)) (m, n)).1
    ∧ sent (msg.foldl
        (fun (r : (List Nat × Nat) × Nat) p =>
          (write_string (write_int r.1.1 MAX_MESSAGE_LENGTH p.msg_style r.1.2).1
              MAX_MESSAGE_LENGTH p.msg
              (write_int r.1.1 MAX_MESSAGE_LENGTH p.msg_style r.1.2).2,
            if is_prompt_style p.msg_style then r.2 + 1 else r.2)) (m, n)).1
      = msg.foldl (fun frame p => put_string (put_int frame p.msg_style) p.msg) (sent m)
    ∧ (msg.foldl
        (fun (r : (List Nat × Nat) × Nat) p =>
          (write_string (write_int r.1.1 MAX_MESSAGE_LENGTH p.msg_style r.1.2).1
              MAX_MESSAGE_LENGTH p.msg
              (write_int r.1.1 MAX_MESSAGE_LENGTH p.msg_style r.1.2).2,
            if is_prompt_style p.msg_style then r.2 + 1 else r.2)) (m, n)).2
      = n + msg.countP (fun p => is_prompt_style p.msg_style) := by
  induction msg generalizing m n with
  | nil => exact ⟨h, rfl, rfl⟩
  | cons p rest ih =>
    have h1 := write_int_ok m p.msg_style h
    have h2 := write_string_ok _ p.msg h1
    obtain ⟨e1, e2, e3⟩ := ih _ (if is_prompt_style p.msg_style then n + 1 else n) h2
    rw [write_string_sent _ _ h1, write_int_sent _ _ h] at e2
    refine ⟨e1, e2, ?_⟩
    rw [List.foldl_cons, e3, List.countP_cons]
    by_cases hp : is_prompt_style p.msg_style = true
    · simp only [hp, if_true]; omega
    · simp only [hp, if_false]; simp

/-- The response `pam_messages_cb` makes up when a batch asks for nothing. -/
theorem pam_messages_cb_eq (authentication : PAMSession) (msg : List pam_message)
    (greeter : Greeter) :
    pam_messages_cb authentication msg greeter
      = if msg.countP (fun p => is_prompt_style p.msg_style) = 0 then
          { greeter with
            to_greeter_channel := greeter.to_greeter_channel
              ++ [prompt_octets greeter.authentication_sequence_number
                    (pam_session_get_username authentication) msg]
            authentication := greeter.authentication.map (fun s => pam_session_respond s
              (List.replicate msg.length ({ resp := none, resp_retcode := 0 } : pam_response))) }
        else
          { greeter with
            to_greeter_channel := greeter.to_greeter_channel
              ++ [prompt_octets greeter.authentication_sequence_number
                    (pam_session_get_username authentication) msg] } := by
  have h0 := message_buffer_ok
  have h1 := write_header_ok _ SERVER_MESSAGE_PROMPT_AUTHENTICATION
    (msg.foldl (fun size m => size + (int_length + string_length m.msg))
      (int_length + string_length (pam_session_get_username authentication) + int_length)) h0
  have h2 := write_int_ok _ greeter.authentication_sequence_number h1
  have h3 := write_string_ok _ (pam_session_get_username authentication) h2
  have h4 := write_int_ok _ msg.length h3
  obtain ⟨-, e, c⟩ := messages_loop_spec msg _ 0 h4
  rw [write_int_sent _ _ h3, write_string_sent _ _ h2, write_int_sent _ _ h1,
    write_header_sent _ _ _ h0, sent_message_buffer] at e
  rw [Nat.zero_add] at c
  simp only [sent] at e
  simp only [pam_messages_cb, write_message, c, e, prompt_octets, beq_iff_eq]

theorem int_octets_eq_u32 (value : Nat) : int_octets value = u32 value := by
  have h : ∀ x : Nat, x &&& 0xFF = x % 256 := fun x => Nat.and_pow_two_sub_one_eq_mod x 8
  simp only [int_octets, u32, h, Nat.shiftRight_eq_div_pow]
  norm_num
  omega

theorem end_authentication_octets_empty (seq result : Nat) :
    end_authentication_octets seq (some []) result = END_AUTHENTICATION seq [] result := by
  simp [end_authentication_octets, put_int, put_string, int_octets_length, MAX_MESSAGE_LENGTH,
    END_AUTHENTICATION, wire_frame, wire_string, int_octets_eq_u32, string_length, int_length,
    SERVER_MESSAGE_END_AUTHENTICATION]
  rfl

theorem session_result_octets_one : session_result_octets 1 = SESSION_RESULT 1 := by decide

/-! ## Lemmas on the conversation -/

theorem count_prompts_eq (messages : List pam_message) :
    count_prompts messages = messages.countP (fun m => is_prompt_style m.msg_style) := by
  have h : ∀ (l : List pam_message) (n : Nat),
      l.foldl (fun n_prompts m => if is_prompt_style m.msg_style then n_prompts + 1 else n_prompts) n
        = n + l.countP (fun m => is_prompt_style m.msg_style) := by
    intro l
    induction l with
    | nil => intro n; rfl
    | cons m rest ih =>
      intro n
      rw [List.foldl_cons, ih, List.countP_cons]
      by_cases hp : is_prompt_style m.msg_style = true
      · simp only [hp, if_true]; omega
      · simp only [hp, if_false]; simp

  rw [count_prompts, h, Nat.zero_add]

theorem build_response_spec (secrets : List CString) (messages : List pam_message) :
    ∀ (i j : Nat) (response : List pam_response), i + messages.length ≤ response.length →
      (build_response secrets messages i j response).length = response.length
      ∧ (∀ k, k < i → (build_response secrets messages i j response)[k]? = response[k]?)
      ∧ (∀ k, k < messages.length →
          (build_response secrets messages i j response)[i + k]?
            = if is_prompt_style (messages.getD k ⟨0, none⟩).msg_style then
                some { resp := secrets[j + (messages.take k).countP
                          (fun m => is_prompt_style m.msg_style)]?,
                       resp_retcode := 0 }
              else response[i + k]?) := by
  induction messages with
  | nil =>
    intro i j response _
    exact ⟨rfl, fun _ _ => rfl, fun k hk => absurd hk (Nat.not_lt_zero k)⟩
  | cons m rest ih =>
    intro i j response hlen
    simp only [List.length_cons] at hlen
    by_cases hp : is_prompt_style m.msg_style = true
    · simp only [build_response, hp, if_true]
      obtain ⟨h1, h2, h3⟩ := ih (i + 1) (j + 1)
        (response.set i { resp := secrets[j]?, resp_retcode := 0 })
        (by rw [List.length_set]; omega)
      rw [List.length_set] at h1
      refine ⟨h1, ?_, ?_⟩
      · intro k hk
        rw [h2 k (by omega), List.getElem?_set_ne (by omega)]
      · intro k hk
        cases k with
        | zero =>
          have e := h2 i (by omega)
          rw [List.getElem?_set_self (by omega)] at e
          simpa [hp] using e
        | succ k =>
          simp only [List.length_cons] at hk
          have := h3 k (by omega)
          rw [show i + 1 + k = i + (k + 1) by omega] at this
          rw [this, List.getElem?_set_ne (by omega)]
          simp only [List.getD_cons_succ, List.take_succ_cons, List.countP_cons, hp, if_true]
          rw [show j + 1 + List.countP (fun m => is_prompt_style m.msg_style) (List.take k rest)
            = j + (List.countP (fun m => is_prompt_style m.msg_style) (List.take k rest) + 1) by omega]
    · have hp' : is_prompt_style m.msg_style = false := by simpa using hp
      simp only [build_response, hp', Bool.false_eq_true, if_false]
      obtain ⟨h1, h2, h3⟩ := ih (i + 1) j response (by omega)
      refine ⟨h1, fun k hk => h2 k (by omega), ?_⟩
      intro k hk
      cases k with
      | zero =>
        have e := h2 i (by omega)
        simpa [hp'] using e
      | succ k =>
        simp only [List.length_cons] at hk
        have := h3 k (by omega)
        rw [show i + 1 + k = i + (k + 1) by omega] at this
        rw [this]
        simp [List.take_succ_cons, List.countP_cons, hp']

theorem countP_take_lt (messages : List pam_message) (i : Nat) (h : i < messages.length)
    (hp : is_prompt_style messages[i].msg_style = true) :
    (messages.take i).countP (fun m => is_prompt_style m.msg_style)
      < messages.countP (fun m => is_prompt_style m.msg_style) := by
  have h1 : (messages.take (i + 1)).countP (fun m => is_prompt_style m.msg_style)
      = (messages.take i).countP (fun m => is_prompt_style m.msg_style) + 1 := by
    rw [List.take_succ, List.countP_append, List.getElem?_eq_getElem h]
    simp [hp]
  have h2 := (List.take_sublist (i + 1) messages).countP_le (fun m => is_prompt_style m.msg_style)
  omega


/-! ## C1: frame bounds and the length field -/

set_option maxRecDepth 1000000 in
/-- C1 (code defect): the result of a session whose user name has 1004 octets
is reported in a frame of 1020 octets whose length field says 1016 while only
1012 payload octets follow (the result code is left out): the frame is not
well formed. -/
theorem C1_end_authentication_length_field_wrong :
    (authentication_result_cb (pam_session_new 1 [] (some (List.replicate 1004 97))) PAM_SUCCESS
        { greeter_new with authentication_sequence_number := 7 }).to_greeter_channel.map
      (fun frame => (frame.length, frame_length_field frame, (frame_payload frame).length,
        decide (frame_ok frame)))
      = [(1020, 1016, 1012, false)] := by
  decide

/-! ## C2: frames longer than 1024 octets -/

/-- C3: when the number of secrets differs from the number of prompt-style
messages pending, `handle_continue_authentication` cancels the session
(`pam_session_cancel`), leaves `is_authenticated` as it was, and puts no
response vector on the queue: every response in the queue was there before. -/
theorem C3_mismatch_cancels (greeter : Greeter) (authentication : PAMSession)
    (secrets : List CString)
    (hs : greeter.authentication = some authentication)
    (hn : secrets.length
      ≠ authentication.messages.countP (fun m => is_prompt_style m.msg_style)) :
    handle_continue_authentication greeter secrets
        = { greeter with authentication := some (pam_session_cancel authentication) }
    ∧ (pam_session_cancel authentication).is_authenticated = authentication.is_authenticated
    ∧ ∀ response queue,
        (pam_session_cancel authentication).authentication_response_queue = some queue →
        QueueItem.response response ∈ queue →
        ∃ before, authentication.authentication_response_queue = some before
          ∧ QueueItem.response response ∈ before := by
  refine ⟨?_, ?_, ?_⟩
  · rw [← count_prompts_eq] at hn
    simp only [handle_continue_authentication, hs, pam_session_get_messages]
    rw [if_pos hn]
  · unfold pam_session_cancel; split <;> rfl
  · intro response queue hq hmem
    unfold pam_session_cancel at hq
    split at hq
    · cases hb : authentication.authentication_response_queue with
      | none => rw [hb] at hq; simp at hq
      | some before =>
        rw [hb] at hq
        simp only [Option.map_some', Option.some.injEq] at hq
        subst hq
        refine ⟨before, rfl, ?_⟩
        simpa using hmem
    · exact ⟨queue, hq, hmem⟩

/-- C3 at a concrete input: two secrets for one prompt; the session is stopped
and only the cancellation mark is queued. -/
theorem C3_mismatch_cancels_witness :
    (handle_continue_authentication
        { greeter_new with authentication := some session_prompting } [[120], [121]]
      = { greeter_new with authentication := some (pam_session_cancel session_prompting) })
    ∧ (pam_session_cancel session_prompting).stop_thread = true
    ∧ (pam_session_cancel session_prompting).authentication_response_queue
        = some [QueueItem.cancelled] :=
  ⟨(C3_mismatch_cancels { greeter_new with authentication := some session_prompting }
      session_prompting [[120], [121]] rfl (by decide)).1, by decide, by decide⟩

/-- C4: when the number of secrets equals the number of prompt-style messages
pending, `handle_continue_authentication` passes to `pam_session_respond` a
vector with one slot per pending message; the slot of a prompt-style message
holds the secret whose index is the number of prompt-style messages before it,
and the slot of any other message is empty. -/
theorem C4_response_vector (greeter : Greeter) (authentication : PAMSession)
    (secrets : List CString)
    (hs : greeter.authentication = some authentication)
    (hn : secrets.length
      = authentication.messages.countP (fun m => is_prompt_style m.msg_style)) :
    handle_continue_authentication greeter secrets
        = { greeter with authentication := some (pam_session_respond authentication
              (build_response secrets authentication.messages 0 0
                (List.replicate authentication.messages.length
                  { resp := none, resp_retcode := 0 }))) }
    ∧ (build_response secrets authentication.messages 0 0
          (List.replicate authentication.messages.length
            { resp := none, resp_retcode := 0 })).length = authentication.messages.length
    ∧ ∀ (i : Nat) (h : i < authentication.messages.length),
        (is_prompt_style authentication.messages[i].msg_style = true →
          ∃ secret,
            secrets[(authentication.messages.take i).countP
              (fun m => is_prompt_style m.msg_style)]? = some secret
            ∧ (build_response secrets authentication.messages 0 0
                (List.replicate authentication.messages.length
                  { resp := none, resp_retcode := 0 }))[i]?
              = some { resp := some secret, resp_retcode := 0 })
        ∧ (is_prompt_style authentication.messages[i].msg_style = false →
            (build_response secrets authentication.messages 0 0
                (List.replicate authentication.messages.length
                  { resp := none, resp_retcode := 0 }))[i]?
              = some { resp := none, resp_retcode := 0 }) := by
  obtain ⟨h1, -, h3⟩ := build_response_spec secrets authentication.messages 0 0
    (List.replicate authentication.messages.length { resp := none, resp_retcode := 0 })
    (by simp)
  refine ⟨?_, by rw [h1, List.length_replicate], ?_⟩
  · rw [← count_prompts_eq] at hn
    simp only [handle_continue_authentication, hs, pam_session_get_messages,
      pam_session_get_num_messages]
    rw [if_neg (by simpa using hn)]
  · intro i h
    have e := h3 i h
    rw [Nat.zero_add, Nat.zero_add, List.getD_eq_getElem _ _ h] at e
    constructor
    · intro hp
      have hlt := countP_take_lt authentication.messages i h hp
      rw [← hn] at hlt
      refine ⟨secrets[(authentication.messages.take i).countP
        (fun m => is_prompt_style m.msg_style)], List.getElem?_eq_getElem hlt, ?_⟩
      rw [e, if_pos hp, List.getElem?_eq_getElem hlt]
    · intro hp
      rw [e, hp]
      simp [List.getElem?_replicate, h]

/-- C4 at a concrete input: one secret for an information text followed by a
password prompt; the vector queued is (empty, the secret). -/
theorem C4_response_vector_witness :
    (handle_continue_authentication
        { greeter_new with authentication := some session_prompting } [[115, 51]]).authentication.map
      (fun s => s.authentication_response_queue)
      = some (some [QueueItem.response
          [{ resp := none, resp_retcode := 0 }, { resp := some [115, 51], resp_retcode := 0 }]]) := by
  rw [(C4_response_vector { greeter_new with authentication := some session_prompting }
    session_prompting [[115, 51]] rfl (by decide)).1]
  decide

/-! ## C5: starting the user session -/

/-- C5: `handle_start_session` emits the `start-session` signal only if the
guest account is authenticated or the current session is authenticated;
otherwise, also without a current session, it emits nothing and writes exactly
one frame, `SESSION_RESULT` with code 1, the octets
`00 00 00 03, 00 00 00 04, 00 00 00 01`. -/
theorem C5_start_session_gate (env : Env) (greeter : Greeter) (session : CString) :
    ((handle_start_session env greeter session).emitted ≠ greeter.emitted →
        greeter.guest_account_authenticated = true
          ∨ pam_session_get_is_authenticated greeter.authentication = true)
    ∧ (greeter.guest_account_authenticated = false →
        pam_session_get_is_authenticated greeter.authentication = false →
        handle_start_session env greeter session
          = { greeter with to_greeter_channel := greeter.to_greeter_channel
                ++ [[0, 0, 0, 3, 0, 0, 0, 4, 0, 0, 0, 1]] })
    ∧ (greeter.guest_account_authenticated = false → greeter.authentication = none →
        handle_start_session env greeter session
          = { greeter with to_greeter_channel := greeter.to_greeter_channel
                ++ [[0, 0, 0, 3, 0, 0, 0, 4, 0, 0, 0, 1]] })
    ∧ SESSION_RESULT 1 = [0, 0, 0, 3, 0, 0, 0, 4, 0, 0, 0, 1] := by
  have hrefuse : greeter.guest_account_authenticated = false →
      pam_session_get_is_authenticated greeter.authentication = false →
      handle_start_session env greeter session
        = { greeter with to_greeter_channel := greeter.to_greeter_channel
              ++ [[0, 0, 0, 3, 0, 0, 0, 4, 0, 0, 0, 1]] } := by
    intro hg ha
    simp only [handle_start_session, hg, ha, Bool.or_self, Bool.false_eq_true, if_false,
      Bool.not_false, if_true]
    rw [session_result_eq, hg]
    rfl
  refine ⟨?_, hrefuse, ?_, by decide⟩
  · intro hne
    by_contra hcon
    simp only [not_or, Bool.not_eq_true] at hcon
    rw [hrefuse hcon.1 hcon.2] at hne
    exact hne rfl
  · intro hg hn
    exact hrefuse hg (by rw [hn]; rfl)

/-! ## C6: the guest account -/

/-- C6: with `allow_guest` set, `handle_login_as_guest` leaves
`guest_account_authenticated` `TRUE` and writes the one frame
`END_AUTHENTICATION (seq, "", PAM_SUCCESS)`; with `allow_guest` unset it leaves
the flag `FALSE` and writes the one frame
`END_AUTHENTICATION (seq, "", PAM_USER_UNKNOWN)`. -/
theorem C6_login_as_guest (greeter : Greeter) (seq : Nat) :
    (greeter.allow_guest = true →
      (handle_login_as_guest greeter seq).guest_account_authenticated = true
      ∧ (handle_login_as_guest greeter seq).to_greeter_channel
          = greeter.to_greeter_channel ++ [END_AUTHENTICATION seq [] PAM_SUCCESS])
    ∧ (greeter.allow_guest = false →
      (handle_login_as_guest greeter seq).guest_account_authenticated = false
      ∧ (handle_login_as_guest greeter seq).to_greeter_channel
          = greeter.to_greeter_channel ++ [END_AUTHENTICATION seq [] PAM_USER_UNKNOWN]) := by
  have hr : (reset_session greeter).allow_guest = greeter.allow_guest
      ∧ (reset_session greeter).to_greeter_channel = greeter.to_greeter_channel
      ∧ (reset_session greeter).guest_account_authenticated = false := by
    unfold reset_session; cases greeter.authentication <;> exact ⟨rfl, rfl, rfl⟩
  constructor
  · intro h
    simp only [handle_login_as_guest, hr.1, h, Bool.not_true, Bool.false_eq_true, if_false,
      send_end_authentication_eq, end_authentication_octets_empty, hr.2.1]
    trivial
  · intro h
    simp only [handle_login_as_guest, hr.1, h, Bool.not_false, if_true,
      send_end_authentication_eq, end_authentication_octets_empty, hr.2.1, hr.2.2]
    trivial

theorem reset_session_channel (greeter : Greeter) :
    (reset_session greeter).to_greeter_channel = greeter.to_greeter_channel := by
  unfold reset_session; cases greeter.authentication <;> rfl

/-! ## C8: authentication that does not start -/

/-- C8 (counterexample): when the `start-authentication` handler yields no
session, the frame written for `AUTHENTICATE (7, "alice")` carries
`PAM_USER_UNKNOWN` (10), not `PAM_SYSTEM_ERR` (4). -/
theorem C8_no_session_reports_user_unknown :
    (handle_login env_refusing greeter_new 7 [97, 108, 105, 99, 101]).to_greeter_channel
      = [END_AUTHENTICATION 7 [] PAM_USER_UNKNOWN]
    ∧ END_AUTHENTICATION 7 [] PAM_USER_UNKNOWN ≠ END_AUTHENTICATION 7 [] PAM_SYSTEM_ERR := by
  decide

/-- C8 (amended): for every `AUTHENTICATE (seq, u)` whose authentication does
not start, `handle_login` writes one `END_AUTHENTICATION` frame with that `seq`
and an empty user name; the result is `PAM_USER_UNKNOWN` when the
`start-authentication` handler yields no session, and `PAM_SYSTEM_ERR` when
`pam_session_authenticate` reports failure. -/
theorem C8_login_not_started (env : Env) (greeter : Greeter) (seq : Nat) (username : CString) :
    (env.start_authentication (if username = [] then none else some username) = none →
      (handle_login env greeter seq username).to_greeter_channel
        = greeter.to_greeter_channel ++ [END_AUTHENTICATION seq [] PAM_USER_UNKNOWN])
    ∧ (∀ s, env.start_authentication (if username = [] then none else some username) = some s →
      (pam_session_authenticate s env.thread_created).1 = false →
      (handle_login env greeter seq username).to_greeter_channel
        = greeter.to_greeter_channel ++ [END_AUTHENTICATION seq [] PAM_SYSTEM_ERR]) := by
  constructor
  · intro h
    simp only [handle_login, h, send_end_authentication_eq, end_authentication_octets_empty,
      reset_session_channel]
  · intro s h hf
    simp only [handle_login, h, hf, Bool.not_false, if_true, send_end_authentication_eq,
      end_authentication_octets_empty, reset_session_channel]

/-! ## Lemmas on the header of a frame -/

theorem put_int_length_ge (frame : List Nat) (value : Nat) :
    frame.length ≤ (put_int frame value).length := by
  unfold put_int; split
  · exact Nat.le_refl _
  · rw [List.length_append]; omega

theorem put_int_take (frame : List Nat) (value k : Nat) (hk : k ≤ frame.length) :
    (put_int frame value).take k = frame.take k := by
  unfold put_int; split
  · rfl
  · exact List.take_append_of_le_length hk

theorem put_string_length_ge (frame : List Nat) (value : Option CString) :
    frame.length ≤ (put_string frame value).length := by
  have h := put_int_length_ge frame (value.getD []).length
  unfold put_string
  simp only
  split
  · exact h
  · rw [List.length_append]; omega

theorem put_string_take (frame : List Nat) (value : Option CString) (k : Nat)
    (hk : k ≤ frame.length) : (put_string frame value).take k = frame.take k := by
  have h := put_int_length_ge frame (value.getD []).length
  unfold put_string
  simp only
  split
  · exact put_int_take frame _ k hk
  · rw [List.take_append_of_le_length (by omega)]
    exact put_int_take frame _ k hk

theorem put_int_fits (frame : List Nat) (value : Nat)
    (h : frame.length + 4 < MAX_MESSAGE_LENGTH) : put_int frame value = frame ++ u32 value := by
  unfold put_int
  rw [if_neg (by omega), int_octets_eq_u32]

theorem u32_length (value : Nat) : (u32 value).length = 4 := rfl

theorem u32_mod (value : Nat) : u32 (value % 2 ^ 32) = u32 value := by
  rw [← int_octets_eq_u32, ← int_octets_eq_u32]
  unfold int_octets
  simp only [Nat.mod_mod]

/-- The first four octets of a frame are the octets of its id. -/
theorem header_take (id length : Nat) :
    (put_int (put_int [] id) length).take 4 = u32 id
    ∧ 8 ≤ (put_int (put_int [] id) length).length := by
  rw [put_int_fits [] id (by decide),
    put_int_fits _ length (by simp [u32_length, MAX_MESSAGE_LENGTH])]
  exact ⟨rfl, by simp [u32_length]⟩

theorem is_end_authentication_of_id (q id : Nat) (frame : List Nat)
    (h : frame.take 4 = u32 id) (hid : u32 id ≠ u32 2) :
    is_end_authentication q frame = false := by
  unfold is_end_authentication
  rw [h]
  simp [hid]

theorem hints_loop_take (hints : List (CString × CString)) (frame : List Nat) (k : Nat)
    (hk : k ≤ frame.length) :
    (hints.foldl (fun frame kv => put_string (put_string frame (some kv.1)) (some kv.2))
      frame).take k = frame.take k := by
  induction hints generalizing frame with
  | nil => rfl
  | cons kv rest ih =>
    rw [List.foldl_cons, ih _ (by
      have h1 := put_string_length_ge frame (some kv.1)
      have h2 := put_string_length_ge (put_string frame (some kv.1)) (some kv.2)
      omega)]
    rw [put_string_take _ _ _ (by
      have h1 := put_string_length_ge frame (some kv.1)
      omega), put_string_take _ _ _ hk]

theorem messages_loop_take (msg : List pam_message) (frame : List Nat) (k : Nat)
    (hk : k ≤ frame.length) :
    (msg.foldl (fun frame p => put_string (put_int frame p.msg_style) p.msg) frame).take k
      = frame.take k := by
  induction msg generalizing frame with
  | nil => rfl
  | cons p rest ih =>
    rw [List.foldl_cons, ih _ (by
      have h1 := put_int_length_ge frame p.msg_style
      have h2 := put_string_length_ge (put_int frame p.msg_style) p.msg
      omega)]
    rw [put_string_take _ _ _ (by
      have h1 := put_int_length_ge frame p.msg_style
      omega), put_int_take _ _ _ hk]

theorem connected_octets_kind (q : Nat) (version : CString) (hints : List (CString × CString)) :
    is_end_authentication q (connected_octets version hints) = false := by
  apply is_end_authentication_of_id q SERVER_MESSAGE_CONNECTED _ _ (by decide)
  unfold connected_octets
  have h := header_take SERVER_MESSAGE_CONNECTED (hints.foldl
    (fun length kv => length + (string_length (some kv.1) + string_length (some kv.2)))
    (string_length (some version)))
  have h2 := put_string_length_ge (put_int (put_int [] SERVER_MESSAGE_CONNECTED) (hints.foldl
    (fun length kv => length + (string_length (some kv.1) + string_length (some kv.2)))
    (string_length (some version)))) (some version)
  rw [hints_loop_take _ _ 4 (by omega), put_string_take _ _ 4 (by omega)]
  exact h.1

theorem prompt_octets_kind (q seq : Nat) (username : Option CString) (msg : List pam_message) :
    is_end_authentication q (prompt_octets seq username msg) = false := by
  apply is_end_authentication_of_id q SERVER_MESSAGE_PROMPT_AUTHENTICATION _ _ (by decide)
  unfold prompt_octets
  have h := header_take SERVER_MESSAGE_PROMPT_AUTHENTICATION
    (msg.foldl (fun size m => size + (int_length + string_length m.msg))
        (int_length + string_length username + int_length))
  have h1 := put_int_length_ge (put_int (put_int [] SERVER_MESSAGE_PROMPT_AUTHENTICATION)
    (msg.foldl (fun size m => size + (int_length + string_length m.msg))
        (int_length + string_length username + int_length))) seq
  have h2 := put_string_length_ge (put_int (put_int (put_int []
    SERVER_MESSAGE_PROMPT_AUTHENTICATION)
    (msg.foldl (fun size m => size + (int_length + string_length m.msg))
        (int_length + string_length username + int_length))) seq) username
  have h3 := put_int_length_ge (put_string (put_int (put_int (put_int []
    SERVER_MESSAGE_PROMPT_AUTHENTICATION)
    (msg.foldl (fun size m => size + (int_length + string_length m.msg))
        (int_length + string_length username + int_length))) seq) username) msg.length
  rw [messages_loop_take _ _ 4 (by omega), put_int_take _ _ 4 (by omega),
    put_string_take _ _ 4 (by omega), put_int_take _ _ 4 (by omega)]
  exact h.1

theorem session_result_octets_kind (q code : Nat) :
    is_end_authentication q (session_result_octets code) = false := by
  apply is_end_authentication_of_id q SERVER_MESSAGE_SESSION_RESULT _ _ (by decide)
  unfold session_result_octets
  have h := header_take SERVER_MESSAGE_SESSION_RESULT int_length
  rw [put_int_take _ _ 4 (by omega)]
  exact h.1

theorem end_authentication_octets_kind (q seq : Nat) (username : Option CString)
    (result : Nat) :
    is_end_authentication q (end_authentication_octets seq username result)
      = (u32 seq == u32 q) := by
  have h12 : (end_authentication_octets seq username result).take 12
      = u32 SERVER_MESSAGE_END_AUTHENTICATION
        ++ u32 (int_length + string_length username + int_length) ++ u32 seq := by
    unfold end_authentication_octets
    have e : put_int (put_int (put_int [] SERVER_MESSAGE_END_AUTHENTICATION)
        (int_length + string_length username + int_length)) seq
        = u32 SERVER_MESSAGE_END_AUTHENTICATION
          ++ u32 (int_length + string_length username + int_length) ++ u32 seq := by
      have e1 : put_int [] SERVER_MESSAGE_END_AUTHENTICATION
          = u32 SERVER_MESSAGE_END_AUTHENTICATION := put_int_fits [] _ (by decide)
      have e2 := put_int_fits (u32 SERVER_MESSAGE_END_AUTHENTICATION)
        (int_length + string_length username + int_length)
        (by simp [u32_length, MAX_MESSAGE_LENGTH])
      have e3 := put_int_fits (u32 SERVER_MESSAGE_END_AUTHENTICATION
        ++ u32 (int_length + string_length username + int_length)) seq
        (by simp [u32_length, MAX_MESSAGE_LENGTH])
      rw [e1, e2, e3]
    have hl : (put_int (put_int (put_int [] SERVER_MESSAGE_END_AUTHENTICATION)
        (int_length + string_length username + int_length)) seq).length = 12 := by
      rw [e]; simp [u32_length]
    have h1 := put_string_length_ge (put_int (put_int (put_int []
      SERVER_MESSAGE_END_AUTHENTICATION)
      (int_length + string_length username + int_length)) seq) username
    rw [put_int_take _ _ 12 (by omega), put_string_take _ _ 12 (by omega), ← hl,
      List.take_length, e]
  have h4 : (end_authentication_octets seq username result).take 4 = u32 2 := by
    have := congrArg (List.take 4) h12
    rw [List.take_take] at this
    rw [show min 4 12 = 4 from rfl] at this
    rw [this]; rfl
  have h8 : ((end_authentication_octets seq username result).drop 8).take 4 = u32 seq := by
    have := congrArg (List.drop 8) h12
    rw [List.drop_take] at this
    rw [show 12 - 8 = 4 from rfl] at this
    rw [this]
    simp [u32]
  unfold is_end_authentication
  rw [h4, h8]
  simp

/-! ## The frames that fit the buffer, and the bounds of all frames -/

theorem put_string_fits (frame : List Nat) (value : Option CString)
    (h : frame.length + 4 + (value.getD []).length < MAX_MESSAGE_LENGTH) :
    put_string frame value = frame ++ wire_string (value.getD []) := by
  unfold put_string
  simp only
  rw [put_int_fits frame _ (by omega), if_neg (by
    rw [List.length_append, u32_length]; omega)]
  unfold wire_string
  rw [List.append_assoc]

theorem put_int_length_lt (frame : List Nat) (value : Nat)
    (h : frame.length < MAX_MESSAGE_LENGTH) :
    (put_int frame value).length < MAX_MESSAGE_LENGTH := by
  unfold put_int; split
  · exact h
  · rw [List.length_append, int_octets_length]; omega

theorem put_string_length_lt (frame : List Nat) (value : Option CString)
    (h : frame.length < MAX_MESSAGE_LENGTH) :
    (put_string frame value).length < MAX_MESSAGE_LENGTH := by
  have h1 := put_int_length_lt frame (value.getD []).length h
  unfold put_string
  simp only
  split
  · exact h1
  · rw [List.length_append]; omega

theorem string_length_eq (value : Option CString) :
    string_length value = 4 + (value.getD []).length := by
  cases value <;> rfl

theorem messages_size (msg : List pam_message) (size : Nat) :
    msg.foldl (fun size m => size + (int_length + string_length m.msg)) size
      = size + (msg.map (fun p => u32 p.msg_style ++ wire_string (p.msg.getD []))).flatten.length := by
  induction msg generalizing size with
  | nil => rfl
  | cons p rest ih =>
    rw [List.foldl_cons, ih, List.map_cons, List.flatten_cons, List.length_append,
      List.length_append, u32_length, string_length_eq]
    unfold wire_string int_length
    rw [List.length_append, u32_length]
    omega

theorem messages_loop_fits (msg : List pam_message) (frame : List Nat)
    (h : frame.length
        + (msg.map (fun p => u32 p.msg_style ++ wire_string (p.msg.getD []))).flatten.length
      < MAX_MESSAGE_LENGTH) :
    msg.foldl (fun frame p => put_string (put_int frame p.msg_style) p.msg) frame
      = frame ++ (msg.map (fun p => u32 p.msg_style ++ wire_string (p.msg.getD []))).flatten := by
  induction msg generalizing frame with
  | nil => simp
  | cons p rest ih =>
    simp only [List.map_cons, List.flatten_cons, List.length_append, u32_length, wire_string]
      at h
    have e1 := put_int_fits frame p.msg_style (by omega)
    have e2 := put_string_fits (frame ++ u32 p.msg_style) p.msg (by
      rw [List.length_append, u32_length]; omega)
    rw [List.foldl_cons, e1, e2, ih _ (by
      simp only [List.length_append, u32_length, wire_string]; omega)]
    simp only [List.map_cons, List.flatten_cons, List.append_assoc]

/-- A batch whose `PROMPT` frame is shorter than the buffer is written whole. -/
theorem prompt_octets_fits (seq : Nat) (username : Option CString) (msg : List pam_message)
    (h : (PROMPT seq (username.getD []) msg).length < MAX_MESSAGE_LENGTH) :
    prompt_octets seq username msg = PROMPT seq (username.getD []) msg := by
  unfold PROMPT wire_frame at h ⊢
  simp only [List.length_append, u32_length, wire_string] at h
  unfold prompt_octets
  rw [messages_size, string_length_eq]
  have e1 : put_int [] SERVER_MESSAGE_PROMPT_AUTHENTICATION = u32 1 :=
    put_int_fits [] _ (by decide)
  rw [e1]
  rw [put_int_fits (u32 1) _ (by simp [u32_length, MAX_MESSAGE_LENGTH])]
  rw [put_int_fits _ seq (by simp [u32_length, MAX_MESSAGE_LENGTH])]
  rw [put_string_fits _ username (by
    simp only [List.length_append, u32_length]; omega)]
  rw [put_int_fits _ msg.length (by
    simp only [List.length_append, u32_length, wire_string]; omega)]
  rw [messages_loop_fits _ _ (by
    simp only [List.length_append, u32_length, wire_string]; omega)]
  simp only [List.length_append, u32_length, wire_string, int_length, List.append_assoc]
  congr 3
  omega

/-- A result whose `END_AUTHENTICATION` frame is shorter than the buffer is
written whole. -/
theorem end_authentication_octets_fits (seq : Nat) (username : Option CString) (result : Nat)
    (h : (END_AUTHENTICATION seq (username.getD []) result).length < MAX_MESSAGE_LENGTH) :
    end_authentication_octets seq username result
      = END_AUTHENTICATION seq (username.getD []) result := by
  unfold END_AUTHENTICATION wire_frame at h ⊢
  simp only [List.length_append, u32_length, wire_string] at h
  unfold end_authentication_octets
  rw [string_length_eq]
  have e1 : put_int [] SERVER_MESSAGE_END_AUTHENTICATION = u32 2 :=
    put_int_fits [] _ (by decide)
  rw [e1]
  rw [put_int_fits (u32 2) _ (by simp [u32_length, MAX_MESSAGE_LENGTH])]
  rw [put_int_fits _ seq (by simp [u32_length, MAX_MESSAGE_LENGTH])]
  rw [put_string_fits _ username (by
    simp only [List.length_append, u32_length]; omega)]
  rw [put_int_fits _ result (by
    simp only [List.length_append, u32_length, wire_string]; omega)]
  simp only [List.length_append, u32_length, wire_string, int_length, List.append_assoc]
  rfl

/-- Every frame the greeter writes has at least the 8 octets of the header and
fewer octets than the buffer. -/
theorem frame_length_bounds :
    (∀ seq username result,
      8 ≤ (end_authentication_octets seq username result).length
      ∧ (end_authentication_octets seq username result).length < MAX_MESSAGE_LENGTH)
    ∧ (∀ seq username msg,
      8 ≤ (prompt_octets seq username msg).length
      ∧ (prompt_octets seq username msg).length < MAX_MESSAGE_LENGTH)
    ∧ (∀ code,
      8 ≤ (session_result_octets code).length
      ∧ (session_result_octets code).length < MAX_MESSAGE_LENGTH) := by
  have hh : ∀ id length, 8 ≤ (put_int (put_int [] id) length).length
      ∧ (put_int (put_int [] id) length).length < MAX_MESSAGE_LENGTH := fun id length =>
    ⟨(header_take id length).2, put_int_length_lt _ _ (put_int_length_lt _ _ (by decide))⟩
  have hloop : ∀ (msg : List pam_message) (frame : List Nat),
      8 ≤ frame.length → frame.length < MAX_MESSAGE_LENGTH →
      8 ≤ (msg.foldl (fun frame p => put_string (put_int frame p.msg_style) p.msg) frame).length
      ∧ (msg.foldl (fun frame p => put_string (put_int frame p.msg_style) p.msg) frame).length
          < MAX_MESSAGE_LENGTH := by
    intro msg
    induction msg with
    | nil => intro frame h1 h2; exact ⟨h1, h2⟩
    | cons p rest ih =>
      intro frame h1 h2
      have a1 := put_int_length_ge frame p.msg_style
      have a2 := put_string_length_ge (put_int frame p.msg_style) p.msg
      exact ih (put_string (put_int frame p.msg_style) p.msg) (by omega)
        (put_string_length_lt _ _ (put_int_length_lt _ _ h2))
  refine ⟨?_, ?_, ?_⟩
  · intro seq username result
    obtain ⟨h1, h2⟩ := hh SERVER_MESSAGE_END_AUTHENTICATION
      (int_length + string_length username + int_length)
    unfold end_authentication_octets
    have a1 := put_int_length_ge (put_int (put_int [] SERVER_MESSAGE_END_AUTHENTICATION)
      (int_length + string_length username + int_length)) seq
    have a2 := put_string_length_ge (put_int (put_int (put_int []
      SERVER_MESSAGE_END_AUTHENTICATION)
      (int_length + string_length username + int_length)) seq) username
    have a3 := put_int_length_ge (put_string (put_int (put_int (put_int []
      SERVER_MESSAGE_END_AUTHENTICATION)
      (int_length + string_length username + int_length)) seq) username) result
    exact ⟨by omega, put_int_length_lt _ _ (put_string_length_lt _ _
      (put_int_length_lt _ _ h2))⟩
  · intro seq username msg
    obtain ⟨h1, h2⟩ := hh SERVER_MESSAGE_PROMPT_AUTHENTICATION
      (msg.foldl (fun size m => size + (int_length + string_length m.msg))
        (int_length + string_length username + int_length))
    unfold prompt_octets
    have a1 := put_int_length_ge (put_int (put_int [] SERVER_MESSAGE_PROMPT_AUTHENTICATION)
      (msg.foldl (fun size m => size + (int_length + string_length m.msg))
        (int_length + string_length username + int_length))) seq
    have a2 := put_string_length_ge (put_int (put_int (put_int []
      SERVER_MESSAGE_PROMPT_AUTHENTICATION)
      (msg.foldl (fun size m => size + (int_length + string_length m.msg))
        (int_length + string_length username + int_length))) seq) username
    have a3 := put_int_length_ge (put_string (put_int (put_int (put_int []
      SERVER_MESSAGE_PROMPT_AUTHENTICATION)
      (msg.foldl (fun size m => size + (int_length + string_length m.msg))
        (int_length + string_length username + int_length))) seq) username) msg.length
    exact hloop msg _ (by omega) (put_int_length_lt _ _ (put_string_length_lt _ _
      (put_int_length_lt _ _ h2)))
  · intro code
    obtain ⟨h1, h2⟩ := hh SERVER_MESSAGE_SESSION_RESULT int_length
    unfold session_result_octets
    have a1 := put_int_length_ge (put_int (put_int [] SERVER_MESSAGE_SESSION_RESULT)
      int_length) code
    exact ⟨by omega, put_int_length_lt _ _ h2⟩

/-! ## Lemmas on runs -/

theorem answered_append (q : Nat) (frames : List (List Nat)) (frame : List Nat) :
    (frames ++ [frame]).countP (is_end_authentication q)
      = frames.countP (is_end_authentication q)
        + if is_end_authentication q frame then 1 else 0 := by
  rw [List.countP_append, List.countP_cons, List.countP_nil, Nat.zero_add]

theorem pending_congr (q : Nat) (greeter greeter' : Greeter)
    (ht : greeter'.authentication.map (fun s => s.authentication_thread)
      = greeter.authentication.map (fun s => s.authentication_thread))
    (hs : greeter'.authentication_sequence_number = greeter.authentication_sequence_number) :
    pending q greeter' = pending q greeter := by
  unfold pending
  rw [hs]
  cases h : greeter.authentication with
  | none =>
    cases h' : greeter'.authentication with
    | none => rfl
    | some s' => rw [h, h'] at ht; simp at ht
  | some s =>
    cases h' : greeter'.authentication with
    | none => rw [h, h'] at ht; simp at ht
    | some s' =>
      rw [h, h'] at ht
      simp only [Option.map_some', Option.some.injEq] at ht
      simp only [ht]

/-- A step that leaves the worker thread and the sequence number alone and
writes at most one frame, not an `END_AUTHENTICATION`, keeps the account. -/
theorem account_unchanged (q : Nat) (greeter greeter' : Greeter)
    (hc : greeter'.to_greeter_channel = greeter.to_greeter_channel
      ∨ ∃ frame, greeter'.to_greeter_channel = greeter.to_greeter_channel ++ [frame]
          ∧ is_end_authentication q frame = false)
    (ht : greeter'.authentication.map (fun s => s.authentication_thread)
      = greeter.authentication.map (fun s => s.authentication_thread))
    (hs : greeter'.authentication_sequence_number = greeter.authentication_sequence_number) :
    answered q greeter' + pending q greeter' = answered q greeter + pending q greeter := by
  rw [pending_congr q greeter greeter' ht hs]
  unfold answered
  rcases hc with hc | ⟨frame, hc, hk⟩
  · rw [hc]
  · rw [hc, answered_append, hk]; simp

theorem pam_session_cancel_thread (s : PAMSession) :
    (pam_session_cancel s).authentication_thread = s.authentication_thread := by
  unfold pam_session_cancel; split <;> rfl

theorem pam_session_respond_thread (s : PAMSession) (response : List pam_response) :
    (pam_session_respond s response).authentication_thread = s.authentication_thread := by
  unfold pam_session_respond; split <;> rfl

theorem pam_session_get_user_thread (env : Env) (s : PAMSession) :
    (pam_session_get_user env s).2.authentication_thread = s.authentication_thread := by
  unfold pam_session_get_user; split <;> rfl

theorem pam_conv_cb_thread (s s' : PAMSession) (msg : List pam_message)
    (h : pam_conv_cb s msg = some s') : s'.authentication_thread = s.authentication_thread := by
  unfold pam_conv_cb at h
  split at h
  · exact absurd h (by simp)
  · split at h
    · exact absurd h (by simp)
    · simp only [Option.some.injEq] at h
      rw [← h]

theorem pam_conv_cb_resume_thread (s : PAMSession) :
    (pam_conv_cb_resume s).authentication_thread = s.authentication_thread := by
  unfold pam_conv_cb_resume; split <;> rfl

theorem notify_auth_complete_cb_thread (s : PAMSession) :
    (notify_auth_complete_cb s).authentication_thread = false := by
  unfold notify_auth_complete_cb report_result
  simp only
  split
  · rw [pam_session_cancel_thread]
  · rfl

theorem on_released_account (q : Nat) (greeter : Greeter) (session : Nat)
    (f : PAMSession → PAMSession) :
    answered q (on_released greeter session f) + pending q (on_released greeter session f)
      = answered q greeter + pending q greeter :=
  account_unchanged q greeter _ (Or.inl rfl) rfl rfl

theorem handle_continue_authentication_account (q : Nat) (greeter : Greeter)
    (secrets : List CString) :
    answered q (handle_continue_authentication greeter secrets)
        + pending q (handle_continue_authentication greeter secrets)
      = answered q greeter + pending q greeter := by
  apply account_unchanged
  · left; unfold handle_continue_authentication; split
    · rfl
    · simp only; split <;> rfl
  · unfold handle_continue_authentication; split
    · rfl
    · rename_i s hs
      simp only; split
      · simp [hs, pam_session_cancel_thread]
      · simp [hs, pam_session_respond_thread]
  · unfold handle_continue_authentication; split
    · rfl
    · simp only; split <;> rfl

theorem handle_cancel_authentication_account (q : Nat) (greeter : Greeter) :
    answered q (handle_cancel_authentication greeter)
        + pending q (handle_cancel_authentication greeter)
      = answered q greeter + pending q greeter := by
  apply account_unchanged
  · left; unfold handle_cancel_authentication; split <;> rfl
  · unfold handle_cancel_authentication; split
    · rfl
    · rename_i s hs
      simp [hs, pam_session_cancel_thread]
  · unfold handle_cancel_authentication; split <;> rfl

theorem handle_start_session_account (q : Nat) (env : Env) (greeter : Greeter)
    (session : CString) :
    answered q (handle_start_session env greeter session)
        + pending q (handle_start_session env greeter session)
      = answered q greeter + pending q greeter := by
  unfold handle_start_session
  simp only
  rw [session_result_eq]
  by_cases hb : (greeter.guest_account_authenticated
      || pam_session_get_is_authenticated greeter.authentication) = true
  · rw [if_pos hb]
    cases hr : env.start_session (if session = [] then none else some session) with
    | true =>
      simp only [Bool.not_true, Bool.false_eq_true, if_false]
      exact account_unchanged q greeter _ (Or.inl rfl) rfl rfl
    | false =>
      simp only [Bool.not_false, if_true]
      exact account_unchanged q greeter _
        (Or.inr ⟨session_result_octets 1, rfl, session_result_octets_kind q 1⟩) rfl rfl
  · rw [if_neg hb]
    simp only [Bool.not_false, if_true]
    exact account_unchanged q greeter _
      (Or.inr ⟨session_result_octets 1, rfl, session_result_octets_kind q 1⟩) rfl rfl

theorem handle_set_language_account (q : Nat) (env : Env) (greeter : Greeter)
    (language : CString) :
    answered q (handle_set_language env greeter language)
        + pending q (handle_set_language env greeter language)
      = answered q greeter + pending q greeter := by
  unfold handle_set_language
  split
  · rfl
  · split
    · rfl
    · split
      · exact account_unchanged q greeter _ (Or.inl rfl) rfl rfl
      · rename_i s hs
        apply account_unchanged
        · left; rfl
        · simp [user_set_locale, hs, pam_session_get_user_thread]
        · rfl

theorem handle_connect_account (q : Nat) (env : Env) (greeter : Greeter) (version : CString) :
    answered q (handle_connect env greeter version) + pending q (handle_connect env greeter version)
      = answered q greeter + pending q greeter := by
  rw [handle_connect_eq]
  exact account_unchanged q greeter _
    (Or.inr ⟨_, rfl, connected_octets_kind q env.VERSION greeter.hints⟩) rfl rfl

theorem pam_messages_cb_account (q : Nat) (authentication : PAMSession)
    (msg : List pam_message) (greeter : Greeter) :
    answered q (pam_messages_cb authentication msg greeter)
        + pending q (pam_messages_cb authentication msg greeter)
      = answered q greeter + pending q greeter := by
  rw [pam_messages_cb_eq]
  split
  · refine account_unchanged q greeter _ (Or.inr ⟨_, rfl, prompt_octets_kind q _ _ msg⟩) ?_ rfl
    cases h : greeter.authentication with
    | none => rfl
    | some s => simp [pam_session_respond_thread]
  · exact account_unchanged q greeter _ (Or.inr ⟨_, rfl, prompt_octets_kind q _ _ msg⟩) rfl rfl

theorem got_messages_account (q : Nat) (env : Env) (greeter : Greeter) (session : Nat)
    (msg : List pam_message) :
    answered q (step env greeter (Event.got_messages session msg))
        + pending q (step env greeter (Event.got_messages session msg))
      = answered q greeter + pending q greeter := by
  simp only [step]
  split
  · rename_i s hs
    split
    · split
      · rfl
      · rename_i s' hs'
        rw [pam_messages_cb_account]
        refine account_unchanged q greeter _ (Or.inl rfl) ?_ rfl
        simp [hs, pam_conv_cb_thread s s' msg hs']
    · exact on_released_account q greeter session _
  · exact on_released_account q greeter session _

theorem response_taken_account (q : Nat) (env : Env) (greeter : Greeter) (session : Nat) :
    answered q (step env greeter (Event.response_taken session))
        + pending q (step env greeter (Event.response_taken session))
      = answered q greeter + pending q greeter := by
  simp only [step]
  split
  · rename_i s hs
    split
    · refine account_unchanged q greeter _ (Or.inl rfl) ?_ rfl
      simp [hs, pam_conv_cb_resume_thread]
    · exact on_released_account q greeter session _
  · exact on_released_account q greeter session _

theorem authentication_complete_account (q : Nat) (env : Env) (greeter : Greeter)
    (session result : Nat) :
    answered q (step env greeter (Event.authentication_complete session result))
        + pending q (step env greeter (Event.authentication_complete session result))
      = answered q greeter + pending q greeter := by
  simp only [step]
  split
  · rename_i s hs
    split
    · rename_i hcur
      simp only [authentication_result_cb, send_end_authentication_eq]
      simp only [answered, pending, answered_append, end_authentication_octets_kind, hs,
        notify_auth_complete_cb_thread, hcur.2, true_and, Bool.false_eq_true, false_and,
        if_false, beq_iff_eq, Nat.add_zero]
    · exact on_released_account q greeter session _
  · exact on_released_account q greeter session _

theorem reset_session_fields (greeter : Greeter) :
    (reset_session greeter).authentication = none
    ∧ (reset_session greeter).to_greeter_channel = greeter.to_greeter_channel
    ∧ (reset_session greeter).allow_guest = greeter.allow_guest := by
  unfold reset_session
  cases h : greeter.authentication with
  | none => exact ⟨h, rfl, rfl⟩
  | some s => exact ⟨rfl, rfl, rfl⟩

theorem handle_login_as_guest_account (q : Nat) (greeter : Greeter) (seq : Nat) :
    answered q (handle_login_as_guest greeter seq) + pending q (handle_login_as_guest greeter seq)
      = answered q greeter + if u32 seq == u32 q then 1 else 0 := by
  obtain ⟨h1, h2, -⟩ := reset_session_fields greeter
  unfold handle_login_as_guest
  simp only
  split <;>
    simp only [send_end_authentication_eq, answered, pending, h1, h2, answered_append,
      end_authentication_octets_kind, Nat.add_zero]

theorem handle_login_account (q : Nat) (env : Env) (greeter : Greeter) (seq : Nat)
    (username : CString) (hnew : yields_new_sessions env) :
    answered q (handle_login env greeter seq username)
        + pending q (handle_login env greeter seq username)
      = answered q greeter + if u32 seq == u32 q then 1 else 0 := by
  obtain ⟨h1, h2, -⟩ := reset_session_fields greeter
  unfold handle_login
  simp only
  cases hstart : env.start_authentication (if username = [] then none else some username) with
  | none =>
    simp only [send_end_authentication_eq, answered, pending, h2, answered_append,
      end_authentication_octets_kind, Nat.add_zero]
  | some s =>
    obtain ⟨hn1, hn2, -⟩ := hnew _ s hstart
    cases hthread : env.thread_created with
    | true =>
      simp only [pam_session_authenticate, hn1, hn2, Bool.false_eq_true, if_false, Bool.not_true,
        answered, pending, h2, true_and, u32_mod, beq_iff_eq]
    | false =>
      simp only [pam_session_authenticate, hn1, hn2, Bool.false_eq_true, if_false,
        Bool.not_false, if_true, send_end_authentication_eq, answered, pending, h2,
        answered_append, end_authentication_octets_kind, false_and, Nat.add_zero]

/-- What one event does to the account of the sequence number `q`. -/
theorem step_account (q : Nat) (env : Env) (greeter : Greeter) (e : Event)
    (hnew : yields_new_sessions env) :
    answered q (step env greeter e) + pending q (step env greeter e)
        + (if supersedes e then pending q greeter else 0)
      = answered q greeter + pending q greeter + if is_request q e then 1 else 0 := by
  cases e with
  | CONNECT version =>
    simp only [supersedes, is_request, Bool.false_eq_true, if_false, Nat.add_zero]
    exact handle_connect_account q env greeter version
  | AUTHENTICATE seq username =>
    simp only [supersedes, is_request, if_true]
    have h := handle_login_account q env greeter seq username hnew
    simp only [step]
    omega
  | AUTHENTICATE_AS_GUEST seq =>
    simp only [supersedes, is_request, if_true]
    have h := handle_login_as_guest_account q greeter seq
    simp only [step]
    omega
  | CONTINUE_AUTHENTICATION secrets =>
    simp only [supersedes, is_request, Bool.false_eq_true, if_false, Nat.add_zero]
    exact handle_continue_authentication_account q greeter secrets
  | START_SESSION name =>
    simp only [supersedes, is_request, Bool.false_eq_true, if_false, Nat.add_zero]
    exact handle_start_session_account q env greeter name
  | CANCEL_AUTHENTICATION =>
    simp only [supersedes, is_request, Bool.false_eq_true, if_false, Nat.add_zero]
    exact handle_cancel_authentication_account q greeter
  | SET_LANGUAGE locale =>
    simp only [supersedes, is_request, Bool.false_eq_true, if_false, Nat.add_zero]
    exact handle_set_language_account q env greeter locale
  | got_messages session msg =>
    simp only [supersedes, is_request, Bool.false_eq_true, if_false, Nat.add_zero]
    exact got_messages_account q env greeter session msg
  | response_taken session =>
    simp only [supersedes, is_request, Bool.false_eq_true, if_false, Nat.add_zero]
    exact response_taken_account q env greeter session
  | authentication_complete session result =>
    simp only [supersedes, is_request, Bool.false_eq_true, if_false, Nat.add_zero]
    exact authentication_complete_account q env greeter session result

theorem run_account (q : Nat) (events : List (Env × Event)) :
    ∀ (greeter : Greeter), (∀ x ∈ events, yields_new_sessions x.1) →
      answered q (run greeter events) + pending q (run greeter events)
          + superseded q greeter events
        = answered q greeter + pending q greeter + requested q events := by
  induction events with
  | nil => intro greeter _; simp [run, superseded, requested]
  | cons x rest ih =>
    intro greeter hnew
    have h1 := ih (step x.1 greeter x.2) (fun y hy => hnew y (List.mem_cons_of_mem _ hy))
    have h2 := step_account q x.1 greeter x.2 (hnew x (List.mem_cons_self _ _))
    simp only [run, superseded, requested, List.countP_cons] at h1 ⊢
    omega

theorem env_starting_new (self : Nat) : yields_new_sessions (env_starting self) := by
  intro username s h
  simp only [env_starting, Option.some.injEq] at h
  subst h
  exact ⟨rfl, rfl, rfl⟩

theorem env_refusing_new : yields_new_sessions env_refusing := by
  intro username s h
  simp [env_refusing] at h

/-! ## C7: one answer for each authentication request -/

/-- C7 (counterexample): `AUTHENTICATE (1, "a")` is superseded by
`AUTHENTICATE (2, "b")` before its result arrives; then both sessions end.  The
only frame ever written is `END_AUTHENTICATION (2, "b", PAM_SUCCESS)`: the
request with sequence number 1 is answered by no frame, and nothing is pending
that could still answer it. -/
theorem C7_superseded_request_unanswered :
    requested 1 events_superseded = 1
    ∧ answered 1 (run greeter_new events_superseded) = 0
    ∧ pending 1 (run greeter_new events_superseded) = 0
    ∧ (run greeter_new events_superseded).to_greeter_channel
        = [END_AUTHENTICATION 2 [98] PAM_SUCCESS]
    ∧ (run greeter_new events_superseded).released.map (fun s => s.authentication_thread)
        = [false] := by
  decide

/-- C7 (amended): in every run of one greeter from its creation, with new
sessions from the `start-authentication` handler, and for every sequence number
`q`: the authentication requests carrying `q` are, one for one, those answered
by an `END_AUTHENTICATION` frame carrying `q`, the one still waiting for its
result, and those superseded by a later `AUTHENTICATE` or
`AUTHENTICATE_AS_GUEST` before their result arrived.  So a request is answered
exactly once unless superseded or still pending, a superseded request is never
answered, and no request is answered twice. -/
theorem C7_end_authentication_account (events : List (Env × Event)) (q : Nat)
    (hnew : ∀ x ∈ events, yields_new_sessions x.1) :
    answered q (run greeter_new events) + pending q (run greeter_new events)
        + superseded q greeter_new events = requested q events
    ∧ answered q (run greeter_new events) ≤ requested q events := by
  have h := run_account q events greeter_new hnew
  have h0 : answered q greeter_new + pending q greeter_new = 0 := rfl
  constructor
  · omega
  · omega

/-- C7 (amended) at concrete runs: a plain password login, where the one
request is answered once, and the run in which the first of two requests is
superseded. -/
theorem C7_end_authentication_account_witness :
    (∀ x ∈ events_login, yields_new_sessions x.1)
    ∧ (answered 7 (run greeter_new events_login) + pending 7 (run greeter_new events_login)
        + superseded 7 greeter_new events_login = requested 7 events_login
      ∧ answered 7 (run greeter_new events_login) ≤ requested 7 events_login)
    ∧ answered 7 (run greeter_new events_login) = 1
    ∧ superseded 1 greeter_new events_superseded = 1 := by
  have hnew : ∀ x ∈ events_login, yields_new_sessions x.1 := by
    intro x hx
    simp only [events_login, List.mem_cons, List.mem_singleton, List.not_mem_nil, or_false] at hx
    rcases hx with h | h | h | h | h | h | h <;> rw [h] <;> exact env_starting_new 1
  exact ⟨hnew, C7_end_authentication_account events_login 7 hnew, by decide, by decide⟩

/-! ## C9: batches of messages -/

set_option maxRecDepth 1000000 in
/-- C9 (code defect): a batch of two messages of 500 octets each, for user
`"alice"` and sequence number 7.  The frame written announces 1033 payload
octets and stops after 541 octets, before the text of the second message: it
is the first 541 octets of the `PROMPT` frame of the batch, not the frame. -/
theorem C9_prompt_frame_cut_short :
    (pam_messages_cb session_prompting
        [{ msg_style := PAM_TEXT_INFO, msg := some (List.replicate 500 105) },
         { msg_style := PAM_PROMPT_ECHO_OFF, msg := some (List.replicate 500 112) }]
        { greeter_new with
          authentication := some session_prompting
          authentication_sequence_number := 7 }).to_greeter_channel.map
      (fun frame => (frame.length, frame_length_field frame,
        decide (frame = PROMPT 7 [97, 108, 105, 99, 101]
          [{ msg_style := PAM_TEXT_INFO, msg := some (List.replicate 500 105) },
           { msg_style := PAM_PROMPT_ECHO_OFF, msg := some (List.replicate 500 112) }]),
        decide (frame = (PROMPT 7 [97, 108, 105, 99, 101]
          [{ msg_style := PAM_TEXT_INFO, msg := some (List.replicate 500 105) },
           { msg_style := PAM_PROMPT_ECHO_OFF, msg := some (List.replicate 500 112) }]).take 541)))
      = [(541, 1033, false, true)] := by
  decide

/-- The part of C9 that holds for every batch shorter than the buffer: the
`PROMPT` frame lists all messages, and a response of empty slots, one for each
message, is handed to `pam_session_respond` iff no message is prompt-style. -/
theorem pam_messages_cb_fits (authentication : PAMSession) (msg : List pam_message)
    (greeter : Greeter)
    (h : (PROMPT greeter.authentication_sequence_number
      ((pam_session_get_username authentication).getD []) msg).length < MAX_MESSAGE_LENGTH) :
    pam_messages_cb authentication msg greeter
      = if msg.countP (fun p => is_prompt_style p.msg_style) = 0 then
          { greeter with
            to_greeter_channel := greeter.to_greeter_channel
              ++ [PROMPT greeter.authentication_sequence_number
                    ((pam_session_get_username authentication).getD []) msg]
            authentication := greeter.authentication.map (fun s => pam_session_respond s
              (List.replicate msg.length ({ resp := none, resp_retcode := 0 } : pam_response))) }
        else
          { greeter with
            to_greeter_channel := greeter.to_greeter_channel
              ++ [PROMPT greeter.authentication_sequence_number
                    ((pam_session_get_username authentication).getD []) msg] } := by
  rw [pam_messages_cb_eq, prompt_octets_fits _ _ _ h]

/-! ## Lemmas on reading what was written -/

theorem octets_value (a b c d : Nat) (hb : b < 256) (hc : c < 256) (hd : d < 256) :
    a <<< 24 ||| b <<< 16 ||| c <<< 8 ||| d = a * 2 ^ 24 + b * 2 ^ 16 + c * 2 ^ 8 + d := by
  have h1 : c <<< 8 ||| d = 2 ^ 8 * c + d := by
    rw [Nat.shiftLeft_eq, Nat.mul_comm]
    exact (Nat.mul_add_lt_is_or (by omega) c).symm
  have h2 : b <<< 16 ||| (2 ^ 8 * c + d) = 2 ^ 16 * b + (2 ^ 8 * c + d) := by
    rw [Nat.shiftLeft_eq, Nat.mul_comm]
    exact (Nat.mul_add_lt_is_or (by omega) b).symm
  have h3 : a <<< 24 ||| (2 ^ 16 * b + (2 ^ 8 * c + d))
      = 2 ^ 24 * a + (2 ^ 16 * b + (2 ^ 8 * c + d)) := by
    rw [Nat.shiftLeft_eq, Nat.mul_comm]
    exact (Nat.mul_add_lt_is_or (by omega) a).symm
  rw [Nat.or_assoc, Nat.or_assoc, h1, h2, h3]
  omega

theorem u32_value (v : Nat) :
    (v / 2 ^ 24 % 256) <<< 24 ||| (v / 2 ^ 16 % 256) <<< 16 ||| (v / 2 ^ 8 % 256) <<< 8
      ||| v % 256 = v % 2 ^ 32 := by
  rw [octets_value _ _ _ _ (Nat.mod_lt _ (by decide)) (Nat.mod_lt _ (by decide))
    (Nat.mod_lt _ (by decide))]
  norm_num
  omega

theorem store_getElem?_data (buffer : List Nat) (offset : Nat) (data : List Nat) (i : Nat)
    (h : offset ≤ buffer.length) (hi : i < data.length) :
    (store buffer offset data)[offset + i]? = data[i]? := by
  unfold store
  have hl : (buffer.take offset).length = offset := by rw [List.length_take]; omega
  rw [List.append_assoc, List.getElem?_append_right (by omega), hl, Nat.add_sub_cancel_left,
    List.getElem?_append_left hi]

theorem store_getElem?_other (buffer : List Nat) (offset : Nat) (data : List Nat) (i : Nat)
    (h : offset + data.length ≤ buffer.length) (hi : i < offset ∨ offset + data.length ≤ i) :
    (store buffer offset data)[i]? = buffer[i]? := by
  unfold store
  have hl : (buffer.take offset).length = offset := by rw [List.length_take]; omega
  rcases hi with hi | hi
  · rw [List.append_assoc, List.getElem?_append_left (by omega), List.getElem?_take_of_lt hi]
  · rw [List.getElem?_append_right (by rw [List.length_append]; omega), List.length_append, hl,
      List.getElem?_drop]
    congr 1
    omega

theorem store_drop_take (buffer : List Nat) (offset : Nat) (data : List Nat)
    (h : offset ≤ buffer.length) :
    ((store buffer offset data).drop offset).take data.length = data := by
  unfold store
  have hl : (buffer.take offset).length = offset := by rw [List.length_take]; omega
  rw [List.append_assoc, List.drop_append_of_le_length (by omega)]
  have hd : (buffer.take offset).drop offset = [] := by
    rw [List.drop_eq_nil_iff]; omega
  rw [hd, List.nil_append, List.take_left' rfl]

/-- What `read_int` returns when four octets written by `write_int` lie at the
offset. -/
theorem read_int_of_octets (greeter : Greeter) (offset value : Nat)
    (hn : offset + 4 ≤ greeter.n_read) (hn64 : greeter.n_read < 2 ^ 64)
    (h : (greeter.read_buffer.drop offset).take 4 = int_octets value) :
    read_int greeter offset = (value % 2 ^ 32, offset + 4) := by
  have hg : ¬ gsize_sub greeter.n_read offset < 4 := by
    unfold gsize_sub
    norm_num at hn64 ⊢
    omega
  have e : ∀ i, i < 4 → (greeter.read_buffer.drop offset).getD i 0 = (u32 value).getD i 0 := by
    intro i hi
    rw [← int_octets_eq_u32, ← h, List.getD_eq_getElem?_getD, List.getD_eq_getElem?_getD,
      List.getElem?_take_of_lt hi]
  simp only [read_int, if_neg hg, e 0 (by omega), e 1 (by omega), e 2 (by omega),
    e 3 (by omega), u32, List.getD_cons_zero, List.getD_cons_succ, int_length]
  rw [u32_value, Nat.mod_mod]

theorem store_append (front back data : List Nat) :
    store (front ++ back) front.length data = front ++ data ++ back.drop data.length := by
  unfold store
  rw [List.take_left, List.drop_append]

theorem write_int_fits_eq (buffer : List Nat) (buffer_length value offset : Nat)
    (ho : offset + 4 < buffer_length) :
    write_int buffer buffer_length value offset
      = (buffer.take offset ++ int_octets value ++ buffer.drop (offset + 4), offset + 4) := by
  unfold write_int store
  rw [if_neg (by omega), int_octets_length]

theorem write_string_fits_eq (buffer : List Nat) (buffer_length offset : Nat) (s : CString)
    (ho : offset + 4 + s.length < buffer_length) (hb : buffer_length ≤ buffer.length) :
    write_string buffer buffer_length (some s) offset
      = (buffer.take offset ++ int_octets s.length ++ s ++ buffer.drop (offset + 4 + s.length),
          offset + 4 + s.length) := by
  have hl : (buffer.take offset ++ int_octets s.length).length = offset + 4 := by
    rw [List.length_append, List.length_take, int_octets_length]; omega
  have hst := store_append (buffer.take offset ++ int_octets s.length)
    (buffer.drop (offset + 4)) s
  rw [hl, List.drop_drop] at hst
  unfold write_string
  simp only [write_int_fits_eq buffer buffer_length s.length offset (by omega),
    Option.getD_some]
  rw [if_neg (by omega)]
  by_cases hp : s.length > 0
  · rw [if_pos hp, hst]
  · rw [if_neg hp]
    have hs : s = [] := List.eq_nil_of_length_eq_zero (by omega)
    subst hs
    simp

/-! ## C11, C12: what is written is what is read -/

/-- C12: for a 32-bit value `v` and an offset `o` with `o + 4 < buffer_length`,
`write_int` stores the octets `v >> 24`, `(v >> 16) & 0xFF`, `(v >> 8) & 0xFF`,
`v & 0xFF` at the positions `o` to `o + 3`, changes no other octet and moves
the offset to `o + 4`; `read_int` over these octets returns `v` and moves the
offset to `o + 4` too. -/
theorem C12_write_int_read_int (buffer : List Nat) (buffer_length v o : Nat)
    (greeter : Greeter) (hv : v < 2 ^ 32) (ho : o + 4 < buffer_length)
    (hb : buffer_length ≤ buffer.length)
    (hr : greeter.read_buffer = (write_int buffer buffer_length v o).1)
    (hn : o + 4 ≤ greeter.n_read) (hn64 : greeter.n_read < 2 ^ 64) :
    (write_int buffer buffer_length v o).2 = o + 4
    ∧ (write_int buffer buffer_length v o).1.length = buffer.length
    ∧ (write_int buffer buffer_length v o).1[o]? = some (v >>> 24)
    ∧ (write_int buffer buffer_length v o).1[o + 1]? = some ((v >>> 16) &&& 0xFF)
    ∧ (write_int buffer buffer_length v o).1[o + 2]? = some ((v >>> 8) &&& 0xFF)
    ∧ (write_int buffer buffer_length v o).1[o + 3]? = some (v &&& 0xFF)
    ∧ (∀ i, i < o ∨ o + 4 ≤ i →
        (write_int buffer buffer_length v o).1[i]? = buffer[i]?)
    ∧ read_int greeter o = (v, o + 4) := by
  have hw : write_int buffer buffer_length v o = (store buffer o (int_octets v), o + 4) := by
    unfold write_int; rw [if_neg (by omega)]
  have ho4 : o + (int_octets v).length ≤ buffer.length := by rw [int_octets_length]; omega
  have hvm : v % 2 ^ 32 = v := Nat.mod_eq_of_lt hv
  have h24 : (v >>> 24) % 256 = v >>> 24 := by
    apply Nat.mod_eq_of_lt
    rw [Nat.shiftRight_eq_div_pow]
    norm_num at hv ⊢
    omega
  have hoct : int_octets v
      = [v >>> 24, (v >>> 16) &&& 0xFF, (v >>> 8) &&& 0xFF, v &&& 0xFF] := by
    unfold int_octets
    simp only [hvm, h24]
  have hget : ∀ i, i < 4 → (store buffer o (int_octets v))[o + i]? = (int_octets v)[i]? :=
    fun i hi => store_getElem?_data buffer o (int_octets v) i (by omega)
      (by rw [int_octets_length]; exact hi)
  rw [hw] at hr ⊢
  refine ⟨rfl, store_length _ _ _ ho4, ?_, ?_, ?_, ?_, ?_, ?_⟩
  · exact (hget 0 (by omega)).trans (by rw [hoct]; rfl)
  · exact (hget 1 (by omega)).trans (by rw [hoct]; rfl)
  · exact (hget 2 (by omega)).trans (by rw [hoct]; rfl)
  · exact (hget 3 (by omega)).trans (by rw [hoct]; rfl)
  · intro i hi
    exact store_getElem?_other buffer o (int_octets v) i ho4 (by rw [int_octets_length]; exact hi)
  · have hd := store_drop_take buffer o (int_octets v) (by omega)
    rw [int_octets_length] at hd
    rw [read_int_of_octets greeter o v hn hn64 (by rw [hr]; exact hd), hvm]

/-- C12 at a concrete input: `0x01020304` written at offset 2 of an
eight-octet buffer and read back. -/
theorem C12_write_int_read_int_witness :
    (write_int [9, 9, 9, 9, 9, 9, 9, 9] 8 16909060 2).1 = [9, 9, 1, 2, 3, 4, 9, 9]
    ∧ read_int { greeter_new with
        read_buffer := (write_int [9, 9, 9, 9, 9, 9, 9, 9] 8 16909060 2).1, n_read := 8 } 2
      = (16909060, 6) :=
  ⟨by decide,
    (C12_write_int_read_int [9, 9, 9, 9, 9, 9, 9, 9] 8 16909060 2
      { greeter_new with
        read_buffer := (write_int [9, 9, 9, 9, 9, 9, 9, 9] 8 16909060 2).1, n_read := 8 }
      (by decide) (by decide) (by decide) rfl (by decide) (by decide)).2.2.2.2.2.2.2⟩

/-- C11: for a C string `s` (no zero octet) and an offset `o` with
`o + 4 + len (s) < buffer_length`, `write_string` writes at `o` the four octets
of the length followed by the `len (s)` octets of `s`, nothing else, and moves
the offset to `o + 4 + len (s)`; `read_string` at `o` over the buffer written
returns `s` and moves the offset to `o + 4 + len (s)` too. -/
theorem C11_string_round_trip (buffer : List Nat) (buffer_length o : Nat) (s : CString)
    (greeter : Greeter) (hs : ∀ c ∈ s, c ≠ 0)
    (ho : o + 4 + s.length < buffer_length) (hb : buffer_length ≤ buffer.length)
    (hl : buffer_length < 2 ^ 31)
    (hr : greeter.read_buffer = (write_string buffer buffer_length (some s) o).1)
    (hn : o + 4 + s.length ≤ greeter.n_read) (hn64 : greeter.n_read < 2 ^ 64) :
    (write_string buffer buffer_length (some s) o).2 = o + 4 + s.length
    ∧ (write_string buffer buffer_length (some s) o).1
        = buffer.take o ++ wire_string s ++ buffer.drop (o + 4 + s.length)
    ∧ read_string greeter o = (s, o + 4 + s.length) := by
  have hw := write_string_fits_eq buffer buffer_length o s ho hb
  have hlen : s.length % 2 ^ 32 = s.length := Nat.mod_eq_of_lt (by
    norm_num at hl ⊢
    omega)
  have hto : (buffer.take o).length = o := by rw [List.length_take]; omega
  rw [hw] at hr ⊢
  simp only at hr
  have hri : read_int greeter o = (s.length, o + 4) := by
    rw [read_int_of_octets greeter o s.length (by omega) hn64 (by
      rw [hr, List.append_assoc, List.append_assoc, List.drop_append_of_le_length (by omega)]
      have hd : (buffer.take o).drop o = [] := by rw [List.drop_eq_nil_iff]; omega
      rw [hd, List.nil_append]
      exact List.take_left' (int_octets_length _)), hlen]
  have hg : ¬ gsize_sub greeter.n_read (o + 4) < s.length := by
    unfold gsize_sub
    norm_num at hn64 ⊢
    omega
  have hdata : (greeter.read_buffer.drop (o + 4)).take s.length = s := by
    have hl4 : (buffer.take o ++ int_octets s.length).length = o + 4 := by
      rw [List.length_append, hto, int_octets_length]
    rw [hr, List.append_assoc (buffer.take o ++ int_octets s.length),
      List.drop_append_of_le_length (by omega)]
    have hd : (buffer.take o ++ int_octets s.length).drop (o + 4) = [] := by
      rw [List.drop_eq_nil_iff]; omega
    rw [hd, List.nil_append]
    exact List.take_left' rfl
  refine ⟨rfl, ?_, ?_⟩
  · simp only [wire_string, int_octets_eq_u32, List.append_assoc]
  · simp only [read_string, hri, if_neg hg, hdata]
    rw [List.takeWhile_eq_self_iff.mpr (by
      intro c hc
      simpa using hs c hc)]

/-- C11 at a concrete input: `"hi"` written at offset 1 of a twelve-octet
buffer and read back. -/
theorem C11_string_round_trip_witness :
    (write_string (List.replicate 12 7) 12 (some [104, 105]) 1).1
        = [7, 0, 0, 0, 2, 104, 105, 7, 7, 7, 7, 7]
    ∧ read_string { greeter_new with
        read_buffer := (write_string (List.replicate 12 7) 12 (some [104, 105]) 1).1
        n_read := 12 } 1
      = ([104, 105], 7) :=
  ⟨by decide,
    (C11_string_round_trip (List.replicate 12 7) 12 1 [104, 105]
      { greeter_new with
        read_buffer := (write_string (List.replicate 12 7) 12 (some [104, 105]) 1).1
        n_read := 12 }
      (by decide) (by decide) (by decide) (by decide) rfl (by decide) (by decide)).2.2⟩

/-! ## Lemmas on the seat -/

theorem seat_real_set_active_display_fields (env : SeatEnv) (seat : Seat) (display : Nat) :
    (seat_real_set_active_display env seat display).active_display = some display
    ∧ (seat_real_set_active_display env seat display).displays = seat.displays
    ∧ (seat_real_set_active_display env seat display).emitted = seat.emitted
    ∧ (seat_real_set_active_display env seat display).stopping = seat.stopping
    ∧ (seat_real_set_active_display env seat display).stopped = seat.stopped
    ∧ (seat_real_set_active_display env seat display).guest_username = seat.guest_username
    ∧ (seat_real_set_active_display env seat display).properties = seat.properties
    ∧ (seat_real_set_active_display env seat display).can_switch = seat.can_switch := by
  unfold seat_real_set_active_display
  split
  · rename_i h
    exact ⟨h.symm, rfl, rfl, rfl, rfl, rfl, rfl, rfl⟩
  · cases h : seat.active_display with
    | none => exact ⟨rfl, rfl, rfl, rfl, rfl, rfl, rfl, rfl⟩
    | some a =>
      simp only
      split <;> simp [seat_call]

theorem seat_set_active_display_fields (env : SeatEnv) (seat : Seat) (display : Nat) :
    (seat_set_active_display env seat display).active_display = some display
    ∧ (seat_set_active_display env seat display).displays = seat.displays
    ∧ (seat_set_active_display env seat display).emitted = seat.emitted
    ∧ (seat_set_active_display env seat display).stopping = seat.stopping
    ∧ (seat_set_active_display env seat display).stopped = seat.stopped
    ∧ (seat_set_active_display env seat display).guest_username = seat.guest_username
    ∧ (seat_set_active_display env seat display).properties = seat.properties
    ∧ (seat_set_active_display env seat display).can_switch = seat.can_switch :=
  seat_real_set_active_display_fields env _ display

/-- The calls `seat_set_active_display` makes: it unlocks the display, and
stops the display that was active if that is another one and shows a greeter. -/
theorem seat_set_active_display_calls (env : SeatEnv) (seat : Seat) (display : Nat) :
    (seat_set_active_display env seat display).calls
      = seat.calls ++ [SeatCall.display_unlock display]
        ++ (match seat.active_display with
            | some active_display =>
                if active_display ≠ display ∧ env.display_get_username active_display = none
                then [SeatCall.display_stop active_display] else []
            | none => []) := by
  unfold seat_set_active_display seat_real_set_active_display seat_call
  cases h : seat.active_display with
  | none => simp
  | some a =>
    by_cases e : display = a
    · subst e; simp
    · have e' : ¬ a = display := fun x => e x.symm
      by_cases u : env.display_get_username a = none
      · simp [e, e', u, seat_call]
      · simp [e, e', u]

/-- The loop of `switch_to_user` takes the first display whose user name is
the one looked for. -/
theorem switch_to_user_loop_eq (env : SeatEnv) (seat : Seat) (username : Option CString)
    (link : List Nat) :
    switch_to_user_loop env seat username link
      = match link.find? (fun d => decide (env.display_get_username d = username)) with
        | some d => (true, seat_set_active_display env seat d)
        | none => (false, seat) := by
  induction link with
  | nil => rfl
  | cons d rest ih =>
    unfold switch_to_user_loop
    by_cases h : env.display_get_username d = username
    · simp [h]
    · simp [h, ih]

/-! ## C13: switching to a user who is logged in -/

/-- C13: on a seat that can switch and has a display whose user name is `u`,
`seat_switch_to_user (u, session_name)` returns `TRUE`, unlocks the first such
display in the order of the list and makes it the active display, and leaves
`displays` as it was. -/
theorem C13_switch_to_logged_in_user (env : SeatEnv) (seat : Seat) (u : CString)
    (session_name : Option CString) (hc : seat.can_switch = true)
    (h : ∃ d ∈ seat.displays, env.display_get_username d = some u) :
    ∃ d, seat.displays.find? (fun d => decide (env.display_get_username d = some u)) = some d
      ∧ seat_switch_to_user env seat (some u) session_name
          = (true, seat_set_active_display env seat d)
      ∧ (seat_switch_to_user env seat (some u) session_name).2.active_display = some d
      ∧ (seat_switch_to_user env seat (some u) session_name).2.displays = seat.displays
      ∧ SeatCall.display_unlock d ∈ (seat_switch_to_user env seat (some u) session_name).2.calls
      ∧ (seat_switch_to_user env seat (some u) session_name).2.emitted = seat.emitted := by
  obtain ⟨d0, hd0, hu0⟩ := h
  cases hf : seat.displays.find? (fun d => decide (env.display_get_username d = some u)) with
  | none =>
    rw [List.find?_eq_none] at hf
    exact absurd (by simpa using hu0) (hf d0 hd0)
  | some d =>
    have hsw : seat_switch_to_user env seat (some u) session_name
        = (true, seat_set_active_display env seat d) := by
      simp only [seat_switch_to_user, hc, Bool.not_true, Bool.false_eq_true, if_false,
        switch_to_user_or_start_greeter, switch_to_user, switch_to_user_loop_eq, hf, if_true]
    obtain ⟨h1, h2, h3, -⟩ := seat_set_active_display_fields env seat d
    refine ⟨d, rfl, hsw, ?_, ?_, ?_, ?_⟩
    · rw [hsw]; exact h1
    · rw [hsw]; exact h2
    · rw [hsw, seat_set_active_display_calls]
      simp
    · rw [hsw]; exact h3

/-- C13 at a concrete input: displays 1 (greeter), 2 (`"bob"`), 3 (`"alice"`),
4 (`"alice"`), display 1 active; switching to `"alice"` activates display 3
and stops the greeter display that was active. -/
theorem C13_switch_to_logged_in_user_witness :
    (seat_switch_to_user
        (seat_env 5 [(2, str "bob"), (3, str "alice"), (4, str "alice")])
        { seat_local with displays := [1, 2, 3, 4], active_display := some 1 }
        (some (str "alice")) none).2.active_display = some 3
    ∧ (seat_switch_to_user
        (seat_env 5 [(2, str "bob"), (3, str "alice"), (4, str "alice")])
        { seat_local with displays := [1, 2, 3, 4], active_display := some 1 }
        (some (str "alice")) none).2.calls
      = [SeatCall.display_unlock 3, SeatCall.display_stop 1] := by
  obtain ⟨d, hd, hsw, -⟩ := C13_switch_to_logged_in_user
    (seat_env 5 [(2, str "bob"), (3, str "alice"), (4, str "alice")])
    { seat_local with displays := [1, 2, 3, 4], active_display := some 1 }
    (str "alice") none rfl ⟨3, by decide, by decide⟩
  have hd3 : d = 3 := by
    have : ([1, 2, 3, 4] : List Nat).find? (fun d => decide
        ((seat_env 5 [(2, str "bob"), (3, str "alice"), (4, str "alice")]).display_get_username d
          = some (str "alice"))) = some 3 := by decide
    exact Option.some.inj (hd.symm.trans this)
  subst hd3
  rw [hsw]
  exact ⟨by decide, by decide⟩

/-- The loop of `switch_to_user` does nothing when no display has the user name
looked for. -/
theorem switch_to_user_loop_none (env : SeatEnv) (seat : Seat) (username : Option CString)
    (link : List Nat) (hno : ∀ d ∈ link, env.display_get_username d ≠ username) :
    switch_to_user_loop env seat username link = (false, seat) := by
  rw [switch_to_user_loop_eq]
  have : link.find? (fun d => decide (env.display_get_username d = username)) = none := by
    rw [List.find?_eq_none]
    intro d hd
    simpa using hno d hd
  rw [this]

/-- What `switch_to_user_or_start_greeter` does when no display has the user
name looked for. -/
theorem start_greeter_eq (env : SeatEnv) (seat : Seat) (username : Option CString)
    (is_guest : Bool) (session_name : Option CString) (autologin : Bool)
    (hno : ∀ d ∈ seat.displays, env.display_get_username d ≠ username) :
    switch_to_user_or_start_greeter env seat username is_guest session_name autologin
      = (env.display_start env.add_display,
          { seat with
            displays := seat.displays ++ [env.add_display]
            emitted := seat.emitted ++ [SeatSignal.DISPLAY_ADDED env.add_display]
            active_display := some (seat.active_display.getD env.add_display)
            calls := seat.calls
              ++ [SeatCall.display_set_greeter_session env.add_display
                    (seat_get_string_property seat (str "greeter-session")),
                  SeatCall.display_set_session_wrapper env.add_display
                    (seat_get_string_property seat (str "session-wrapper")),
                  SeatCall.display_set_hide_users_hint env.add_display
                    (seat_get_boolean_property seat (str "greeter-hide-users")),
                  SeatCall.display_set_allow_guest env.add_display
                    (seat_get_allow_guest env seat),
                  if autologin then
                    SeatCall.display_set_autologin_user env.add_display username is_guest 0
                  else SeatCall.display_set_select_user_hint env.add_display username is_guest,
                  SeatCall.display_set_user_session env.add_display
                    (match session_name with
                      | some name => some name
                      | none => seat_get_string_property seat (str "user-session"))]
              ++ (if seat.active_display = none then [SeatCall.display_unlock env.add_display]
                  else [])
              ++ [SeatCall.display_start env.add_display] }) := by
  unfold switch_to_user_or_start_greeter
  simp only [switch_to_user, switch_to_user_loop_none env seat username seat.displays hno,
    Bool.false_eq_true, if_false]
  cases ha : seat.active_display with
  | none =>
    cases autologin <;>
      simp [seat_call, seat_emit, seat_set_active_display, seat_real_set_active_display, ha,
        seat_get_string_property, seat_get_boolean_property, seat_get_allow_guest]
  | some a =>
    cases autologin <;>
      simp [seat_call, seat_emit, ha, seat_get_string_property, seat_get_boolean_property,
        seat_get_allow_guest]

/-! ## C14: switching to a guest session -/

/-- C14 (counterexample): the seat can switch and allows guests, the guest
account `"guest-001"` is set up and no display has that user name (display 1
runs a session of `"alice"`).  The display `seat_switch_to_guest` creates is
given the autologin user `"guest-001"` with the guest flag, not "no user name". -/
theorem C14_autologin_names_guest_account :
    (seat_switch_to_guest (seat_env 2 [(1, str "alice")])
        { seat_local with
          guest_username := some (str "guest-001"), displays := [1], active_display := some 1 }
        none).2.calls
      = [SeatCall.display_set_greeter_session 2 none,
         SeatCall.display_set_session_wrapper 2 none,
         SeatCall.display_set_hide_users_hint 2 false,
         SeatCall.display_set_allow_guest 2 true,
         SeatCall.display_set_autologin_user 2 (some (str "guest-001")) true 0,
         SeatCall.display_set_user_session 2 none,
         SeatCall.display_start 2]
    ∧ SeatCall.display_set_autologin_user 2 (some (str "guest-001")) true 0
        ≠ SeatCall.display_set_autologin_user 2 none true 0 := by
  decide

/-- C14 (amended): on a seat that can switch and allows guests, when no display
has the user name `guest_username` (compared as `g_strcmp0` does),
`seat_switch_to_guest` creates a display, gives it autologin =
(`guest_username`, guest, timeout 0), appends it to `displays`, emits
`display-added` and starts it; a display that existed before is neither
unlocked nor made active by the call. -/
theorem C14_switch_to_guest_new_display (env : SeatEnv) (seat : Seat)
    (session_name : Option CString) (hc : seat.can_switch = true)
    (hg : seat_get_allow_guest env seat = true)
    (hno : ∀ d ∈ seat.displays, env.display_get_username d ≠ seat.guest_username)
    (hnew : env.add_display ∉ seat.displays) :
    (seat_switch_to_guest env seat session_name).1 = env.display_start env.add_display
    ∧ (seat_switch_to_guest env seat session_name).2.displays
        = seat.displays ++ [env.add_display]
    ∧ (seat_switch_to_guest env seat session_name).2.emitted
        = seat.emitted ++ [SeatSignal.DISPLAY_ADDED env.add_display]
    ∧ SeatCall.display_set_autologin_user env.add_display seat.guest_username true 0
        ∈ (seat_switch_to_guest env seat session_name).2.calls
    ∧ (seat_switch_to_guest env seat session_name).2.calls.getLast?
        = some (SeatCall.display_start env.add_display)
    ∧ (∀ d ∈ seat.displays,
        (seat_switch_to_guest env seat session_name).2.active_display = some d →
        seat.active_display = some d)
    ∧ (∀ d ∈ seat.displays,
        SeatCall.display_unlock d ∈ (seat_switch_to_guest env seat session_name).2.calls →
        SeatCall.display_unlock d ∈ seat.calls) := by
  have hsw : seat_switch_to_guest env seat session_name
      = switch_to_user_or_start_greeter env seat seat.guest_username true session_name true := by
    simp only [seat_switch_to_guest, hc, hg, Bool.not_true, Bool.or_self, Bool.false_eq_true,
      if_false]
  rw [hsw, start_greeter_eq env seat seat.guest_username true session_name true hno]
  refine ⟨rfl, rfl, rfl, ?_, ?_, ?_, ?_⟩
  · simp
  · exact List.getLast?_concat _
  · intro d hd hact
    simp only [Option.some.injEq] at hact
    cases ha : seat.active_display with
    | none =>
      rw [ha, Option.getD_none] at hact
      exact absurd (hact ▸ hd) hnew
    | some a =>
      rw [ha, Option.getD_some] at hact
      exact congrArg some hact
  · intro d hd hu
    have hne : d ≠ env.add_display := fun e => hnew (e ▸ hd)
    by_cases ha : seat.active_display = none <;> simp [ha, hne] at hu <;> exact hu

/-- C14 (amended) at a concrete input: no guest account yet, display 1 runs a
session of `"alice"`; the new display 2 gets autologin = (no user name, guest,
0) and display 1 stays the active one. -/
theorem C14_switch_to_guest_new_display_witness :
    (seat_switch_to_guest (seat_env 2 [(1, str "alice")])
        { seat_local with displays := [1], active_display := some 1 } none).2.displays = [1, 2]
    ∧ SeatCall.display_set_autologin_user 2 none true 0
        ∈ (seat_switch_to_guest (seat_env 2 [(1, str "alice")])
            { seat_local with displays := [1], active_display := some 1 } none).2.calls
    ∧ (seat_switch_to_guest (seat_env 2 [(1, str "alice")])
        { seat_local with displays := [1], active_display := some 1 } none).2.active_display
        = some 1 :=
  ⟨(C14_switch_to_guest_new_display (seat_env 2 [(1, str "alice")])
      { seat_local with displays := [1], active_display := some 1 } none rfl (by decide)
      (by decide) (by decide)).2.1,
    (C14_switch_to_guest_new_display (seat_env 2 [(1, str "alice")])
      { seat_local with displays := [1], active_display := some 1 } none rfl (by decide)
      (by decide) (by decide)).2.2.2.1,
    by decide⟩

/-- With no guest account set up, `seat_switch_to_guest` looks for a display
whose user name is `NULL` and so takes a display that shows a greeter: no
display is created.  (`display_switch_to_guest_cb` returns `FALSE` in this
state.) -/
theorem switch_to_guest_takes_greeter_display :
    seat_switch_to_guest (seat_env 2 []) { seat_local with displays := [1] } none
      = (true, { seat_local with
          displays := [1], active_display := some 1, calls := [SeatCall.display_unlock 1] })
    ∧ (display_switch_to_guest_cb (seat_env 2 []) { seat_local with displays := [1] }).1
        = false := by
  decide

/-! ## Lemmas on the hook scripts -/

theorem run_script_fields (env : SeatEnv) (seat : Seat) (display : Nat) (script_name : CString)
    (user : Option User) :
    (run_script env seat display script_name user).2.guest_username = seat.guest_username
    ∧ (run_script env seat display script_name user).2.displays = seat.displays
    ∧ (run_script env seat display script_name user).2.active_display = seat.active_display
    ∧ (run_script env seat display script_name user).2.emitted = seat.emitted
    ∧ (run_script env seat display script_name user).2.stopping = seat.stopping
    ∧ (run_script env seat display script_name user).2.stopped = seat.stopped
    ∧ guest_cleanups (run_script env seat display script_name user).2 = guest_cleanups seat := by
  unfold run_script
  split
  · exact ⟨rfl, rfl, rfl, rfl, rfl, rfl, rfl⟩
  · split
    · exact ⟨rfl, rfl, rfl, rfl, rfl, rfl, rfl⟩
    · split
      · exact ⟨rfl, rfl, rfl, rfl, rfl, rfl, rfl⟩
      · simp only
        split
        · exact ⟨rfl, rfl, rfl, rfl, rfl, rfl, by simp [guest_cleanups, seat_call]⟩
        · split <;> exact ⟨rfl, rfl, rfl, rfl, rfl, rfl, by simp [guest_cleanups, seat_call]⟩

theorem find_display_of_session_some (env : SeatEnv) (session : Session) (link : List Nat)
    (h : ∃ d ∈ link, env.display_get_session d = some session) :
    ∃ display, find_display_of_session env session link = some display := by
  induction link with
  | nil => obtain ⟨d, hd, -⟩ := h; exact absurd hd (List.not_mem_nil d)
  | cons d rest ih =>
    unfold find_display_of_session
    by_cases e : env.display_get_session d = some session
    · exact ⟨d, by rw [if_pos e]⟩
    · rw [if_neg e]
      obtain ⟨d', hd', he'⟩ := h
      rcases List.mem_cons.mp hd' with hx | hx
      · exact absurd (hx ▸ he') e
      · exact ih ⟨d', hx, he'⟩

/-! ## C15: the end of a guest session -/

/-- C15: when a session on a display of the seat reports stopped: if
`guest_username` is set and equals the name of the user of the session,
`guest_account_cleanup` is called with that name and `guest_username` becomes
unset; if the names differ or `guest_username` is unset, `guest_username` stays
as it was and `guest_account_cleanup` is not called. -/
theorem C15_guest_cleanup (env : SeatEnv) (seat : Seat) (session : Session)
    (h : ∃ d ∈ seat.displays, env.display_get_session d = some session) :
    (∀ guest, seat.guest_username = some guest → session.user.name = guest →
      (session_stopped_cb env seat session).guest_username = none
      ∧ guest_cleanups (session_stopped_cb env seat session) = guest_cleanups seat ++ [guest])
    ∧ ((∀ guest, seat.guest_username = some guest → session.user.name ≠ guest) →
      (session_stopped_cb env seat session).guest_username = seat.guest_username
      ∧ guest_cleanups (session_stopped_cb env seat session) = guest_cleanups seat) := by
  obtain ⟨display, hd⟩ := find_display_of_session_some env session seat.displays h
  have hs : ∀ (s : Seat), s.guest_username = seat.guest_username →
      guest_cleanups s = guest_cleanups seat →
      ((∀ guest, seat.guest_username = some guest → session.user.name = guest →
        (match s.guest_username with
          | some guest_username =>
              if session.user.name = guest_username then
                { seat_call s (SeatCall.guest_account_cleanup guest_username) with
                  guest_username := none }
              else s
          | none => s).guest_username = none
        ∧ guest_cleanups (match s.guest_username with
          | some guest_username =>
              if session.user.name = guest_username then
                { seat_call s (SeatCall.guest_account_cleanup guest_username) with
                  guest_username := none }
              else s
          | none => s) = guest_cleanups seat ++ [guest])
      ∧ ((∀ guest, seat.guest_username = some guest → session.user.name ≠ guest) →
        (match s.guest_username with
          | some guest_username =>
              if session.user.name = guest_username then
                { seat_call s (SeatCall.guest_account_cleanup guest_username) with
                  guest_username := none }
              else s
          | none => s).guest_username = seat.guest_username
        ∧ guest_cleanups (match s.guest_username with
          | some guest_username =>
              if session.user.name = guest_username then
                { seat_call s (SeatCall.guest_account_cleanup guest_username) with
                  guest_username := none }
              else s
          | none => s) = guest_cleanups seat)) := by
    intro s hg hc
    cases hgu : seat.guest_username with
    | none =>
      rw [hgu] at hg
      constructor
      · intro guest h1; exact absurd h1 (by simp)
      · intro _; simp only [hg]; exact ⟨trivial, hc⟩
    | some g =>
      rw [hgu] at hg
      constructor
      · intro guest h1 h2
        simp only [Option.some.injEq] at h1
        subst h1
        simp only [hg, h2, if_true]
        exact ⟨trivial, by simp [guest_cleanups, seat_call] at hc ⊢; rw [hc]⟩
      · intro hne
        have := hne g rfl
        simp only [hg, this, if_false]
        exact ⟨trivial, hc⟩
  unfold session_stopped_cb
  simp only [hd]
  cases hp : seat_get_string_property seat (str "session-cleanup-script") with
  | none => exact hs seat rfl rfl
  | some script =>
    obtain ⟨h1, -, -, -, -, -, h7⟩ := run_script_fields env seat display script (some session.user)
    exact hs _ h1 h7

theorem C15_guest_cleanup_witness :
    (session_stopped_cb (seat_env 3 [(2, str "guest-001")])
        { seat_local with displays := [1, 2], guest_username := some (str "guest-001") }
        { self := 2, user := { name := str "guest-001" } }).guest_username = none
    ∧ guest_cleanups (session_stopped_cb (seat_env 3 [(2, str "guest-001")])
        { seat_local with displays := [1, 2], guest_username := some (str "guest-001") }
        { self := 2, user := { name := str "guest-001" } })
      = guest_cleanups
          { seat_local with displays := [1, 2], guest_username := some (str "guest-001") }
        ++ [str "guest-001"] :=
  (C15_guest_cleanup (seat_env 3 [(2, str "guest-001")])
    { seat_local with displays := [1, 2], guest_username := some (str "guest-001") }
    { self := 2, user := { name := str "guest-001" } } ⟨2, by decide, rfl⟩).1
    (str "guest-001") rfl rfl

theorem run_script_exit (env : SeatEnv) (seat : Seat) (display : Nat) (script : CString)
    (user : Option User) (argv : List CString) (status c : Nat)
    (hu : env.getuid = 0) (hx : env.is_regular_executable script = true)
    (hp : env.g_shell_parse_argv script = some argv)
    (hs : env.g_spawn_sync argv = some status)
    (he : WIFEXITED status = true) (hc : WEXITSTATUS status = c) :
    (run_script env seat display script user).1 = decide (c = 0) := by
  simp [run_script, hu, hx, hp, hs, he, hc, EXIT_SUCCESS]
  by_cases hz : c = 0 <;> simp [hz]

/-! ## C16: the exit code of a hook script decides -/

/-- C16: for each of the hooks `display-setup-script`,
`greeter-setup-script` and `session-setup-script` set on a seat, when the
script is run and exits with code `c`, the callback guarding the transition
returns `FALSE` (proceed) iff `c = 0` and `TRUE` (abort) iff `c ≠ 0`. -/
theorem C16_hook_exit_code (env : SeatEnv) (seat : Seat) (display : Nat) (script : CString)
    (argv : List CString) (status c : Nat)
    (hu : env.getuid = 0) (hx : env.is_regular_executable script = true)
    (hp : env.g_shell_parse_argv script = some argv)
    (hs : env.g_spawn_sync argv = some status)
    (he : WIFEXITED status = true) (hc : WEXITSTATUS status = c) :
    (seat_get_string_property seat (str "display-setup-script") = some script →
      ((display_start_display_server_cb env seat display).1 = false ↔ c = 0)
      ∧ ((display_start_display_server_cb env seat display).1 = true ↔ c ≠ 0))
    ∧ (seat_get_string_property seat (str "greeter-setup-script") = some script →
      ((display_start_greeter_cb env seat display).1 = false ↔ c = 0)
      ∧ ((display_start_greeter_cb env seat display).1 = true ↔ c ≠ 0))
    ∧ (seat_get_string_property seat (str "session-setup-script") = some script →
      ((display_start_session_cb env seat display).1 = false ↔ c = 0)
      ∧ ((display_start_session_cb env seat display).1 = true ↔ c ≠ 0)) := by
  have h := fun user => run_script_exit env seat display script user argv status c hu hx hp hs he hc
  refine ⟨fun hq => ?_, fun hq => ?_, fun hq => ?_⟩
  · simp only [display_start_display_server_cb, hq]
    by_cases hz : c = 0 <;> simp [h, hz]
  · simp only [display_start_greeter_cb, hq]
    by_cases hz : c = 0 <;> simp [h, hz]
  · simp only [display_start_session_cb, hq]
    by_cases hz : c = 0 <;> simp [h, hz]

theorem C16_hook_exit_code_witness :
    ((display_start_display_server_cb { seat_env 1 [] with g_spawn_sync := fun _ => some 768 }
        (seat_set_property seat_local (str "display-setup-script") (str "/etc/setup")) 1).1
        = false ↔ 3 = 0)
    ∧ ((display_start_display_server_cb { seat_env 1 [] with g_spawn_sync := fun _ => some 768 }
        (seat_set_property seat_local (str "display-setup-script") (str "/etc/setup")) 1).1
        = true ↔ 3 ≠ 0) :=
  (C16_hook_exit_code { seat_env 1 [] with g_spawn_sync := fun _ => some 768 }
    (seat_set_property seat_local (str "display-setup-script") (str "/etc/setup")) 1
    (str "/etc/setup") [str "/etc/setup"] 768 3 rfl rfl rfl rfl (by decide) (by decide)).1
    (by decide)

/-! ## Lemmas on the steps of a seat -/

theorem emit_upstart_signal_fields (env : SeatEnv) (seat : Seat) (signal : CString) :
    (emit_upstart_signal env seat signal).displays = seat.displays
    ∧ (emit_upstart_signal env seat signal).active_display = seat.active_display
    ∧ (emit_upstart_signal env seat signal).emitted = seat.emitted
    ∧ (emit_upstart_signal env seat signal).stopping = seat.stopping
    ∧ (emit_upstart_signal env seat signal).stopped = seat.stopped := by
  unfold emit_upstart_signal
  split
  · exact ⟨rfl, rfl, rfl, rfl, rfl⟩
  · split <;> exact ⟨rfl, rfl, rfl, rfl, rfl⟩

/-- The function `switch_to_user` adds and removes no display, emits no signal, and
makes no display active that is not one of the seat. -/
theorem switch_to_user_fields (env : SeatEnv) (seat : Seat) (username : Option CString) :
    (switch_to_user env seat username).2.displays = seat.displays
    ∧ (switch_to_user env seat username).2.emitted = seat.emitted
    ∧ (switch_to_user env seat username).2.stopping = seat.stopping
    ∧ (switch_to_user env seat username).2.stopped = seat.stopped
    ∧ ((switch_to_user env seat username).2.active_display = seat.active_display
      ∨ ∃ d ∈ seat.displays, (switch_to_user env seat username).2.active_display = some d) := by
  unfold switch_to_user
  rw [switch_to_user_loop_eq]
  cases hf : seat.displays.find? (fun d => decide (env.display_get_username d = username)) with
  | none => exact ⟨rfl, rfl, rfl, rfl, Or.inl rfl⟩
  | some d =>
    obtain ⟨h1, h2, h3, h4, h5, -⟩ := seat_set_active_display_fields env seat d
    exact ⟨h2, h3, h4, h5, Or.inr ⟨d, List.mem_of_find?_eq_some hf, h1⟩⟩

/-- The function `switch_to_user_or_start_greeter` removes no display, emits
nothing but `DISPLAY_ADDED`, and makes no display active that is not one of the
seat. -/
theorem switch_to_user_or_start_greeter_fields (env : SeatEnv) (seat : Seat)
    (username : Option CString) (is_guest : Bool) (session_name : Option CString)
    (autologin : Bool) :
    (switch_to_user_or_start_greeter env seat username is_guest session_name autologin).2.stopped
      = seat.stopped
    ∧ (switch_to_user_or_start_greeter env seat username is_guest session_name
        autologin).2.stopping = seat.stopping
    ∧ (∃ extra, (switch_to_user_or_start_greeter env seat username is_guest session_name
        autologin).2.emitted = seat.emitted ++ extra ∧ SeatSignal.STOPPED ∉ extra)
    ∧ (∃ more, (switch_to_user_or_start_greeter env seat username is_guest session_name
        autologin).2.displays = seat.displays ++ more)
    ∧ ((switch_to_user_or_start_greeter env seat username is_guest session_name
        autologin).2.active_display = seat.active_display
      ∨ ∃ d ∈ (switch_to_user_or_start_greeter env seat username is_guest session_name
          autologin).2.displays,
        (switch_to_user_or_start_greeter env seat username is_guest session_name
          autologin).2.active_display = some d) := by
  cases hf : seat.displays.find? (fun d => decide (env.display_get_username d = username)) with
  | some d =>
    have hr : switch_to_user_or_start_greeter env seat username is_guest session_name autologin
        = (true, seat_set_active_display env seat d) := by
      unfold switch_to_user_or_start_greeter
      simp only [switch_to_user, switch_to_user_loop_eq, hf, if_true]
    rw [hr]
    obtain ⟨h1, h2, h3, h4, h5, -⟩ := seat_set_active_display_fields env seat d
    refine ⟨h5, h4, ⟨[], by simp [h3], by simp⟩, ⟨[], by simp [h2]⟩, Or.inr ⟨d, ?_, h1⟩⟩
    simp only [h2]
    exact List.mem_of_find?_eq_some hf
  | none =>
    have hno : ∀ d ∈ seat.displays, env.display_get_username d ≠ username := by
      intro d hd
      have := (List.find?_eq_none.mp hf) d hd
      simpa using this
    rw [start_greeter_eq env seat username is_guest session_name autologin hno]
    refine ⟨rfl, rfl, ⟨[SeatSignal.DISPLAY_ADDED env.add_display], rfl, by simp⟩,
      ⟨[env.add_display], rfl⟩, ?_⟩
    cases ha : seat.active_display with
    | none => exact Or.inr ⟨env.add_display, by simp, by simp⟩
    | some a => exact Or.inl (by simp)

theorem check_stopped_eq (seat : Seat) :
    check_stopped seat
      = if seat.stopping = true ∧ seat.stopped = false ∧ seat.displays = [] then
          { seat with stopped := true, emitted := seat.emitted ++ [SeatSignal.STOPPED] }
        else seat := by
  unfold check_stopped seat_emit
  by_cases h1 : seat.stopping = true <;> by_cases h2 : seat.stopped = false <;>
    by_cases h3 : seat.displays = [] <;> simp [h1, h2, h3]

theorem display_stop_all_fields (link : List Nat) (seat : Seat) :
    (link.foldl (fun seat display => seat_call seat (SeatCall.display_stop display))
      seat).displays = seat.displays
    ∧ (link.foldl (fun seat display => seat_call seat (SeatCall.display_stop display))
      seat).active_display = seat.active_display
    ∧ (link.foldl (fun seat display => seat_call seat (SeatCall.display_stop display))
      seat).emitted = seat.emitted
    ∧ (link.foldl (fun seat display => seat_call seat (SeatCall.display_stop display))
      seat).stopping = seat.stopping
    ∧ (link.foldl (fun seat display => seat_call seat (SeatCall.display_stop display))
      seat).stopped = seat.stopped := by
  induction link generalizing seat with
  | nil => exact ⟨rfl, rfl, rfl, rfl, rfl⟩
  | cons d rest ih => exact ih (seat_call seat (SeatCall.display_stop d))

theorem seat_stop_fields (seat : Seat) :
    (seat_stop seat).displays = seat.displays
    ∧ (seat_stop seat).active_display = seat.active_display
    ∧ (((seat_stop seat).stopped = seat.stopped ∧ (seat_stop seat).emitted = seat.emitted)
      ∨ (seat.stopped = false ∧ (seat_stop seat).stopped = true
        ∧ (seat_stop seat).emitted = seat.emitted ++ [SeatSignal.STOPPED]
        ∧ (seat_stop seat).stopping = true ∧ (seat_stop seat).displays = [])) := by
  unfold seat_stop
  split
  · exact ⟨rfl, rfl, Or.inl ⟨rfl, rfl⟩⟩
  · unfold seat_real_stop
    simp only [check_stopped_eq, true_and]
    by_cases h : seat.stopped = false ∧ seat.displays = []
    · rw [if_pos h]
      simp [h.1, h.2]
    · rw [if_neg h]
      obtain ⟨h1, h2, h3, -, h5⟩ := display_stop_all_fields seat.displays
        { seat with stopping := true }
      split
      · exact ⟨rfl, rfl, Or.inl ⟨rfl, rfl⟩⟩
      · exact ⟨h1, h2, Or.inl ⟨h5, h3⟩⟩

theorem display_stopped_cb_fields (seat : Seat) (display : Nat) :
    (display_stopped_cb seat display).displays = seat.displays.erase display
    ∧ (display_stopped_cb seat display).active_display = seat.active_display
    ∧ (((display_stopped_cb seat display).stopped = seat.stopped
        ∧ (display_stopped_cb seat display).emitted
          = seat.emitted ++ [SeatSignal.DISPLAY_REMOVED display])
      ∨ (seat.stopped = false ∧ (display_stopped_cb seat display).stopped = true
        ∧ (display_stopped_cb seat display).emitted
          = seat.emitted ++ [SeatSignal.DISPLAY_REMOVED display, SeatSignal.STOPPED]
        ∧ (display_stopped_cb seat display).stopping = true
        ∧ (display_stopped_cb seat display).displays = [])) := by
  unfold display_stopped_cb
  simp only [check_stopped_eq, seat_emit]
  by_cases h : seat.stopping = true ∧ seat.stopped = false ∧ seat.displays.erase display = []
  · rw [if_pos h]
    exact ⟨rfl, rfl, Or.inr ⟨h.2.1, rfl, by simp, h.1, h.2.2⟩⟩
  · rw [if_neg h]
    exact ⟨rfl, rfl, Or.inl ⟨rfl, rfl⟩⟩

/-- The callbacks that run a hook script or hand out the guest account change
neither the displays nor the signals of the seat. -/
theorem callbacks_fields (env : SeatEnv) (seat : Seat) (display : Nat) :
    ((display_get_guest_username_cb env seat).2.displays = seat.displays
      ∧ (display_get_guest_username_cb env seat).2.active_display = seat.active_display
      ∧ (display_get_guest_username_cb env seat).2.emitted = seat.emitted
      ∧ (display_get_guest_username_cb env seat).2.stopping = seat.stopping
      ∧ (display_get_guest_username_cb env seat).2.stopped = seat.stopped)
    ∧ ((display_start_display_server_cb env seat display).2.displays = seat.displays
      ∧ (display_start_display_server_cb env seat display).2.active_display
        = seat.active_display
      ∧ (display_start_display_server_cb env seat display).2.emitted = seat.emitted
      ∧ (display_start_display_server_cb env seat display).2.stopping = seat.stopping
      ∧ (display_start_display_server_cb env seat display).2.stopped = seat.stopped)
    ∧ ((display_start_greeter_cb env seat display).2.displays = seat.displays
      ∧ (display_start_greeter_cb env seat display).2.active_display = seat.active_display
      ∧ (display_start_greeter_cb env seat display).2.emitted = seat.emitted
      ∧ (display_start_greeter_cb env seat display).2.stopping = seat.stopping
      ∧ (display_start_greeter_cb env seat display).2.stopped = seat.stopped)
    ∧ ((display_start_session_cb env seat display).2.displays = seat.displays
      ∧ (display_start_session_cb env seat display).2.active_display = seat.active_display
      ∧ (display_start_session_cb env seat display).2.emitted = seat.emitted
      ∧ (display_start_session_cb env seat display).2.stopping = seat.stopping
      ∧ (display_start_session_cb env seat display).2.stopped = seat.stopped)
    ∧ ((display_session_started_cb env seat display).2.displays = seat.displays
      ∧ (display_session_started_cb env seat display).2.active_display = seat.active_display
      ∧ (display_session_started_cb env seat display).2.emitted = seat.emitted
      ∧ (display_session_started_cb env seat display).2.stopping = seat.stopping
      ∧ (display_session_started_cb env seat display).2.stopped = seat.stopped) := by
  refine ⟨?_, ?_, ?_, ?_, ?_⟩
  · unfold display_get_guest_username_cb
    split <;> exact ⟨rfl, rfl, rfl, rfl, rfl⟩
  · unfold display_start_display_server_cb
    split
    · rename_i script _
      obtain ⟨-, h2, h3, h4, h5, h6, -⟩ := run_script_fields env seat display script none
      simp only
      split
      · exact ⟨h2, h3, h4, h5, h6⟩
      · obtain ⟨e1, e2, e3, e4, e5⟩ := emit_upstart_signal_fields env
          (run_script env seat display script none).2 (str "login-session-start")
        exact ⟨e1.trans h2, e2.trans h3, e3.trans h4, e4.trans h5, e5.trans h6⟩
    · exact emit_upstart_signal_fields env seat _
  · unfold display_start_greeter_cb
    simp only
    split
    · rename_i script _
      obtain ⟨-, h2, h3, h4, h5, h6, -⟩ := run_script_fields env seat display script
        ((env.display_get_session display).map (fun s => s.user))
      exact ⟨h2, h3, h4, h5, h6⟩
    · exact ⟨rfl, rfl, rfl, rfl, rfl⟩
  · unfold display_start_session_cb
    simp only
    split
    · rename_i script _
      obtain ⟨-, h2, h3, h4, h5, h6, -⟩ := run_script_fields env seat display script
        ((env.display_get_session display).map (fun s => s.user))
      exact ⟨h2, h3, h4, h5, h6⟩
    · exact ⟨rfl, rfl, rfl, rfl, rfl⟩
  · exact emit_upstart_signal_fields env seat _

theorem session_stopped_cb_fields (env : SeatEnv) (seat : Seat) (session : Session) :
    (session_stopped_cb env seat session).displays = seat.displays
    ∧ (session_stopped_cb env seat session).active_display = seat.active_display
    ∧ (session_stopped_cb env seat session).emitted = seat.emitted
    ∧ (session_stopped_cb env seat session).stopping = seat.stopping
    ∧ (session_stopped_cb env seat session).stopped = seat.stopped := by
  have hs : ∀ (s : Seat), s.displays = seat.displays → s.active_display = seat.active_display →
      s.emitted = seat.emitted → s.stopping = seat.stopping → s.stopped = seat.stopped →
      ((match s.guest_username with
          | some guest_username =>
              if session.user.name = guest_username then
                { seat_call s (SeatCall.guest_account_cleanup guest_username) with
                  guest_username := none }
              else s
          | none => s).displays = seat.displays
      ∧ (match s.guest_username with
          | some guest_username =>
              if session.user.name = guest_username then
                { seat_call s (SeatCall.guest_account_cleanup guest_username) with
                  guest_username := none }
              else s
          | none => s).active_display = seat.active_display
      ∧ (match s.guest_username with
          | some guest_username =>
              if session.user.name = guest_username then
                { seat_call s (SeatCall.guest_account_cleanup guest_username) with
                  guest_username := none }
              else s
          | none => s).emitted = seat.emitted
      ∧ (match s.guest_username with
          | some guest_username =>
              if session.user.name = guest_username then
                { seat_call s (SeatCall.guest_account_cleanup guest_username) with
                  guest_username := none }
              else s
          | none => s).stopping = seat.stopping
      ∧ (match s.guest_username with
          | some guest_username =>
              if session.user.name = guest_username then
                { seat_call s (SeatCall.guest_account_cleanup guest_username) with
                  guest_username := none }
              else s
          | none => s).stopped = seat.stopped) := by
    intro s h1 h2 h3 h4 h5
    split
    · split
      · exact ⟨h1, h2, h3, h4, h5⟩
      · exact ⟨h1, h2, h3, h4, h5⟩
    · exact ⟨h1, h2, h3, h4, h5⟩
  unfold session_stopped_cb
  split
  · exact ⟨rfl, rfl, rfl, rfl, rfl⟩
  · rename_i display _
    cases hp : seat_get_string_property seat (str "session-cleanup-script") with
    | none => exact hs seat rfl rfl rfl rfl rfl
    | some script =>
      obtain ⟨-, h2, h3, h4, h5, h6, -⟩ := run_script_fields env seat display script
        (some session.user)
      exact hs _ h2 h3 h4 h5 h6

/-- Every step other than `seat_stop` and the callback for a stopped display
keeps `stopped` and `stopping`, emits no `STOPPED`, removes no display, adds one
only in an operation that may add a display, and makes no display active that is
not one of the seat, `seat_set_active_display` apart. -/
theorem seat_step_fields (env : SeatEnv) (seat : Seat) (e : SeatEvent)
    (h1 : e ≠ SeatEvent.stop) (h2 : ∀ d, e ≠ SeatEvent.display_stopped d) :
    (seat_step env seat e).stopped = seat.stopped
    ∧ (seat_step env seat e).stopping = seat.stopping
    ∧ (∃ extra, (seat_step env seat e).emitted = seat.emitted ++ extra
        ∧ SeatSignal.STOPPED ∉ extra)
    ∧ (∃ more, (seat_step env seat e).displays = seat.displays ++ more
        ∧ (adds_display e = false → more = []))
    ∧ ((seat_step env seat e).active_display = seat.active_display
      ∨ ∃ d, (seat_step env seat e).active_display = some d
          ∧ (d ∈ (seat_step env seat e).displays ∨ e = SeatEvent.set_active_display d)) := by
  have quiet : ∀ (b : Seat), b.displays = seat.displays →
      b.active_display = seat.active_display → b.emitted = seat.emitted →
      b.stopping = seat.stopping → b.stopped = seat.stopped →
      (b.stopped = seat.stopped ∧ b.stopping = seat.stopping
      ∧ (∃ extra, b.emitted = seat.emitted ++ extra ∧ SeatSignal.STOPPED ∉ extra)
      ∧ (∃ more, b.displays = seat.displays ++ more ∧ (adds_display e = false → more = []))
      ∧ (b.active_display = seat.active_display
        ∨ ∃ d, b.active_display = some d
            ∧ (d ∈ b.displays ∨ e = SeatEvent.set_active_display d))) := by
    intro b hd ha he hsg hst
    exact ⟨hst, hsg, ⟨[], by simp [he], by simp⟩, ⟨[], by simp [hd], fun _ => rfl⟩, Or.inl ha⟩
  have grow : ∀ (username : Option CString) (is_guest : Bool) (session_name : Option CString)
      (autologin : Bool), adds_display e = true →
      ((switch_to_user_or_start_greeter env seat username is_guest session_name
          autologin).2.stopped = seat.stopped
      ∧ (switch_to_user_or_start_greeter env seat username is_guest session_name
          autologin).2.stopping = seat.stopping
      ∧ (∃ extra, (switch_to_user_or_start_greeter env seat username is_guest session_name
          autologin).2.emitted = seat.emitted ++ extra ∧ SeatSignal.STOPPED ∉ extra)
      ∧ (∃ more, (switch_to_user_or_start_greeter env seat username is_guest session_name
          autologin).2.displays = seat.displays ++ more ∧ (adds_display e = false → more = []))
      ∧ ((switch_to_user_or_start_greeter env seat username is_guest session_name
          autologin).2.active_display = seat.active_display
        ∨ ∃ d, (switch_to_user_or_start_greeter env seat username is_guest session_name
            autologin).2.active_display = some d
            ∧ (d ∈ (switch_to_user_or_start_greeter env seat username is_guest session_name
                autologin).2.displays ∨ e = SeatEvent.set_active_display d))) := by
    intro username is_guest session_name autologin hadd
    obtain ⟨g1, g2, g3, ⟨more, g4⟩, g5⟩ :=
      switch_to_user_or_start_greeter_fields env seat username is_guest session_name autologin
    refine ⟨g1, g2, g3, ⟨more, g4, fun hf => ?_⟩, ?_⟩
    · rw [hadd] at hf; exact absurd hf (by simp)
    · rcases g5 with g5 | ⟨d, hd, g5⟩
      · exact Or.inl g5
      · exact Or.inr ⟨d, g5, Or.inl hd⟩
  have switch : ∀ (username : Option CString),
      ((switch_to_user env seat username).2.stopped = seat.stopped
      ∧ (switch_to_user env seat username).2.stopping = seat.stopping
      ∧ (∃ extra, (switch_to_user env seat username).2.emitted = seat.emitted ++ extra
          ∧ SeatSignal.STOPPED ∉ extra)
      ∧ (∃ more, (switch_to_user env seat username).2.displays = seat.displays ++ more
          ∧ (adds_display e = false → more = []))
      ∧ ((switch_to_user env seat username).2.active_display = seat.active_display
        ∨ ∃ d, (switch_to_user env seat username).2.active_display = some d
            ∧ (d ∈ (switch_to_user env seat username).2.displays
                ∨ e = SeatEvent.set_active_display d))) := by
    intro username
    obtain ⟨g1, g2, g3, g4, g5⟩ := switch_to_user_fields env seat username
    refine ⟨g4, g3, ⟨[], by simp [g2], by simp⟩, ⟨[], by simp [g1], fun _ => rfl⟩, ?_⟩
    rcases g5 with g5 | ⟨d, hd, g5⟩
    · exact Or.inl g5
    · exact Or.inr ⟨d, g5, Or.inl (g1 ▸ hd)⟩
  cases e with
  | start =>
    simp only [seat_step, seat_start, seat_real_start]
    split
    · exact grow _ _ _ _ rfl
    · split
      · exact grow _ _ _ _ rfl
      · exact grow _ _ _ _ rfl
  | switch_to_greeter =>
    simp only [seat_step, seat_switch_to_greeter]
    split
    · exact quiet seat rfl rfl rfl rfl rfl
    · exact grow _ _ _ _ rfl
  | switch_to_user username session_name =>
    simp only [seat_step, seat_switch_to_user]
    split
    · exact quiet seat rfl rfl rfl rfl rfl
    · split
      · exact quiet seat rfl rfl rfl rfl rfl
      · exact grow _ _ _ _ rfl
  | switch_to_guest session_name =>
    simp only [seat_step, seat_switch_to_guest]
    split
    · exact quiet seat rfl rfl rfl rfl rfl
    · exact grow _ _ _ _ rfl
  | set_active_display d =>
    simp only [seat_step]
    obtain ⟨g1, g2, g3, g4, g5, -⟩ := seat_set_active_display_fields env seat d
    exact ⟨g5, g4, ⟨[], by simp [g3], by simp⟩, ⟨[], by simp [g2], fun _ => rfl⟩,
      Or.inr ⟨d, g1, Or.inr rfl⟩⟩
  | stop => exact absurd rfl h1
  | display_switch_to_user d user =>
    simp only [seat_step, display_switch_to_user_cb]
    split
    · exact switch _
    · exact quiet seat rfl rfl rfl rfl rfl
  | display_switch_to_guest d =>
    simp only [seat_step, display_switch_to_guest_cb]
    split
    · split
      · exact quiet seat rfl rfl rfl rfl rfl
      · exact switch _
    · exact quiet seat rfl rfl rfl rfl rfl
  | display_get_guest_username d =>
    simp only [seat_step]
    split
    · obtain ⟨⟨q1, q2, q3, q4, q5⟩, -⟩ := callbacks_fields env seat d
      exact quiet _ q1 q2 q3 q4 q5
    · exact quiet seat rfl rfl rfl rfl rfl
  | display_start_display_server d =>
    simp only [seat_step]
    split
    · obtain ⟨-, ⟨q1, q2, q3, q4, q5⟩, -⟩ := callbacks_fields env seat d
      exact quiet _ q1 q2 q3 q4 q5
    · exact quiet seat rfl rfl rfl rfl rfl
  | display_start_greeter d =>
    simp only [seat_step]
    split
    · obtain ⟨-, -, ⟨q1, q2, q3, q4, q5⟩, -⟩ := callbacks_fields env seat d
      exact quiet _ q1 q2 q3 q4 q5
    · exact quiet seat rfl rfl rfl rfl rfl
  | display_start_session d =>
    simp only [seat_step]
    split
    · obtain ⟨-, -, -, ⟨q1, q2, q3, q4, q5⟩, -⟩ := callbacks_fields env seat d
      exact quiet _ q1 q2 q3 q4 q5
    · exact quiet seat rfl rfl rfl rfl rfl
  | display_session_started d =>
    simp only [seat_step]
    split
    · obtain ⟨-, -, -, -, q1, q2, q3, q4, q5⟩ := callbacks_fields env seat d
      exact quiet _ q1 q2 q3 q4 q5
    · exact quiet seat rfl rfl rfl rfl rfl
  | display_ready d =>
    simp only [seat_step, display_ready_cb]
    split
    · rename_i hd
      obtain ⟨g1, g2, g3, g4, g5, -⟩ := seat_real_set_active_display_fields env seat d
      exact ⟨g5, g4, ⟨[], by simp [g3], by simp⟩, ⟨[], by simp [g2], fun _ => rfl⟩,
        Or.inr ⟨d, g1, Or.inl (by rw [g2]; exact hd)⟩⟩
    · exact quiet seat rfl rfl rfl rfl rfl
  | display_stopped d => exact absurd rfl (h2 d)
  | session_stopped session =>
    simp only [seat_step]
    obtain ⟨q1, q2, q3, q4, q5⟩ := session_stopped_cb_fields env seat session
    exact quiet _ q1 q2 q3 q4 q5

/-! ## C17, C18: the displays of a seat -/

/-- C17 as stated fails: after the only display of a started seat has stopped,
`displays` is empty and that display is still the active display. -/
theorem C17_active_display_outlives_display :
    (seat_run seat_local events_display_stops).active_display = some 1
    ∧ (seat_run seat_local events_display_stops).displays = []
    ∧ 1 ∉ (seat_run seat_local events_display_stops).displays := by
  decide

/-- C17, amended: in every state reached by a run in which
`seat_set_active_display` is only given displays of the seat, the active display,
if set, is a member of `displays` or a display for which the seat has emitted
`DISPLAY_REMOVED`. -/
theorem C17_active_display_was_a_display (seat : Seat) (run : List (SeatEnv × SeatEvent))
    (h0 : ∀ d, seat.active_display = some d →
      d ∈ seat.displays ∨ SeatSignal.DISPLAY_REMOVED d ∈ seat.emitted)
    (hr : activates_own_displays seat run = true) :
    ∀ d, (seat_run seat run).active_display = some d →
      d ∈ (seat_run seat run).displays
      ∨ SeatSignal.DISPLAY_REMOVED d ∈ (seat_run seat run).emitted := by
  induction run generalizing seat with
  | nil => exact h0
  | cons x rest ih =>
    obtain ⟨env, e⟩ := x
    simp only [activates_own_displays, Bool.and_eq_true] at hr
    apply ih _ _ hr.2
    intro d hd
    by_cases h1 : e = SeatEvent.stop
    · subst h1
      simp only [seat_step] at hd ⊢
      obtain ⟨g1, g2, g3⟩ := seat_stop_fields seat
      rw [g2] at hd
      rw [g1]
      rcases h0 d hd with h | h
      · exact Or.inl h
      · rcases g3 with ⟨-, g⟩ | ⟨-, -, g, -⟩ <;> rw [g]
        · exact Or.inr h
        · exact Or.inr (List.mem_append_left _ h)
    · by_cases h2 : ∃ d0, e = SeatEvent.display_stopped d0
      · obtain ⟨d0, rfl⟩ := h2
        simp only [seat_step] at hd ⊢
        split at hd
        · rename_i hin
          rw [if_pos hin]
          obtain ⟨g1, g2, g3⟩ := display_stopped_cb_fields seat d0
          rw [g2] at hd
          have hem : ∀ s, s ∈ seat.emitted ++ [SeatSignal.DISPLAY_REMOVED d0] →
              s ∈ (display_stopped_cb seat d0).emitted := by
            intro s hs
            rcases g3 with ⟨-, g⟩ | ⟨-, -, g, -⟩ <;> rw [g]
            · exact hs
            · rcases List.mem_append.mp hs with hs | hs
              · exact List.mem_append_left _ hs
              · exact List.mem_append_right _ (by
                  rw [List.mem_singleton] at hs; rw [hs]; exact List.mem_cons_self _ _)
          rcases h0 d hd with h | h
          · by_cases hq : d = d0
            · subst hq
              exact Or.inr (hem _ (List.mem_append_right _ (List.mem_singleton.mpr rfl)))
            · left
              rw [g1]
              exact (List.mem_erase_of_ne hq).mpr h
          · exact Or.inr (hem _ (List.mem_append_left _ h))
        · rename_i hin
          rw [if_neg hin]
          exact h0 d hd
      · obtain ⟨-, -, ⟨extra, g3, -⟩, ⟨more, g4, -⟩, g5⟩ := seat_step_fields env seat e h1
          (fun d hd => h2 ⟨d, hd⟩)
        rcases g5 with g5 | ⟨d1, g5, g6⟩
        · rw [g5] at hd
          rcases h0 d hd with h | h
          · exact Or.inl (by rw [g4]; exact List.mem_append_left _ h)
          · exact Or.inr (by rw [g3]; exact List.mem_append_left _ h)
        · rw [g5] at hd
          simp only [Option.some.injEq] at hd
          subst hd
          rcases g6 with g6 | g6
          · exact Or.inl g6
          · subst g6
            have hin : d1 ∈ seat.displays := by simpa using hr.1
            left
            simp only [seat_step]
            rw [(seat_set_active_display_fields env seat d1).2.1]
            exact hin

theorem C17_active_display_was_a_display_witness :
    (seat_run seat_local events_start_stop).active_display = some 1
    ∧ (1 ∈ (seat_run seat_local events_start_stop).displays
      ∨ SeatSignal.DISPLAY_REMOVED 1 ∈ (seat_run seat_local events_start_stop).emitted) :=
  ⟨by decide, C17_active_display_was_a_display seat_local events_start_stop
    (fun d h => by cases h) (by decide) 1 (by decide)⟩

/-- C18 as stated fails: `seat_switch_to_greeter` on a seat that has stopped
adds a display, and `stopped` stays `TRUE`. -/
theorem C18_switch_after_stop_adds_display :
    (seat_run seat_local (events_switch_after_stop.take 3)).stopped = true
    ∧ (seat_run seat_local (events_switch_after_stop.take 3)).displays = []
    ∧ (seat_run seat_local events_switch_after_stop).stopped = true
    ∧ (seat_run seat_local events_switch_after_stop).displays = [2] := by
  decide

/-- C18, amended: in every state reached by a run in which `seat_start`,
`seat_switch_to_greeter`, `seat_switch_to_user` and `seat_switch_to_guest` are
not called on a seat that has stopped, `stopped = TRUE` implies that `displays`
is empty. -/
theorem C18_stopped_seat_has_no_display (seat : Seat) (run : List (SeatEnv × SeatEvent))
    (h0 : seat.stopped = true → seat.displays = [])
    (hr : switches_while_running seat run = true) :
    (seat_run seat run).stopped = true → (seat_run seat run).displays = [] := by
  induction run generalizing seat with
  | nil => exact h0
  | cons x rest ih =>
    obtain ⟨env, e⟩ := x
    simp only [switches_while_running, Bool.and_eq_true, Bool.not_eq_true_eq_eq_false,
      Bool.and_eq_false_iff] at hr
    apply ih _ _ hr.2
    intro hst
    by_cases h1 : e = SeatEvent.stop
    · subst h1
      simp only [seat_step] at hst ⊢
      obtain ⟨g1, -, ⟨g, -⟩ | ⟨-, -, -, -, g⟩⟩ := seat_stop_fields seat
      · rw [g1]; exact h0 (g ▸ hst)
      · exact g
    · by_cases h2 : ∃ d0, e = SeatEvent.display_stopped d0
      · obtain ⟨d0, rfl⟩ := h2
        simp only [seat_step] at hst ⊢
        split at hst
        · rename_i hin
          rw [if_pos hin]
          obtain ⟨g1, -, ⟨g, -⟩ | ⟨-, -, -, -, g⟩⟩ := display_stopped_cb_fields seat d0
          · rw [g1, h0 (g ▸ hst)]; rfl
          · exact g
        · rename_i hin
          rw [if_neg hin]
          exact h0 hst
      · obtain ⟨g1, -, -, ⟨more, g4, g5⟩, -⟩ := seat_step_fields env seat e h1
          (fun d hd => h2 ⟨d, hd⟩)
        rw [g1] at hst
        rcases hr.1 with h | h
        · rw [hst] at h; exact absurd h (by simp)
        · rw [g4, g5 h, h0 hst]; rfl

theorem C18_stopped_seat_has_no_display_witness :
    (seat_run seat_local events_start_stop).stopped = true
    ∧ (seat_run seat_local events_start_stop).displays = [] :=
  ⟨by decide, C18_stopped_seat_has_no_display seat_local events_start_stop
    (fun h => by cases h) (by decide) (by decide)⟩

/-- A step emits `STOPPED` at most once, only on a seat that had not stopped,
and leaves the seat stopped, stopping and without displays when it does. -/
theorem seat_step_stopped_signal (env : SeatEnv) (seat : Seat) (e : SeatEvent) :
    ((seat_step env seat e).stopped = seat.stopped
      ∧ (seat_step env seat e).emitted.count SeatSignal.STOPPED
        = seat.emitted.count SeatSignal.STOPPED)
    ∨ (seat.stopped = false ∧ (seat_step env seat e).stopped = true
      ∧ (seat_step env seat e).emitted.count SeatSignal.STOPPED
        = seat.emitted.count SeatSignal.STOPPED + 1
      ∧ (seat_step env seat e).stopping = true ∧ (seat_step env seat e).displays = []) := by
  by_cases h1 : e = SeatEvent.stop
  · subst h1
    simp only [seat_step]
    obtain ⟨-, -, h | ⟨a, b, c, d, f⟩⟩ := seat_stop_fields seat
    · exact Or.inl ⟨h.1, by rw [h.2]⟩
    · exact Or.inr ⟨a, b, by rw [c]; simp, d, f⟩
  · by_cases h2 : ∃ d, e = SeatEvent.display_stopped d
    · obtain ⟨d, rfl⟩ := h2
      simp only [seat_step]
      split
      · obtain ⟨-, -, h | ⟨a, b, c, d, f⟩⟩ := display_stopped_cb_fields seat d
        · exact Or.inl ⟨h.1, by rw [h.2]; simp⟩
        · exact Or.inr ⟨a, b, by rw [c]; simp, d, f⟩
      · exact Or.inl ⟨rfl, rfl⟩
    · obtain ⟨g1, -, ⟨extra, g3, g4⟩, -⟩ := seat_step_fields env seat e h1
        (fun d hd => h2 ⟨d, hd⟩)
      exact Or.inl ⟨g1, by rw [g3, List.count_append, List.count_eq_zero_of_not_mem g4]; rfl⟩

/-- Along a run the number of `STOPPED` signals emitted is one on a stopped
seat and none on another. -/
theorem seat_run_stopped_signal (run : List (SeatEnv × SeatEvent)) (seat : Seat)
    (h : seat.emitted.count SeatSignal.STOPPED = if seat.stopped = true then 1 else 0) :
    (seat_run seat run).emitted.count SeatSignal.STOPPED
      = if (seat_run seat run).stopped = true then 1 else 0 := by
  induction run generalizing seat with
  | nil => exact h
  | cons x rest ih =>
    apply ih
    rcases seat_step_stopped_signal x.1 seat x.2 with ⟨a, b⟩ | ⟨a, b, c, -⟩
    · rw [a, b]; exact h
    · rw [c, b, h, a]; rfl

/-! ## C19, C20: the seat stops once -/

/-- C19: over every run of a seat that starts not stopped and with no
`STOPPED` signal emitted, the signal `STOPPED` is emitted at most once; and
whenever a step of the run emits it, `stopping` is `TRUE` and `displays` is
empty in the state the step leaves, which is the state at the emission. -/
theorem C19_stopped_signal_once (seat : Seat) (run : List (SeatEnv × SeatEvent))
    (hs : seat.stopped = false) (he : SeatSignal.STOPPED ∉ seat.emitted) :
    (seat_run seat run).emitted.count SeatSignal.STOPPED ≤ 1
    ∧ ∀ (env : SeatEnv) (e : SeatEvent),
        (seat_run seat run).emitted.count SeatSignal.STOPPED
          < (seat_step env (seat_run seat run) e).emitted.count SeatSignal.STOPPED →
        (seat_step env (seat_run seat run) e).stopping = true
        ∧ (seat_step env (seat_run seat run) e).displays = [] := by
  constructor
  · rw [seat_run_stopped_signal run seat
      (by rw [List.count_eq_zero_of_not_mem he, hs]; rfl)]
    split <;> omega
  · intro env e hlt
    rcases seat_step_stopped_signal env (seat_run seat run) e with ⟨-, b⟩ | ⟨-, -, -, d, f⟩
    · omega
    · exact ⟨d, f⟩

theorem C19_stopped_signal_once_witness :
    (seat_run seat_local events_start_stop).emitted.count SeatSignal.STOPPED = 1
    ∧ (seat_run seat_local events_start_stop).emitted.count SeatSignal.STOPPED ≤ 1
    ∧ ∀ (env : SeatEnv) (e : SeatEvent),
        (seat_run seat_local events_start_stop).emitted.count SeatSignal.STOPPED
          < (seat_step env (seat_run seat_local events_start_stop) e).emitted.count
              SeatSignal.STOPPED →
        (seat_step env (seat_run seat_local events_start_stop) e).stopping = true
        ∧ (seat_step env (seat_run seat_local events_start_stop) e).displays = [] :=
  ⟨by decide, C19_stopped_signal_once seat_local events_start_stop rfl (by decide)⟩

/-- The function `seat_stop` leaves every seat stopping, so that a second call
changes nothing. -/
theorem seat_stop_twice (seat : Seat) : seat_stop (seat_stop seat) = seat_stop seat := by
  have key : ∀ s : Seat, s.stopping = true → (seat_real_stop s).stopping = true := by
    intro s hst
    have hc : (check_stopped s).stopping = true := by
      rw [check_stopped_eq]; split <;> exact hst
    unfold seat_real_stop
    simp only
    split
    · exact hc
    · exact ((display_stop_all_fields _ _).2.2.2.1).trans hc
  have h : (seat_stop seat).stopping = true := by
    by_cases hs : seat.stopping = true
    · simp [seat_stop, hs]
    · simp only [seat_stop, if_neg hs]
      exact key _ rfl
  have e : ∀ s : Seat, s.stopping = true → seat_stop s = s := by
    intro s hs
    unfold seat_stop
    rw [if_pos hs]
  exact e _ h

/-- C20: on a seat whose `stopping` flag is already `TRUE`, `seat_stop`
returns the seat as it was: no field changes, no call is made (so `stop` is
called on no display) and no signal is emitted. -/
theorem C20_seat_stop_idempotent (seat : Seat) (h : seat.stopping = true) :
    seat_stop seat = seat
    ∧ (seat_stop seat).calls = seat.calls
    ∧ (seat_stop seat).emitted = seat.emitted := by
  have e : seat_stop seat = seat := by unfold seat_stop; rw [if_pos h]
  rw [e]
  exact ⟨rfl, rfl, rfl⟩

theorem C20_seat_stop_idempotent_witness :
    (seat_run seat_local (events_start_stop.take 3)).stopping = true
    ∧ (seat_run seat_local (events_start_stop.take 3)).displays = [1]
    ∧ seat_stop (seat_run seat_local (events_start_stop.take 3))
      = seat_run seat_local (events_start_stop.take 3) :=
  ⟨by decide, by decide,
    (C20_seat_stop_idempotent (seat_run seat_local (events_start_stop.take 3)) (by decide)).1⟩

/-! ## C21: cancelling twice -/

/-- C21 as stated fails: on a session whose worker thread waits for answers,
the second `pam_session_cancel` pushes a second sentinel on the response queue. -/
theorem C21_second_cancel_pushes_again :
    (pam_session_cancel session_prompting).authentication_response_queue
      = some [QueueItem.cancelled]
    ∧ (pam_session_cancel (pam_session_cancel session_prompting)).authentication_response_queue
      = some [QueueItem.cancelled, QueueItem.cancelled]
    ∧ pam_session_cancel (pam_session_cancel session_prompting)
      ≠ pam_session_cancel session_prompting := by
  decide

/-- C21, amended: on a session without worker thread `pam_session_cancel`
changes nothing, once or twice; on a session with a worker thread one call sets
`stop_thread` and pushes one sentinel on the response queue, and two calls in a
row set `stop_thread` and push two sentinels.  No other field changes. -/
theorem C21_cancel_twice (session : PAMSession) :
    pam_session_cancel session
      = (if session.authentication_thread = true then
          { session with
            stop_thread := true
            authentication_response_queue := session.authentication_response_queue.map
              (fun queue => queue ++ [QueueItem.cancelled]) }
        else session)
    ∧ pam_session_cancel (pam_session_cancel session)
      = (if session.authentication_thread = true then
          { session with
            stop_thread := true
            authentication_response_queue := session.authentication_response_queue.map
              (fun queue => queue ++ [QueueItem.cancelled, QueueItem.cancelled]) }
        else session) := by
  by_cases h : session.authentication_thread = true
  · cases hq : session.authentication_response_queue <;> simp [pam_session_cancel, h, hq]
  · simp [pam_session_cancel, h]

/-! ## C22, C23: starting an authentication -/

/-- C22 fails when `g_thread_create` fails: `pam_session_authenticate` on a
new session returns `FALSE` and leaves `in_authentication` `TRUE` with no
worker thread. -/
theorem C22_no_thread_in_authentication :
    (pam_session_authenticate (pam_session_new 1 (str "lightdm") (some (str "alice"))) false).1
      = false
    ∧ (pam_session_authenticate (pam_session_new 1 (str "lightdm") (some (str "alice")))
        false).2.in_authentication = true
    ∧ (pam_session_authenticate (pam_session_new 1 (str "lightdm") (some (str "alice")))
        false).2.authentication_thread = false := by
  decide

/-- The other operations keep the worker thread in step with
`in_authentication`: `pam_session_authenticate` when the thread is created,
`notify_auth_complete_cb`, `pam_session_cancel` and `pam_session_respond`. -/
theorem thread_iff_in_authentication (session : PAMSession)
    (response : List pam_response)
    (h : session.authentication_thread = session.in_authentication) :
    (pam_session_authenticate session true).2.authentication_thread
      = (pam_session_authenticate session true).2.in_authentication
    ∧ (notify_auth_complete_cb session).authentication_thread
      = (notify_auth_complete_cb session).in_authentication
    ∧ (pam_session_cancel session).authentication_thread
      = (pam_session_cancel session).in_authentication
    ∧ (pam_session_respond session response).authentication_thread
      = (pam_session_respond session response).in_authentication := by
  refine ⟨?_, ?_, ?_, ?_⟩
  · unfold pam_session_authenticate
    split
    · exact h
    · split
      · exact h
      · rfl
  · unfold notify_auth_complete_cb report_result pam_session_cancel
    simp
  · unfold pam_session_cancel
    split <;> exact h
  · unfold pam_session_respond
    split <;> exact h

/-- C23 as stated fails: on a session whose earlier attempt failed,
`pam_session_authenticate` succeeds, emits `authentication-started` again and
creates a queue and a worker thread. -/
theorem C23_failed_session_authenticates_again :
    session_failed.in_authentication = false
    ∧ session_failed.is_authenticated = false
    ∧ session_failed.emitted
      = [PAMSessionSignal.AUTHENTICATION_STARTED,
         PAMSessionSignal.AUTHENTICATION_RESULT PAM_AUTH_ERR]
    ∧ (pam_session_authenticate session_failed true).1 = true
    ∧ (pam_session_authenticate session_failed true).2.authentication_thread = true
    ∧ (pam_session_authenticate session_failed true).2.authentication_response_queue = some []
    ∧ (pam_session_authenticate session_failed true).2.emitted
      = [PAMSessionSignal.AUTHENTICATION_STARTED,
         PAMSessionSignal.AUTHENTICATION_RESULT PAM_AUTH_ERR,
         PAMSessionSignal.AUTHENTICATION_STARTED] := by
  decide

/-- C23, amended: on a session that is in authentication or is authenticated,
`pam_session_authenticate` returns `FALSE` and leaves the session as it was:
no field changes, no thread or queue is created, no signal is emitted. -/
theorem C23_authenticate_refused (session : PAMSession) (thread_created : Bool)
    (h : session.in_authentication = true ∨ session.is_authenticated = true) :
    pam_session_authenticate session thread_created = (false, session) := by
  unfold pam_session_authenticate
  rcases h with h | h
  · rw [if_pos h]
  · split
    · rfl
    · simp [h]

theorem C23_authenticate_refused_witness :
    session_prompting.in_authentication = true
    ∧ pam_session_authenticate session_prompting true = (false, session_prompting) :=
  ⟨by decide, C23_authenticate_refused session_prompting true (Or.inl (by decide))⟩

/-! ## C24: the session of an unprivileged daemon -/

/-- C24 as stated fails: in an unprivileged daemon `pam_session_open` sets
`in_session`, `pam_session_close` clears it, and `pam_session_setup` calls
`pam_setcred`. -/
theorem C24_unprivileged_open_sets_in_session :
    (pam_session_open { getuid := 1000, pam_open_session := 0, pam_setcred := fun _ => 0 }
        (pam_session_new 1 (str "lightdm") (some (str "alice")))).2.in_session = true
    ∧ (pam_session_new 1 (str "lightdm") (some (str "alice"))).in_session = false
    ∧ (pam_session_close { getuid := 1000, pam_open_session := 0, pam_setcred := fun _ => 0 }
        { pam_session_new 1 (str "lightdm") (some (str "alice")) with
          in_session := true }).in_session = false
    ∧ (pam_session_setup { getuid := 1000, pam_open_session := 0, pam_setcred := fun _ => 0 }
        (pam_session_new 1 (str "lightdm") (some (str "alice")))).2.pam_calls
      = [PAMCall.pam_setcred PAM_ESTABLISH_CRED] := by
  decide

/-- C24, amended: in an unprivileged daemon (`getuid () != 0`)
`pam_session_open` and `pam_session_close` call nothing in the PAM library and
change no field but `in_session`: `pam_session_open` sets it and returns
`TRUE`, `pam_session_close` clears it. -/
theorem C24_unprivileged_open_close (env : PAMEnv) (session : PAMSession)
    (h : env.getuid ≠ 0) :
    pam_session_open env session = (true, { session with in_session := true })
    ∧ (pam_session_open env session).2.pam_calls = session.pam_calls
    ∧ pam_session_close env session = { session with in_session := false }
    ∧ (pam_session_close env session).pam_calls = session.pam_calls := by
  unfold pam_session_open pam_session_close
  simp [h]

theorem C24_unprivileged_open_close_witness :
    pam_session_open { getuid := 1000, pam_open_session := 7, pam_setcred := fun _ => 7 }
        session_prompting
      = (true, { session_prompting with in_session := true })
    ∧ (pam_session_open { getuid := 1000, pam_open_session := 7, pam_setcred := fun _ => 7 }
        session_prompting).2.pam_calls = [] :=
  ⟨(C24_unprivileged_open_close
      { getuid := 1000, pam_open_session := 7, pam_setcred := fun _ => 7 } session_prompting
      (by decide)).1,
    (C24_unprivileged_open_close
      { getuid := 1000, pam_open_session := 7, pam_setcred := fun _ => 7 } session_prompting
      (by decide)).2.1⟩

/-- The function `pam_session_setup` calls `pam_setcred` whatever the user id
of the daemon, and changes no field of the session. -/
theorem pam_session_setup_calls_setcred (env : PAMEnv) (session : PAMSession) :
    pam_session_setup env session
      = (env.pam_setcred PAM_ESTABLISH_CRED == PAM_SUCCESS,
          { session with
            pam_calls := session.pam_calls ++ [PAMCall.pam_setcred PAM_ESTABLISH_CRED] }) :=
  rfl

/-! ## Lemmas on the properties of a seat -/

theorem seat_get_string_property_set (seat : Seat) (name value : CString) :
    seat_get_string_property (seat_set_property seat name value) name = some value := by
  unfold seat_get_string_property seat_set_property
  simp only [List.find?_append]
  have h : (seat.properties.filter (fun p => p.1 ≠ name)).find? (fun p => p.1 = name) = none := by
    rw [List.find?_eq_none]
    intro p hp
    have := (List.mem_filter.mp hp).2
    simpa using this
  rw [h]
  simp

theorem main_load_seats_none (config : Config) (seat_modules : CString → Option Seat)
    (groups : List CString) (r : Daemon × Nat)
    (h : ∀ g ∈ groups, (str "Seat:").isPrefixOf g = false) :
    main_load_seats config seat_modules groups r = r := by
  induction groups with
  | nil => rfl
  | cons g rest ih =>
    obtain ⟨daemon, n_seats⟩ := r
    unfold main_load_seats
    rw [h g (List.mem_cons_self _ _)]
    simp only [Bool.not_false, if_true]
    exact ih (fun g' hg' => h g' (List.mem_cons_of_mem _ hg'))

/-! ## C25: a seat that must not fail -/

/-- C25: `seat_removed_cb` sets `exit_code` to `EXIT_FAILURE` and stops the
display manager when the property `exit-on-failure` of the seat is `"true"`,
and leaves both alone for every other seat; and when the configuration has no
section `Seat:`, every seat `main` hands to the display manager (the default
seat, if it is created) has `exit-on-failure` = `"true"`. -/
theorem C25_exit_on_failure (daemon : Daemon) (seat : Seat) (config : Config)
    (seat_modules : CString → Option Seat) :
    seat_removed_cb daemon seat
      = (if seat_get_string_property seat (str "exit-on-failure") = some (str "true") then
          { exit_code := EXIT_FAILURE,
            calls := daemon.calls
              ++ [DaemonCall.g_hash_table_remove seat, DaemonCall.display_manager_stop] }
        else
          { exit_code := daemon.exit_code,
            calls := daemon.calls ++ [DaemonCall.g_hash_table_remove seat] })
    ∧ ((∀ g ∈ config.config_get_groups, (str "Seat:").isPrefixOf g = false) →
        ∀ s, DaemonCall.display_manager_add_seat s
            ∈ (main_seats config seat_modules daemon_new).calls →
          seat_get_string_property s (str "exit-on-failure") = some (str "true")) := by
  constructor
  · unfold seat_removed_cb seat_get_boolean_property
    by_cases h : seat_get_string_property seat (str "exit-on-failure") = some (str "true")
    · simp [h]
    · have h' : (seat_get_string_property seat (str "exit-on-failure") == some (str "true"))
          = false := by simpa using h
      simp [h, h']
  · intro hno s hs
    unfold main_seats at hs
    rw [main_load_seats_none config seat_modules _ _ hno] at hs
    unfold main_default_seat at hs
    simp only at hs
    split at hs
    · split at hs
      · simp only [daemon_new, List.nil_append, List.mem_singleton,
          DaemonCall.display_manager_add_seat.injEq] at hs
        rw [hs]
        exact seat_get_string_property_set _ _ _
      · exact absurd hs (by simp [daemon_new])
    · exact absurd hs (by simp [daemon_new])

/-- C25 at a concrete input: with no section `Seat:` and the key
`exit-on-failure=false` in `SeatDefaults`, the default seat is created and has
`exit-on-failure` = `"true"`. -/
theorem C25_exit_on_failure_witness :
    (main_seats config_default (fun _ => some seat_new) daemon_new).calls.length = 1
    ∧ ∀ s, DaemonCall.display_manager_add_seat s
        ∈ (main_seats config_default (fun _ => some seat_new) daemon_new).calls →
      seat_get_string_property s (str "exit-on-failure") = some (str "true") :=
  ⟨by decide,
    (C25_exit_on_failure daemon_new seat_new config_default (fun _ => some seat_new)).2
      (by decide)⟩

/-! ## C26: the words `str_to_bool` accepts -/

/-- C26 fails: `str_to_bool` compares only the first four octets with `true`
and the first five with `false`, so it returns 0 for every argument that begins
with one of the two words, whatever follows. -/
theorem C26_str_to_bool_accepts_longer_words (rest : CString) (bool_out : Bool) :
    str_to_bool (some (str "true" ++ rest)) bool_out = (0, true)
    ∧ str_to_bool (some (str "false" ++ rest)) bool_out = (0, false)
    ∧ str_to_bool (some (str "truex")) false = (0, true)
    ∧ str_to_bool (some (str "Falsehood")) true = (0, false) := by
  refine ⟨?_, ?_, by decide, by decide⟩
  · show str_to_bool (some ([116, 114, 117, 101] ++ rest)) bool_out = (0, true)
    simp [str_to_bool, strncasecmp, tolower, str]
  · show str_to_bool (some ([102, 97, 108, 115, 101] ++ rest)) bool_out = (0, false)
    simp [str_to_bool, strncasecmp, tolower, str]

/-! ## C27: strings at the end of the buffer -/

/-- When the four octets of the length do not fit (`offset + 4 >=
buffer_length`) but the octets of the string do, `write_string` writes the
string without its length; when the length fits and the string after it does
not, it writes the length without the string. -/
theorem write_string_at_buffer_end (buffer : List Nat) (buffer_length offset : Nat)
    (s : CString) :
    (offset + 4 ≥ buffer_length → offset + s.length < buffer_length → 0 < s.length →
      write_string buffer buffer_length (some s) offset
        = (store buffer offset s, offset + s.length))
    ∧ (offset + 4 < buffer_length → offset + 4 + s.length ≥ buffer_length →
      write_string buffer buffer_length (some s) offset
        = (store buffer offset (int_octets s.length), offset + 4)) := by
  constructor
  · intro h1 h2 h3
    unfold write_string write_int
    simp only [if_pos h1, Option.getD_some]
    rw [if_neg (by omega), if_pos (by omega)]
  · intro h1 h2
    unfold write_string write_int
    simp only [if_neg (show ¬ offset + 4 ≥ buffer_length by omega)]
    rw [if_pos (by omega)]

set_option maxRecDepth 1000000 in
/-- C27 fails in both ways in the buffer of a message: at offset 1021
`write_string` writes the two octets of `"ab"` without their length, and at
offset 1017 it writes the length 6 of `"abcdef"` without the six octets. -/
theorem C27_write_string_in_parts :
    write_string message_buffer MAX_MESSAGE_LENGTH (some (str "ab")) 1021
      = (store message_buffer 1021 (str "ab"), 1023)
    ∧ (store message_buffer 1021 (str "ab")).drop 1018 = [0, 0, 0, 97, 98, 0]
    ∧ write_string message_buffer MAX_MESSAGE_LENGTH (some (str "abcdef")) 1017
      = (store message_buffer 1017 (int_octets 6), 1021)
    ∧ (store message_buffer 1017 (int_octets 6)).drop 1016 = [0, 0, 0, 0, 6, 0, 0, 0] :=
  ⟨(write_string_at_buffer_end message_buffer MAX_MESSAGE_LENGTH 1021 (str "ab")).1
      (by decide) (by decide) (by decide),
    by decide,
    (write_string_at_buffer_end message_buffer MAX_MESSAGE_LENGTH 1017 (str "abcdef")).2
      (by decide) (by decide),
    by decide⟩

/-! ## C30: the active display -/

/-- C30: `seat_real_set_active_display (seat, d)` changes nothing and makes
no call when `d` is the active display; otherwise `d` becomes the active
display, and the display that was active, if any, is stopped when it has no
user name and is left running when it has one; nothing else changes. -/
theorem C30_set_active_display (env : SeatEnv) (seat : Seat) (d : Nat) :
    seat_real_set_active_display env seat d
      = (if seat.active_display = some d then seat
        else
          { seat with
            active_display := some d
            calls := seat.calls
              ++ (match seat.active_display with
                  | some active_display =>
                      if env.display_get_username active_display = none then
                        [SeatCall.display_stop active_display]
                      else []
                  | none => []) }) := by
  unfold seat_real_set_active_display
  by_cases h : seat.active_display = some d
  · simp [h]
  · have h' : ¬ some d = seat.active_display := fun e => h e.symm
    rw [if_neg h', if_neg h]
    cases ha : seat.active_display with
    | none => simp
    | some a =>
      by_cases hu : env.display_get_username a = none
      · simp [hu, seat_call]
      · simp [hu]

/-! ## Lemmas on the offsets of reads -/

theorem gsize_sub_le (n o : Nat) (ho : o ≤ n) (hn : n < 2 ^ 64) : gsize_sub n o = n - o := by
  unfold gsize_sub
  have h64 : (2 : Nat) ^ 64 = 18446744073709551616 := by norm_num
  rw [h64] at hn ⊢
  omega

theorem read_int_offset_le (greeter : Greeter) (o : Nat) (ho : o ≤ greeter.n_read)
    (hn : greeter.n_read < 2 ^ 64) : (read_int greeter o).2 ≤ greeter.n_read := by
  unfold read_int
  rw [gsize_sub_le _ _ ho hn]
  split
  · exact ho
  · simp only [int_length]; omega

theorem read_string_offset_le (greeter : Greeter) (o : Nat) (ho : o ≤ greeter.n_read)
    (hn : greeter.n_read < 2 ^ 64) : (read_string greeter o).2 ≤ greeter.n_read := by
  have h := read_int_offset_le greeter o ho hn
  unfold read_string
  simp only
  rw [gsize_sub_le _ _ h hn]
  split
  · exact h
  · simp only; omega

theorem read_calls_le (greeter : Greeter) (calls : List ReadCall) (o : Nat)
    (ho : o ≤ greeter.n_read) (hn : greeter.n_read < 2 ^ 64) :
    read_calls greeter calls o ≤ greeter.n_read := by
  induction calls generalizing o with
  | nil => exact ho
  | cons c rest ih =>
    cases c with
    | read_int => exact ih _ (read_int_offset_le greeter o ho hn)
    | read_string => exact ih _ (read_string_offset_le greeter o ho hn)

theorem getD_drop_take (buffer : List Nat) (n o k : Nat) (h : o + k < n) :
    (buffer.drop o).getD k 0 = ((buffer.take n).drop o).getD k 0 := by
  rw [List.getD_eq_getElem?_getD, List.getD_eq_getElem?_getD, List.getElem?_drop,
    List.getElem?_drop, List.getElem?_take_of_lt h]

theorem take_drop_take (buffer : List Nat) (n o len : Nat) (h : o + len ≤ n) :
    (buffer.drop o).take len = ((buffer.take n).drop o).take len := by
  rw [List.drop_take, List.take_take, Nat.min_eq_left (by omega)]

/-- The functions `read_int` and `read_string` read only octets below `n_read`: on two
buffers that agree below `n_read` they return the same. -/
theorem read_below_n_read (greeter other : Greeter) (o : Nat)
    (hn : greeter.n_read < 2 ^ 64) (hsame : other.n_read = greeter.n_read)
    (hbuf : other.read_buffer.take greeter.n_read = greeter.read_buffer.take greeter.n_read)
    (ho : o ≤ greeter.n_read) :
    read_int other o = read_int greeter o ∧ read_string other o = read_string greeter o := by
  have hint : ∀ o, o ≤ greeter.n_read → read_int other o = read_int greeter o := by
    intro o ho
    unfold read_int
    rw [hsame, gsize_sub_le _ _ ho hn]
    split
    · rfl
    · rename_i h4
      have e : ∀ k, k < 4 → (other.read_buffer.drop o).getD k 0
          = (greeter.read_buffer.drop o).getD k 0 := by
        intro k hk
        rw [getD_drop_take other.read_buffer greeter.n_read o k (by omega),
          getD_drop_take greeter.read_buffer greeter.n_read o k (by omega), hbuf]
      simp only [e 0 (by omega), e 1 (by omega), e 2 (by omega), e 3 (by omega)]
  refine ⟨hint o ho, ?_⟩
  have h := read_int_offset_le greeter o ho hn
  unfold read_string
  simp only
  rw [hint o ho, hsame, gsize_sub_le _ _ h hn]
  split
  · rfl
  · rename_i hl
    rw [take_drop_take other.read_buffer greeter.n_read _ _ (by omega),
      take_drop_take greeter.read_buffer greeter.n_read _ _ (by omega), hbuf]

/-! ## C28: reads stay within the octets received -/

/-- C28: for a buffer holding `n_read` octets (`n_read` a `gsize`), every
sequence of calls of `read_int` and `read_string` from offset 0 leaves the
offset at most `n_read`; the calls read only octets below `n_read` (they return
the same on any buffer that agrees below `n_read`); with fewer than four octets
left `read_int` returns 0 and leaves the offset; and when the length a string
declares exceeds what is left after the length, `read_string` returns the
empty string and leaves the offset after the four octets of the length. -/
theorem C28_reads_stay_in_buffer (greeter : Greeter) (calls : List ReadCall)
    (hn : greeter.n_read < 2 ^ 64) :
    read_calls greeter calls 0 ≤ greeter.n_read
    ∧ (∀ (other : Greeter) (o : Nat), other.n_read = greeter.n_read →
        other.read_buffer.take greeter.n_read = greeter.read_buffer.take greeter.n_read →
        o ≤ greeter.n_read →
        read_int other o = read_int greeter o ∧ read_string other o = read_string greeter o)
    ∧ (∀ o, o ≤ greeter.n_read → greeter.n_read - o < 4 → read_int greeter o = (0, o))
    ∧ (∀ o, o + 4 ≤ greeter.n_read → greeter.n_read - (o + 4) < (read_int greeter o).1 →
        read_string greeter o = ([], o + 4)) := by
  refine ⟨read_calls_le greeter calls 0 (Nat.zero_le _) hn, ?_, ?_, ?_⟩
  · intro other o hsame hbuf ho
    exact read_below_n_read greeter other o hn hsame hbuf ho
  · intro o ho h4
    unfold read_int
    rw [gsize_sub_le _ _ ho hn, if_pos h4]
  · intro o ho hl
    have h2 : (read_int greeter o).2 = o + 4 := by
      unfold read_int
      rw [gsize_sub_le _ _ (by omega) hn, if_neg (by omega)]
      rfl
    unfold read_string
    simp only
    rw [h2, gsize_sub_le _ _ ho hn, if_pos hl]

/-- C28 at a concrete input: twelve octets received, `00 00 00 02 'h' 'i'`,
then a length of 9 with two octets after it; the string `"hi"` is read, the
second string is empty and the offset stays at 10, and a `read_int` there
returns 0. -/
theorem C28_reads_stay_in_buffer_witness :
    read_calls { greeter_new with
        read_buffer := [0, 0, 0, 2, 104, 105, 0, 0, 0, 9, 7, 7], n_read := 12 }
      [ReadCall.read_string, ReadCall.read_string, ReadCall.read_int] 0 ≤ 12
    ∧ read_string { greeter_new with
        read_buffer := [0, 0, 0, 2, 104, 105, 0, 0, 0, 9, 7, 7], n_read := 12 } 6 = ([], 10)
    ∧ read_int { greeter_new with
        read_buffer := [0, 0, 0, 2, 104, 105, 0, 0, 0, 9, 7, 7], n_read := 12 } 10 = (0, 10) :=
  ⟨(C28_reads_stay_in_buffer { greeter_new with
        read_buffer := [0, 0, 0, 2, 104, 105, 0, 0, 0, 9, 7, 7], n_read := 12 }
      [ReadCall.read_string, ReadCall.read_string, ReadCall.read_int] (by decide)).1,
    (C28_reads_stay_in_buffer { greeter_new with
        read_buffer := [0, 0, 0, 2, 104, 105, 0, 0, 0, 9, 7, 7], n_read := 12 }
      [] (by decide)).2.2.2 6 (by decide) (by decide),
    (C28_reads_stay_in_buffer { greeter_new with
        read_buffer := [0, 0, 0, 2, 104, 105, 0, 0, 0, 9, 7, 7], n_read := 12 }
      [] (by decide)).2.2.1 10 (by decide) (by decide)⟩

/-! ## Lemmas on who is authenticated -/

/-- The operations of a session other than the end of its worker thread keep
its identity and `is_authenticated`. -/
theorem session_kept (env : Env) (s : PAMSession) (response : List pam_response)
    (msg : List pam_message) :
    ((pam_session_cancel s).self = s.self
      ∧ (pam_session_cancel s).is_authenticated = s.is_authenticated)
    ∧ ((pam_session_respond s response).self = s.self
      ∧ (pam_session_respond s response).is_authenticated = s.is_authenticated)
    ∧ ((pam_session_get_user env s).2.self = s.self
      ∧ (pam_session_get_user env s).2.is_authenticated = s.is_authenticated)
    ∧ ((pam_conv_cb_resume s).self = s.self
      ∧ (pam_conv_cb_resume s).is_authenticated = s.is_authenticated)
    ∧ (∀ s', pam_conv_cb s msg = some s' →
        s'.self = s.self ∧ s'.is_authenticated = s.is_authenticated) := by
  refine ⟨?_, ?_, ?_, ?_, ?_⟩
  · unfold pam_session_cancel; split <;> exact ⟨rfl, rfl⟩
  · unfold pam_session_respond; split <;> exact ⟨rfl, rfl⟩
  · unfold pam_session_get_user; split <;> exact ⟨rfl, rfl⟩
  · unfold pam_conv_cb_resume; split <;> exact ⟨rfl, rfl⟩
  · intro s' h
    unfold pam_conv_cb at h
    split at h
    · exact absurd h (by simp)
    · split at h
      · exact absurd h (by simp)
      · simp only [Option.some.injEq] at h
        rw [← h]
        exact ⟨rfl, rfl⟩

theorem notify_auth_complete_cb_authenticated (s : PAMSession) (result : Nat) :
    (notify_auth_complete_cb { s with authentication_result := result }).self = s.self
    ∧ (notify_auth_complete_cb { s with authentication_result := result }).is_authenticated
      = (result == PAM_SUCCESS) := by
  unfold notify_auth_complete_cb report_result
  simp only
  split
  · exact ⟨(session_kept env_refusing _ [] []).1.1, (session_kept env_refusing _ [] []).1.2⟩
  · exact ⟨rfl, rfl⟩

/-- A step that keeps the guest flag, and the identity and `is_authenticated`
of the current session. -/
theorem authenticated_kept (greeter greeter' : Greeter)
    (hg : greeter'.guest_account_authenticated = greeter.guest_account_authenticated)
    (ha : greeter'.authentication = greeter.authentication
      ∨ ∃ s s', greeter.authentication = some s ∧ greeter'.authentication = some s'
          ∧ s'.self = s.self ∧ s'.is_authenticated = s.is_authenticated) :
    greeter'.guest_account_authenticated = greeter.guest_account_authenticated
    ∧ greeter'.authentication.map (fun s => s.self)
      = greeter.authentication.map (fun s => s.self)
    ∧ pam_session_get_is_authenticated greeter'.authentication
      = pam_session_get_is_authenticated greeter.authentication := by
  rcases ha with ha | ⟨s, s', h1, h2, h3, h4⟩
  · rw [ha]; exact ⟨hg, rfl, rfl⟩
  · rw [h1, h2]
    exact ⟨hg, by simp [h3], by simp [pam_session_get_is_authenticated, h4]⟩

theorem handle_start_session_fields (env : Env) (greeter : Greeter) (session : CString) :
    (handle_start_session env greeter session).guest_account_authenticated
      = greeter.guest_account_authenticated
    ∧ (handle_start_session env greeter session).authentication = greeter.authentication
    ∧ ((handle_start_session env greeter session).emitted ≠ greeter.emitted →
        greeter.guest_account_authenticated = true
        ∨ pam_session_get_is_authenticated greeter.authentication = true) := by
  unfold handle_start_session
  simp only
  rw [session_result_eq]
  by_cases hb : (greeter.guest_account_authenticated
      || pam_session_get_is_authenticated greeter.authentication) = true
  · rw [if_pos hb]
    have hb' : greeter.guest_account_authenticated = true
        ∨ pam_session_get_is_authenticated greeter.authentication = true := by
      simpa using hb
    cases hr : env.start_session (if session = [] then none else some session) with
    | true =>
      simp only [Bool.not_true, Bool.false_eq_true, if_false]
      exact ⟨trivial, trivial, fun _ => hb'⟩
    | false =>
      simp only [Bool.not_false, if_true]
      exact ⟨trivial, trivial, fun _ => hb'⟩
  · rw [if_neg hb]
    simp only [Bool.not_false, if_true]
    exact ⟨trivial, trivial, fun h => absurd rfl h⟩

/-- A step other than an authentication request keeps the guest flag and the
identity of the current session, and makes the current session authenticated
only by the end of its worker thread with `PAM_SUCCESS`. -/
theorem step_authenticated (env : Env) (greeter : Greeter) (e : Event)
    (hsup : supersedes e = false) :
    (step env greeter e).guest_account_authenticated = greeter.guest_account_authenticated
    ∧ (step env greeter e).authentication.map (fun s => s.self)
      = greeter.authentication.map (fun s => s.self)
    ∧ (pam_session_get_is_authenticated (step env greeter e).authentication = true →
        pam_session_get_is_authenticated greeter.authentication = true
        ∨ ∃ sid, greeter.authentication.map (fun s => s.self) = some sid
            ∧ e = Event.authentication_complete sid PAM_SUCCESS) := by
  have kept : ∀ greeter' : Greeter,
      greeter'.guest_account_authenticated = greeter.guest_account_authenticated →
      (greeter'.authentication = greeter.authentication
        ∨ ∃ s s', greeter.authentication = some s ∧ greeter'.authentication = some s'
            ∧ s'.self = s.self ∧ s'.is_authenticated = s.is_authenticated) →
      (greeter'.guest_account_authenticated = greeter.guest_account_authenticated
      ∧ greeter'.authentication.map (fun s => s.self)
        = greeter.authentication.map (fun s => s.self)
      ∧ (pam_session_get_is_authenticated greeter'.authentication = true →
          pam_session_get_is_authenticated greeter.authentication = true
          ∨ ∃ sid, greeter.authentication.map (fun s => s.self) = some sid
              ∧ e = Event.authentication_complete sid PAM_SUCCESS)) := by
    intro greeter' hg ha
    obtain ⟨k1, k2, k3⟩ := authenticated_kept greeter greeter' hg ha
    exact ⟨k1, k2, fun h => Or.inl (k3 ▸ h)⟩
  cases e with
  | CONNECT version =>
    rw [show step env greeter (Event.CONNECT version) = handle_connect env greeter version
      from rfl, handle_connect_eq]
    exact kept _ rfl (Or.inl rfl)
  | AUTHENTICATE seq username => exact absurd hsup (by simp [supersedes])
  | AUTHENTICATE_AS_GUEST seq => exact absurd hsup (by simp [supersedes])
  | CONTINUE_AUTHENTICATION secrets =>
    simp only [step, handle_continue_authentication]
    split
    · exact kept _ rfl (Or.inl rfl)
    · rename_i s hs
      split
      · exact kept _ rfl (Or.inr ⟨s, _, hs, rfl, (session_kept env s [] []).1⟩)
      · exact kept _ rfl (Or.inr ⟨s, _, hs, rfl, (session_kept env s _ []).2.1⟩)
  | START_SESSION name =>
    simp only [step]
    obtain ⟨h1, h2, -⟩ := handle_start_session_fields env greeter name
    exact kept _ h1 (Or.inl h2)
  | CANCEL_AUTHENTICATION =>
    simp only [step, handle_cancel_authentication]
    split
    · exact kept _ rfl (Or.inl rfl)
    · rename_i s hs
      exact kept _ rfl (Or.inr ⟨s, _, hs, rfl, (session_kept env s [] []).1⟩)
  | SET_LANGUAGE locale =>
    simp only [step, handle_set_language]
    split
    · exact kept _ rfl (Or.inl rfl)
    · split
      · exact kept _ rfl (Or.inl rfl)
      · split
        · rename_i hn
          exact kept _ rfl (Or.inl (by simp [user_set_locale, hn]))
        · rename_i s hs
          exact kept _ rfl (Or.inr ⟨s, _, hs, rfl, (session_kept env s [] []).2.2.1⟩)
  | got_messages session msg =>
    simp only [step]
    split
    · rename_i s hs
      split
      · split
        · exact kept _ rfl (Or.inl rfl)
        · rename_i s' hs'
          obtain ⟨c1, c2⟩ := (session_kept env s [] msg).2.2.2.2 s' hs'
          rw [pam_messages_cb_eq]
          split
          · refine kept _ rfl (Or.inr ⟨s, _, hs, rfl, ?_, ?_⟩)
            · exact ((session_kept env s' _ []).2.1.1).trans c1
            · exact ((session_kept env s' _ []).2.1.2).trans c2
          · exact kept _ rfl (Or.inr ⟨s, s', hs, rfl, c1, c2⟩)
      · exact kept _ rfl (Or.inl rfl)
    · exact kept _ rfl (Or.inl rfl)
  | response_taken session =>
    simp only [step]
    split
    · rename_i s hs
      split
      · exact kept _ rfl (Or.inr ⟨s, _, hs, rfl, (session_kept env s [] []).2.2.2.1⟩)
      · exact kept _ rfl (Or.inl rfl)
    · exact kept _ rfl (Or.inl rfl)
  | authentication_complete session result =>
    simp only [step]
    split
    · rename_i s hs
      split
      · rename_i hcur
        obtain ⟨n1, n2⟩ := notify_auth_complete_cb_authenticated s result
        unfold authentication_result_cb
        rw [send_end_authentication_eq]
        refine ⟨rfl, by simp [hs, n1], fun h => Or.inr ⟨session, by simp [hs, hcur.1], ?_⟩⟩
        simp only [pam_session_get_is_authenticated, n2, beq_iff_eq] at h
        rw [h]
      · exact kept _ rfl (Or.inl rfl)
    · exact kept _ rfl (Or.inl rfl)

/-- Along a run without authentication requests the guest flag and the
identity of the current session stay, and the current session is authenticated
at the end only if it was at the start or its worker thread ended with
`PAM_SUCCESS` during the run. -/
theorem run_authenticated (events : List (Env × Event)) (greeter : Greeter)
    (hno : ∀ x ∈ events, supersedes x.2 = false) :
    (run greeter events).guest_account_authenticated = greeter.guest_account_authenticated
    ∧ (run greeter events).authentication.map (fun s => s.self)
      = greeter.authentication.map (fun s => s.self)
    ∧ (pam_session_get_is_authenticated (run greeter events).authentication = true →
        pam_session_get_is_authenticated greeter.authentication = true
        ∨ ∃ sid, greeter.authentication.map (fun s => s.self) = some sid
            ∧ ∃ x ∈ events, x.2 = Event.authentication_complete sid PAM_SUCCESS) := by
  induction events generalizing greeter with
  | nil => exact ⟨rfl, rfl, fun h => Or.inl h⟩
  | cons x rest ih =>
    obtain ⟨s1, s2, s3⟩ := step_authenticated x.1 greeter x.2 (hno x (List.mem_cons_self _ _))
    obtain ⟨r1, r2, r3⟩ := ih (step x.1 greeter x.2)
      (fun y hy => hno y (List.mem_cons_of_mem _ hy))
    refine ⟨r1.trans s1, r2.trans s2, fun h => ?_⟩
    rcases r3 h with h' | ⟨sid, hsid, y, hy, hye⟩
    · rcases s3 h' with h'' | ⟨sid, hsid, hx⟩
      · exact Or.inl h''
      · exact Or.inr ⟨sid, hsid, x, List.mem_cons_self _ _, hx⟩
    · exact Or.inr ⟨sid, s2 ▸ hsid, y, List.mem_cons_of_mem _ hy, hye⟩

/-- After `handle_login` the guest flag is off, and the session the handler of
`start-authentication` yielded, if it is new, is not authenticated. -/
theorem handle_login_fields (env : Env) (greeter : Greeter) (seq : Nat) (u : CString) :
    (handle_login env greeter seq u).guest_account_authenticated = false
    ∧ (yields_new_sessions env →
        pam_session_get_is_authenticated (handle_login env greeter seq u).authentication
          = false) := by
  have hr : (reset_session greeter).guest_account_authenticated = false := by
    unfold reset_session; cases greeter.authentication <;> rfl
  unfold handle_login
  simp only
  cases hs : env.start_authentication (if u = [] then none else some u) with
  | none =>
    simp only [send_end_authentication_eq]
    exact ⟨hr, fun _ => rfl⟩
  | some s =>
    simp only
    have ha : yields_new_sessions env →
        (pam_session_authenticate s env.thread_created).2.is_authenticated = false := by
      intro hnew
      obtain ⟨-, h2, -⟩ := hnew _ s hs
      unfold pam_session_authenticate
      split
      · exact h2
      · split
        · exact h2
        · exact h2
    split
    · simp only [send_end_authentication_eq]
      exact ⟨hr, fun hnew => by simp [pam_session_get_is_authenticated, ha hnew]⟩
    · exact ⟨hr, fun hnew => by simp [pam_session_get_is_authenticated, ha hnew]⟩

/-! ## C29: a guest authentication does not outlive a request -/

/-- C29: after `handle_login` the flag `guest_account_authenticated` is
`FALSE` whatever it was; after `handle_login_as_guest` it equals `allow_guest`;
and when the handler of `start-authentication` yields new sessions, then after
`AUTHENTICATE` followed by events other than authentication requests the flag
is still `FALSE`, and `handle_start_session` emits `start-session` only if the
worker thread of the session of that `AUTHENTICATE` ended with `PAM_SUCCESS`. -/
theorem C29_guest_authentication_reset (env env' : Env) (greeter : Greeter) (seq : Nat)
    (u name : CString) (events : List (Env × Event)) :
    (handle_login env greeter seq u).guest_account_authenticated = false
    ∧ (handle_login_as_guest greeter seq).guest_account_authenticated = greeter.allow_guest
    ∧ (yields_new_sessions env → (∀ x ∈ events, supersedes x.2 = false) →
        (run (handle_login env greeter seq u) events).guest_account_authenticated = false
        ∧ ((handle_start_session env' (run (handle_login env greeter seq u) events) name).emitted
            ≠ (run (handle_login env greeter seq u) events).emitted →
          ∃ s, (handle_login env greeter seq u).authentication = some s
            ∧ ∃ x ∈ events, x.2 = Event.authentication_complete s.self PAM_SUCCESS)) := by
  obtain ⟨l1, l2⟩ := handle_login_fields env greeter seq u
  refine ⟨l1, ?_, ?_⟩
  · have hr : (reset_session greeter).allow_guest = greeter.allow_guest
        ∧ (reset_session greeter).guest_account_authenticated = false := by
      unfold reset_session; cases greeter.authentication <;> exact ⟨rfl, rfl⟩
    unfold handle_login_as_guest
    simp only [send_end_authentication_eq, hr.1]
    cases hg : greeter.allow_guest with
    | true => simp
    | false => simp [hr.2]
  · intro hnew hno
    obtain ⟨r1, -, r3⟩ := run_authenticated events (handle_login env greeter seq u) hno
    refine ⟨r1.trans l1, fun hem => ?_⟩
    rcases (handle_start_session_fields env' _ name).2.2 hem with hg | ha
    · rw [r1, l1] at hg
      exact absurd hg (by simp)
    · rcases r3 ha with h0 | ⟨sid, hsid, x, hx, hxe⟩
      · rw [l2 hnew] at h0
        exact absurd h0 (by simp)
      · cases hs : (handle_login env greeter seq u).authentication with
        | none => rw [hs] at hsid; exact absurd hsid (by simp)
        | some s =>
          rw [hs] at hsid
          simp only [Option.map_some', Option.some.injEq] at hsid
          exact ⟨s, rfl, x, hx, hsid ▸ hxe⟩

set_option maxRecDepth 1000000 in
/-- C29 at a concrete input: the password login of `"alice"`; the session is
started after the worker thread of session 1 ended with `PAM_SUCCESS`. -/
theorem C29_guest_authentication_reset_witness :
    (handle_start_session (env_starting 1)
        (run (handle_login (env_starting 1) greeter_new 7 [97, 108, 105, 99, 101])
          ((events_login.drop 2).take 4)) []).emitted
      ≠ (run (handle_login (env_starting 1) greeter_new 7 [97, 108, 105, 99, 101])
          ((events_login.drop 2).take 4)).emitted
    ∧ ∃ s, (handle_login (env_starting 1) greeter_new 7 [97, 108, 105, 99, 101]).authentication
        = some s
      ∧ ∃ x ∈ (events_login.drop 2).take 4,
          x.2 = Event.authentication_complete s.self PAM_SUCCESS :=
  ⟨by decide,
    ((C29_guest_authentication_reset (env_starting 1) (env_starting 1) greeter_new 7
        [97, 108, 105, 99, 101] [] ((events_login.drop 2).take 4)).2.2
      (env_starting_new 1) (by decide)).2 (by decide)⟩

/-! ## C2 (amended): what `read_cb` does with a whole frame -/

set_option maxRecDepth 1000000 in
/-- The frames left out above: on a `CONTINUE_AUTHENTICATION` whose count of
secrets is `2^32 - 1`, `2^31` or `2^31 - 1` the daemon stops in `read_cb`; no
handler runs and `read_cb` does not return. -/
theorem read_cb_stops_on_secrets_count :
    read_cb env_refusing 2 G_IO_IN { greeter_new with
        authentication := some session_prompting
        from_greeter_channel := [0, 0, 0, 3, 0, 0, 0, 4, 255, 255, 255, 255] }
      = ReadOutcome.daemon_stopped
    ∧ read_cb env_refusing 2 G_IO_IN { greeter_new with
        authentication := some session_prompting
        from_greeter_channel := [0, 0, 0, 3, 0, 0, 0, 4, 128, 0, 0, 0] }
      = ReadOutcome.daemon_stopped
    ∧ read_cb env_refusing 2 G_IO_IN { greeter_new with
        authentication := some session_prompting
        from_greeter_channel := [0, 0, 0, 3, 0, 0, 0, 4, 127, 255, 255, 255] }
      = ReadOutcome.daemon_stopped := by
  decide

/-! ## C10: the language of the user -/

set_option maxRecDepth 1000000 in
/-- C10 as stated fails: the guest account is not authenticated and the
session of `"alice"` is authenticated, but the accounts know no user of that
name.  `handle_set_language` calls `user_set_locale` with the user `NULL`: the
locale is persisted to no user. -/
theorem C10_unknown_user_gets_no_locale :
    (run greeter_new (events_login.take 6)).guest_account_authenticated = false
    ∧ pam_session_get_is_authenticated (run greeter_new (events_login.take 6)).authentication
      = true
    ∧ (handle_set_language { env_starting 1 with accounts_get_user_by_name := fun _ => none }
        (run greeter_new (events_login.take 6)) (str "fr_FR")).locale_set
      = [(none, str "fr_FR")] := by
  decide

/-- C10, amended: `handle_set_language` calls `user_set_locale (user, locale)`
iff the guest account is not authenticated and the current session is
authenticated; `user` is then the user of the session, that is the user kept
from an earlier lookup or else the one the accounts know under the `PAM_USER`
of the session, and `NULL` when there is none; the session keeps the user
found.  The locale is persisted to a user `u` iff moreover that lookup yields
`u`.  In every other state the greeter is left as it was. -/
theorem C10_set_language_user (env : Env) (greeter : Greeter) (language : CString) :
    (∀ s, greeter.guest_account_authenticated = false → greeter.authentication = some s →
        s.is_authenticated = true →
        handle_set_language env greeter language
          = { greeter with
              authentication := some { s with
                user := match s.user with
                  | some user => some user
                  | none => s.username.bind env.accounts_get_user_by_name }
              locale_set := greeter.locale_set
                ++ [(match s.user with
                      | some user => some user
                      | none => s.username.bind env.accounts_get_user_by_name, language)] })
    ∧ (∀ u, (handle_set_language env greeter language).locale_set
          = greeter.locale_set ++ [(some u, language)] ↔
        (greeter.guest_account_authenticated = false
          ∧ ∃ s, greeter.authentication = some s ∧ s.is_authenticated = true
            ∧ (match s.user with
                | some user => some user
                | none => s.username.bind env.accounts_get_user_by_name) = some u))
    ∧ ((handle_set_language env greeter language).locale_set ≠ greeter.locale_set ↔
        (greeter.guest_account_authenticated = false
          ∧ pam_session_get_is_authenticated greeter.authentication = true))
    ∧ (¬ (greeter.guest_account_authenticated = false
          ∧ pam_session_get_is_authenticated greeter.authentication = true) →
        handle_set_language env greeter language = greeter) := by
  have huser : ∀ s : PAMSession, pam_session_get_user env s
      = (match s.user with
          | some user => some user
          | none => s.username.bind env.accounts_get_user_by_name,
        { s with
          user := match s.user with
            | some user => some user
            | none => s.username.bind env.accounts_get_user_by_name }) := by
    intro s
    cases s with
    | mk self service username user interactive authentication_thread stop_thread messages
        authentication_result authentication_response_queue pam_handle in_authentication
        is_authenticated in_session emitted pam_calls =>
      unfold pam_session_get_user pam_session_get_username
      cases user <;> cases username <;> rfl
  have hyes : ∀ s, greeter.guest_account_authenticated = false →
      greeter.authentication = some s → s.is_authenticated = true →
      handle_set_language env greeter language
        = { greeter with
            authentication := some { s with
              user := match s.user with
                | some user => some user
                | none => s.username.bind env.accounts_get_user_by_name }
            locale_set := greeter.locale_set
              ++ [(match s.user with
                    | some user => some user
                    | none => s.username.bind env.accounts_get_user_by_name, language)] } := by
    intro s hg hs ha
    simp only [handle_set_language, hg, hs, pam_session_get_is_authenticated, ha, Bool.not_true,
      Bool.and_false, Bool.false_eq_true, if_false, user_set_locale, huser s]
  have hno : ¬ (greeter.guest_account_authenticated = false
        ∧ pam_session_get_is_authenticated greeter.authentication = true) →
      handle_set_language env greeter language = greeter := by
    intro h
    cases hg : greeter.guest_account_authenticated with
    | true =>
      simp only [handle_set_language, hg, Bool.not_true, Bool.false_and, Bool.false_eq_true,
        if_false, if_true]
    | false =>
      have ha : pam_session_get_is_authenticated greeter.authentication = false := by
        cases hx : pam_session_get_is_authenticated greeter.authentication with
        | true => exact absurd ⟨hg, hx⟩ h
        | false => rfl
      simp only [handle_set_language, hg, ha, Bool.not_false, Bool.and_self, if_true]
  refine ⟨hyes, ?_, ⟨?_, ?_⟩, hno⟩
  · intro u
    constructor
    · intro he
      by_cases hcon : greeter.guest_account_authenticated = false
          ∧ pam_session_get_is_authenticated greeter.authentication = true
      · obtain ⟨hg, ha⟩ := hcon
        cases hs : greeter.authentication with
        | none => rw [hs] at ha; exact absurd ha (by decide)
        | some s =>
          rw [hs] at ha
          have ha' : s.is_authenticated = true := ha
          rw [hyes s hg hs ha'] at he
          simp only [List.append_cancel_left_eq, List.cons.injEq, Prod.mk.injEq, and_true] at he
          exact ⟨hg, s, rfl, ha', he⟩
      · rw [hno hcon] at he
        exact absurd he (by simp)
    · rintro ⟨hg, s, hs, ha, hu⟩
      rw [hyes s hg hs ha, hu]
  · intro hne
    by_contra hcon
    rw [hno hcon] at hne
    exact hne rfl
  · rintro ⟨hg, ha⟩
    cases hs : greeter.authentication with
    | none => rw [hs] at ha; exact absurd ha (by decide)
    | some s =>
      rw [hs] at ha
      rw [hyes s hg hs ha]
      simp

set_option maxRecDepth 1000000 in
/-- C10, amended, at a concrete input: after the password login of `"alice"`
the locale `"fr_FR"` is persisted to the user `"alice"` the accounts know. -/
theorem C10_set_language_user_witness :
    (handle_set_language (env_starting 1) (run greeter_new (events_login.take 6))
        (str "fr_FR")).locale_set
      = (run greeter_new (events_login.take 6)).locale_set
        ++ [(some { name := str "alice" }, str "fr_FR")]
    ∧ (run greeter_new (events_login.take 6)).locale_set = [] :=
  ⟨((C10_set_language_user (env_starting 1) (run greeter_new (events_login.take 6))
      (str "fr_FR")).2.1 { name := str "alice" }).mpr (by decide),
    by decide⟩

end LightDM
